import Mathlib

/-!
# BAHAMUT: behaviour core of the robot firmware (`BAHAMUT SOFTWARE/src/main.cpp`)

A shallow embedding of the input dispatcher `notify`, the motion primitives it
invokes, the battery monitor `Display_Voltage`, the LED renderers and the pose
tables.

Modelling conventions
* Joints are the nine indices `0..8` of the source, the type `Fin 9`.  A joint
  target is the last angle written for a joint index, whether the
  source writes it through the named servo (`s_rf.write`) or through the array
  alias (`joints[rf].write`); both are the same joint of the robot.
* `millis()` is sampled once per call of `notify` / `Display_Voltage` and passed
  in as `now`; `unsigned long` sums are reduced modulo `2^32`.
* The voltage buffer holds the integer samples of `analogRead` (and the zeros of
  its static initialisation).  Sums of one hundred 12-bit samples are exact in
  single precision and no quotient by `K` rounds across an integer threshold,
  so the mean is taken as an exact rational.
-/

namespace Bahamut

/-! ## LED state and joint indices -/

/-- The LED animation states, `enum Led_State`. -/
inductive Led_State where
  | IDLE
  | CLOSED
  | ATK
  | BLUE
  | RED
  | ALL
  | TURQUOISE
  deriving DecidableEq, Repr

open Led_State

def rs : Fin 9 := 0
def rb : Fin 9 := 1
def ls : Fin 9 := 2
def lb : Fin 9 := 3
def w : Fin 9 := 4
def rh : Fin 9 := 5
def rf : Fin 9 := 6
def lh : Fin 9 := 7
def lf : Fin 9 := 8

/-- Lookup in a nine-entry pose table. -/
def tbl (l : List Int) (i : Fin 9) : Int := l.getD i.val 0

def std_pos : Fin 9 → Int := tbl [20, 145, 160, 35, 95, 60, 40, 130, 130]
def gaucho_pos : Fin 9 → Int := tbl [20, 145, 160, 35, 95, 80, 60, 100, 100]
def crouch_pos : Fin 9 → Int := tbl [20, 145, 160, 35, 95, 135, 115, 45, 45]

/-- Size of the voltage filter, `#define K 100`. -/
def K : Nat := 100

/-- Width of `unsigned long` on the target. -/
def U32 : Nat := 2 ^ 32

/-! ## Ramp channels (external `Ramp.h`) -/

/-- Oscillation mode of a ramp channel. -/
inductive loop_mode where
  | ONCEFORWARD
  | FORTHANDBACK
  deriving DecidableEq, Repr

/-- Modelled from the spec: the `rampInt` channel of the external Ramp library
(section 4.3): current value, start value, target value, start time, duration
and oscillation mode. -/
structure rampInt where
  val : Int
  A : Int
  B : Int
  t : Nat
  dur : Nat
  loop : loop_mode
  deriving DecidableEq, Repr

/-- Modelled from the spec: `SetTarget(value, durationMs, mode)` of the external
Ramp library begins a linear interpolation from the currently sampled value to
`value`; with duration zero the channel jumps to `value`. -/
def rampInt.go (r : rampInt) (now : Nat) (v : Int) (d : Nat) (m : loop_mode) : rampInt :=
  { val := if d = 0 then v else r.val, A := r.val, B := v, t := now, dur := d, loop := m }

/-- Modelled from the spec: the one-argument `go(value)` of the external Ramp
library, an immediate jump. -/
def rampInt.go0 (r : rampInt) (now : Nat) (v : Int) : rampInt :=
  r.go now v 0 loop_mode.ONCEFORWARD

/-- Modelled from the spec: the value `Update()` of the external Ramp library
samples at time `now`, a function of the time elapsed since the last `go`. -/
def rampInt.sample (r : rampInt) (now : Nat) : Int :=
  if r.dur = 0 then r.B
  else
    let e := (now + U32 - r.t % U32) % U32
    let c := match r.loop with
      | loop_mode.ONCEFORWARD => min e r.dur
      | loop_mode.FORTHANDBACK =>
          let q := e % (2 * r.dur)
          if q ≤ r.dur then q else 2 * r.dur - q
    r.A + Int.tdiv ((r.B - r.A) * (c : Int)) (r.dur : Int)

/-- Modelled from the spec: `Update()` of the external Ramp library stores the
sampled value as the current one and returns it. -/
def rampInt.update (r : rampInt) (now : Nat) : rampInt × Int :=
  ({ r with val := r.sample now }, r.sample now)

/-! ## Input snapshot (external `Ps3Controller.h`) -/

/-- The button bit-field `ps3_button_t`. -/
structure ps3_button where
  select : Bool
  l3 : Bool
  r3 : Bool
  start : Bool
  up : Bool
  right : Bool
  down : Bool
  left : Bool
  l2 : Bool
  r2 : Bool
  l1 : Bool
  r1 : Bool
  triangle : Bool
  circle : Bool
  cross : Bool
  square : Bool
  ps : Bool
  deriving DecidableEq, Repr

/-- No button set. -/
def ps3_button.none : ps3_button :=
  { select := false, l3 := false, r3 := false, start := false, up := false,
    right := false, down := false, left := false, l2 := false, r2 := false,
    l1 := false, r1 := false, triangle := false, circle := false,
    cross := false, square := false, ps := false }

/-- One snapshot of the controller: `Ps3.data.button` (held buttons),
`Ps3.event.button_down` (rising edges) and `Ps3.data.analog.stick`. -/
structure Input where
  button : ps3_button
  button_down : ps3_button
  lx : Int
  ly : Int
  rx : Int
  ry : Int
  deriving DecidableEq, Repr

/-! ## Program state -/

/-- Bitmaps of `battery_graphics.h` that `Display_Voltage` can draw. -/
inductive Bitmap where
  | full_charge
  | two_bar_charge
  | one_bar_charge
  | empty_charge
  deriving DecidableEq, Repr

/-- The global variables read or written by `notify` and `Display_Voltage`. -/
structure State where
  led_state : Led_State
  crouched : Bool
  pos : Fin 9 → Int
  readings : Nat → Nat
  reading_idx : Nat
  lcd : Option Bitmap
  br_rs : rampInt
  br_ls : rampInt
  br_rb : rampInt
  br_lb : rampInt
  br_rh : rampInt
  br_lh : rampInt
  br_rf : rampInt
  br_lf : rampInt
  back_recovery_start : Nat
  front_recovery_start : Nat
  t1_rs : rampInt
  t1_rb : rampInt
  t1_ls : rampInt
  t1_lb : rampInt
  t2_w : rampInt
  t2_timeout : Nat
  t3_rb : rampInt
  t3_lb : rampInt
  t3_timeout : Nat

/-- A ramp channel as statically initialised. -/
def rampInt.zero : rampInt :=
  { val := 0, A := 0, B := 0, t := 0, dur := 0, loop := loop_mode.ONCEFORWARD }

/-- The globals as statically initialised, before `setup`. -/
def State.init : State :=
  { led_state := IDLE, crouched := false, pos := fun _ => 0,
    readings := fun _ => 0, reading_idx := 0, lcd := Option.none,
    br_rs := rampInt.zero, br_ls := rampInt.zero, br_rb := rampInt.zero,
    br_lb := rampInt.zero, br_rh := rampInt.zero, br_lh := rampInt.zero,
    br_rf := rampInt.zero, br_lf := rampInt.zero,
    back_recovery_start := 0, front_recovery_start := 0,
    t1_rs := rampInt.zero, t1_rb := rampInt.zero, t1_ls := rampInt.zero,
    t1_lb := rampInt.zero, t2_w := rampInt.zero, t2_timeout := 0,
    t3_rb := rampInt.zero, t3_lb := rampInt.zero, t3_timeout := 0 }

instance : Inhabited State := ⟨State.init⟩

/-- A servo write: joint `j` gets target `v`. -/
def write (j : Fin 9) (v : Int) (s : State) : State :=
  { s with pos := Function.update s.pos j v }

/-- The loop `for (i = 0; i < 9; i++) if (c(i)) joints[i].write(tb[i]);`. -/
def fix_loop (c : Fin 9 → Bool) (tb : Fin 9 → Int) (s : State) : State :=
  (List.finRange 9).foldl (fun st i => if c i then write i (tb i) st else st) s

/-! ## Battery monitor -/

/-- The mean of the voltage buffer, as computed by the loop
`for (i = 0; i < K; i++) voltage += readings[i]; voltage /= K;`. -/
def mean_voltage (s : State) : ℚ :=
  ((((List.range K).map s.readings).sum : Nat) : ℚ) / (K : ℚ)

/-- The sum of the `K` buffer slots, the numerator of `mean_voltage`. -/
def readings_sum (s : State) : Nat := ((List.range K).map s.readings).sum

/-- The function `Display_Voltage`, with `sample` the value of `analogRead(battery)`. -/
def Display_Voltage (now sample : Nat) (s : State) : State :=
  let s1 : State := { s with readings := Function.update s.readings s.reading_idx sample }
  let voltage := mean_voltage s1
  let s2 : State := { s1 with lcd := Option.none }
  let s3 : State :=
    if voltage ≥ 3050 then { s2 with lcd := some Bitmap.full_charge }
    else if voltage ≥ 2800 then { s2 with lcd := some Bitmap.two_bar_charge }
    else if voltage ≥ 2550 then
      (if now % 2000 < 1000 then { s2 with lcd := some Bitmap.one_bar_charge } else s2)
    else
      (if now % 2000 < 1000 then { s2 with lcd := some Bitmap.empty_charge } else s2)
  { s3 with reading_idx := (s3.reading_idx + 1) % K }

/-! ## Locomotion -/

/-- The function `Left`: turn left in place. -/
def Left (spd now : Nat) (s : State) : State :=
  let delta := now % spd
  let s1 :=
    if delta < spd / 2 then
      s |> write lf (gaucho_pos lf - 20) |> write rf (gaucho_pos rf + 20)
        |> write w (gaucho_pos w)
    else
      s |> write lf (gaucho_pos lf) |> write rf (gaucho_pos rf)
        |> write w (gaucho_pos w + 80)
  fix_loop (fun i => i != lf && i != rf && i != w) gaucho_pos s1

/-- The function `Right`: turn right in place. -/
def Right (spd now : Nat) (s : State) : State :=
  let delta := now % spd
  let s1 :=
    if delta < spd / 2 then
      s |> write lf (gaucho_pos lf - 20) |> write rf (gaucho_pos rf + 20)
        |> write w (gaucho_pos w)
    else
      s |> write lf (gaucho_pos lf) |> write rf (gaucho_pos rf)
        |> write w (gaucho_pos w - 80)
  fix_loop (fun i => i != lf && i != rf && i != w) gaucho_pos s1

/-- The function `Sidestep_Left`. -/
def Sidestep_Left (spd now : Nat) (s : State) : State :=
  let delta := now % spd
  let s1 :=
    if delta < spd / 2 then
      s |> write rh (std_pos rh + 20) |> write rf (std_pos rf - 20)
        |> write lh (std_pos lh - 20) |> write lf (std_pos lf - 20)
    else
      s |> write lh (std_pos lh) |> write lf (std_pos lf)
        |> write rh (std_pos rh) |> write rf (std_pos rf)
  fix_loop (fun i => i != rh && i != rf && i != lh && i != lf) std_pos s1

/-- The function `Sidestep_Right`. -/
def Sidestep_Right (spd now : Nat) (s : State) : State :=
  let delta := now % spd
  let s1 :=
    if delta < spd / 2 then
      s |> write lh (std_pos lh - 20) |> write lf (std_pos lf + 20)
        |> write rh (std_pos rh + 20) |> write rf (std_pos rf + 20)
    else
      s |> write lh (std_pos lh) |> write lf (std_pos lf)
        |> write rh (std_pos rh) |> write rf (std_pos rf)
  fix_loop (fun i => i != rh && i != rf && i != lh && i != lf) std_pos s1

/-- The function `Forward`. -/
def Forward (spd now : Nat) (s : State) : State :=
  let delta := now % spd
  let s1 :=
    if delta < spd / 2 then
      s |> write lf (std_pos lf + 25) |> write rf (std_pos rf + 25)
        |> write w (std_pos w + 45)
    else
      s |> write lf (std_pos lf - 25) |> write rf (std_pos rf - 25)
        |> write w (std_pos w - 45)
  fix_loop (fun i => i != rf && i != lf && i != w) std_pos s1

/-- The function `Backward`. -/
def Backward (spd now : Nat) (s : State) : State :=
  let delta := now % spd
  let s1 :=
    if delta < spd / 2 then
      s |> write lf (std_pos lf + 25) |> write rf (std_pos rf + 25)
        |> write w (std_pos w - 45)
    else
      s |> write lf (std_pos lf - 25) |> write rf (std_pos rf - 25)
        |> write w (std_pos w + 45)
  fix_loop (fun i => i != rf && i != lf && i != w) std_pos s1

/-- The function `Fix_Rest`: every joint not in use is written from `crouch_pos`
when crouched and from `gaucho_pos` otherwise. -/
def Fix_Rest (In_Use : Fin 9 → Bool) (s : State) : State :=
  if s.crouched then fix_loop (fun i => !In_Use i) crouch_pos s
  else fix_loop (fun i => !In_Use i) gaucho_pos s

def In_Use_Idle (_ : Fin 9) : Bool := false

/-- The function `Idle`: resting position. -/
def Idle (s : State) : State := Fix_Rest In_Use_Idle s

/-! ## Recovery sequences -/

/-- The function `Back_Recovery`: stand up from lying on the back. -/
def Back_Recovery (spd now : Nat) (s : State) : State :=
  let curr_time := now
  if curr_time < (s.back_recovery_start + 1 * spd / 4) % U32 then
    let s1 : State :=
      { s with
        br_rs := s.br_rs.go0 now (gaucho_pos rs + 30),
        br_ls := s.br_ls.go0 now (gaucho_pos ls - 30),
        br_rb := s.br_rb.go0 now (gaucho_pos rb - 145),
        br_lb := s.br_lb.go0 now (gaucho_pos lb + 145),
        br_rh := s.br_rh.go0 now (gaucho_pos rh + 50),
        br_lh := s.br_lh.go0 now (gaucho_pos lh - 50),
        br_rf := s.br_rf.go0 now (gaucho_pos rf - 80),
        br_lf := s.br_lf.go0 now (gaucho_pos lf + 80) }
    let s2 :=
      s1 |> write rs (gaucho_pos rs + 105) |> write ls (gaucho_pos ls - 105)
        |> write rf (gaucho_pos rf - 80) |> write lf (gaucho_pos lf + 80)
        |> write rh (gaucho_pos rh + 50) |> write lh (gaucho_pos lh - 50)
    fix_loop (fun i => i != rs && i != ls && i != rf && i != lf && i != rh && i != lh)
      gaucho_pos s2
  else if curr_time < (s.back_recovery_start + 2 * spd / 4) % U32 then
    s |> write rs (gaucho_pos rs + 105) |> write ls (gaucho_pos ls - 105)
      |> write rb (gaucho_pos rb - 145) |> write lb (gaucho_pos lb + 145)
      |> write rs (gaucho_pos rs + 105) |> write ls (gaucho_pos ls - 105)
      |> write rf (gaucho_pos rf - 80) |> write lf (gaucho_pos lf + 80)
      |> write rh (gaucho_pos rh + 50) |> write lh (gaucho_pos lh - 50)
      |> write w (gaucho_pos w)
  else if curr_time < (s.back_recovery_start + 3 * spd / 4) % U32 then
    let s1 : State :=
      { s with
        br_rs := s.br_rs.go now (gaucho_pos rs) 1000 loop_mode.ONCEFORWARD,
        br_ls := s.br_ls.go now (gaucho_pos ls) 1000 loop_mode.ONCEFORWARD,
        br_rb := s.br_rb.go now (gaucho_pos rb) 1000 loop_mode.ONCEFORWARD,
        br_lb := s.br_lb.go now (gaucho_pos lb) 1000 loop_mode.ONCEFORWARD,
        br_rh := s.br_rh.go now (gaucho_pos rh) 1000 loop_mode.ONCEFORWARD,
        br_lh := s.br_lh.go now (gaucho_pos lh) 1000 loop_mode.ONCEFORWARD,
        br_rf := s.br_rf.go now (gaucho_pos rf) 1000 loop_mode.ONCEFORWARD,
        br_lf := s.br_lf.go now (gaucho_pos lf) 1000 loop_mode.ONCEFORWARD }
    s1 |> write rs (gaucho_pos rs + 30) |> write ls (gaucho_pos ls - 30)
      |> write rb (gaucho_pos rb - 145) |> write lb (gaucho_pos lb + 145)
      |> write rs (gaucho_pos rs + 105) |> write ls (gaucho_pos ls - 105)
      |> write rf (gaucho_pos rf - 80) |> write lf (gaucho_pos lf + 80)
      |> write rh (gaucho_pos rh + 50) |> write lh (gaucho_pos lh - 50)
      |> write w (gaucho_pos w)
  else
    let s1 : State :=
      { s with
        br_rs := (s.br_rs.update now).1, br_ls := (s.br_ls.update now).1,
        br_rb := (s.br_rb.update now).1, br_lb := (s.br_lb.update now).1,
        br_rf := (s.br_rf.update now).1, br_lf := (s.br_lf.update now).1,
        br_rh := (s.br_rh.update now).1, br_lh := (s.br_lh.update now).1 }
    s1 |> write rs (s.br_rs.update now).2 |> write ls (s.br_ls.update now).2
      |> write rb (s.br_rb.update now).2 |> write lb (s.br_lb.update now).2
      |> write rf (s.br_rf.update now).2 |> write lf (s.br_lf.update now).2
      |> write rh (s.br_rh.update now).2 |> write lh (s.br_lh.update now).2
      |> write w (gaucho_pos w)

/-- The function `Front_Recovery`: stand up from lying on the front. -/
def Front_Recovery (spd now : Nat) (s : State) : State :=
  let curr_time := now
  if curr_time < (s.front_recovery_start + 1 * spd / 4) % U32 then
    let s1 :=
      s |> write rs (gaucho_pos rs + 105) |> write ls (gaucho_pos ls - 105)
        |> write rf (gaucho_pos rf - 80) |> write lf (gaucho_pos lf + 80)
    fix_loop (fun i => i != rs && i != ls && i != rf && i != lf) gaucho_pos s1
  else if curr_time < (s.front_recovery_start + 2 * spd / 4) % U32 then
    let s1 :=
      s |> write rs (gaucho_pos rs + 105) |> write ls (gaucho_pos ls - 105)
        |> write rb (gaucho_pos rb + 35) |> write lb (gaucho_pos lb - 35)
    fix_loop (fun i => i != rs && i != ls && i != rb && i != lb) gaucho_pos s1
  else if curr_time < (s.front_recovery_start + 3 * spd / 4) % U32 then
    let s1 :=
      s |> write rs (gaucho_pos rs + 30) |> write ls (gaucho_pos ls - 30)
        |> write rb (gaucho_pos rb + 35) |> write lb (gaucho_pos lb - 35)
    fix_loop (fun i => i != rs && i != ls && i != rb && i != lb) gaucho_pos s1
  else
    fix_loop (fun _ => true) crouch_pos s

/-! ## Attacks -/

def In_Use_Right_Atk (i : Fin 9) : Bool := i == rs || i == rb || i == w
def In_Use_Left_Atk (i : Fin 9) : Bool := i == ls || i == lb || i == w

/-- The function `Right_Sweep`. -/
def Right_Sweep (s : State) : State :=
  s |> write rs (gaucho_pos rs + 70) |> write rb (gaucho_pos rb - 55)
    |> write w (gaucho_pos w + 85) |> Fix_Rest In_Use_Right_Atk

/-- The function `Left_Sweep`. -/
def Left_Sweep (s : State) : State :=
  s |> write ls (gaucho_pos ls - 70) |> write lb (gaucho_pos lb + 55)
    |> write w (gaucho_pos w - 95) |> Fix_Rest In_Use_Left_Atk

/-- The function `Right_Hook`. -/
def Right_Hook (s : State) : State :=
  s |> write rs (gaucho_pos rs + 30) |> write rb (gaucho_pos rb + 35)
    |> write w (gaucho_pos w + 90) |> Fix_Rest In_Use_Right_Atk

/-- The function `Left_Hook`. -/
def Left_Hook (s : State) : State :=
  s |> write ls (gaucho_pos ls - 30) |> write lb (gaucho_pos lb - 35)
    |> write w (gaucho_pos w - 90) |> Fix_Rest In_Use_Left_Atk

def In_Use_Right_Shot (i : Fin 9) : Bool := i == rs || i == rb || i == lb

/-- The function `Right_Shot`. -/
def Right_Shot (s : State) : State :=
  s |> write rs (gaucho_pos rs + 70) |> write rb (gaucho_pos rb - 55)
    |> write lb (gaucho_pos lb - 35) |> Fix_Rest In_Use_Right_Shot

def In_Use_Left_Shot (i : Fin 9) : Bool := i == ls || i == lb || i == rb

/-- The function `Left_Shot`. -/
def Left_Shot (s : State) : State :=
  s |> write ls (gaucho_pos ls - 70) |> write lb (gaucho_pos lb + 55)
    |> write rb (gaucho_pos rb + 35) |> Fix_Rest In_Use_Left_Shot

/-! ## Taunts -/

def In_Use_t1 (i : Fin 9) : Bool := i == rs || i == rb || i == ls || i == lb

/-- The function `WARMING_UP` (taunt 1). -/
def WARMING_UP (now : Nat) (s : State) : State :=
  let s1 : State := { s with crouched := false }
  let s2 : State := { s1 with led_state := BLUE }
  let s3 : State :=
    { s2 with
      t1_rs := (s2.t1_rs.update now).1, t1_rb := (s2.t1_rb.update now).1,
      t1_ls := (s2.t1_ls.update now).1, t1_lb := (s2.t1_lb.update now).1 }
  s3 |> write rs (s2.t1_rs.update now).2 |> write rb (s2.t1_rb.update now).2
    |> write ls (s2.t1_ls.update now).2 |> write lb (s2.t1_lb.update now).2
    |> Fix_Rest In_Use_t1

def In_Use_t2_p1 (i : Fin 9) : Bool :=
  i == rf || i == lf || i == rs || i == ls || i == rb || i == lb
def In_Use_t2_p2 (i : Fin 9) : Bool := i == rs || i == ls || i == w

/-- The function `BEHOLD` (taunt 2). -/
def BEHOLD (now : Nat) (s : State) : State :=
  let s1 : State := { s with crouched := false }
  let s2 : State := { s1 with led_state := RED }
  if now < (s2.t2_timeout + 350) % U32 then
    s2 |> write rf (gaucho_pos rf + 20) |> write lf (gaucho_pos lf - 20)
      |> write rs (gaucho_pos rs + 70) |> write ls (gaucho_pos ls - 70)
      |> write rb (gaucho_pos rb - 55) |> write lb (gaucho_pos lb + 55)
      |> Fix_Rest In_Use_t2_p1
  else
    let s3 : State := { s2 with t2_w := (s2.t2_w.update now).1 }
    s3 |> write rs (gaucho_pos rs + 50) |> write ls (gaucho_pos ls - 50)
      |> write w (s2.t2_w.update now).2 |> Fix_Rest In_Use_t2_p2

def In_Use_t3 (i : Fin 9) : Bool := i == rb || i == lb

/-- The function `DUST_OFF` (taunt 3). -/
def DUST_OFF (now : Nat) (s : State) : State :=
  let s1 : State := { s with crouched := false }
  let s2 : State := { s1 with led_state := ALL }
  let s3 : State :=
    if now < (s2.t3_timeout + 500) % U32 then
      { s2 with t3_rb := (s2.t3_rb.update now).1, t3_lb := (s2.t3_lb.update now).1 }
        |> write rb (s2.t3_rb.update now).2 |> write lb (s2.t3_lb.update now).2
    else
      s2 |> write rb (gaucho_pos rb) |> write lb (gaucho_pos lb)
  Fix_Rest In_Use_t3 s3

def In_Use_t4 (i : Fin 9) : Bool := i == rs || i == ls || i == rb || i == lb || i == w

/-- The function `GIVE_IT_YOUR_ALL` (taunt 4). -/
def GIVE_IT_YOUR_ALL (s : State) : State :=
  let s1 : State := { s with led_state := TURQUOISE }
  s1 |> write rs (gaucho_pos rs + 70) |> write ls (gaucho_pos ls - 70)
    |> write rb (gaucho_pos rb - 55) |> write lb (gaucho_pos lb - 35)
    |> write w (gaucho_pos w + 85) |> Fix_Rest In_Use_t4

/-! ## Input dispatcher -/

/-- The C library function `abs` on `int`. -/
def abs (x : Int) : Int := if x < 0 then -x else x

/-- The timeout adjustments at the head of the normal-voltage branch of `notify`. -/
def adjust_timeouts (now : Nat) (btn_pressed : ps3_button) (s : State) : State :=
  let s1 : State := if btn_pressed.right then { s with t2_timeout := now } else s
  let s2 : State :=
    if btn_pressed.down then
      { s1 with
        t3_timeout := now,
        t3_rb := (s1.t3_rb.go0 now (gaucho_pos rb)).go now (gaucho_pos rb + 35) 500
          loop_mode.ONCEFORWARD,
        t3_lb := (s1.t3_lb.go0 now (gaucho_pos lb)).go now (gaucho_pos lb - 35) 500
          loop_mode.ONCEFORWARD }
    else s1
  let s3 : State := if btn_pressed.select then { s2 with back_recovery_start := now } else s2
  if btn_pressed.start then { s3 with front_recovery_start := now } else s3

/-- The condition of the button branch of `notify`. -/
def any_button (b : ps3_button) : Bool :=
  b.l1 || b.l2 || b.r1 || b.r2 || b.up || b.right || b.down || b.left ||
    b.square || b.circle || b.cross || b.select || b.start

/-- The statement `if (b) f();` on the globals. -/
def call_if (b : Bool) (f : State → State) (s : State) : State :=
  if b then f s else s

/-- The body of the button branch of `notify`: one primitive per held button,
in source order. -/
def run_buttons (now : Nat) (btn_down : ps3_button) (s : State) : State :=
  { s with led_state := ATK }
    |> call_if btn_down.up (WARMING_UP now)
    |> call_if btn_down.right (BEHOLD now)
    |> call_if btn_down.down (DUST_OFF now)
    |> call_if btn_down.left GIVE_IT_YOUR_ALL
    |> call_if btn_down.r1 Right_Hook
    |> call_if btn_down.l1 Left_Hook
    |> call_if btn_down.r2 Right_Sweep
    |> call_if btn_down.l2 Left_Sweep
    |> call_if btn_down.circle Right_Shot
    |> call_if btn_down.square Left_Shot
    |> call_if btn_down.select (Back_Recovery 2100 now)
    |> call_if btn_down.start (Front_Recovery 2100 now)

/-- The button branch as a table: each held-button flag with the primitive it
invokes, in the order of the source. -/
def button_prims : List ((ps3_button → Bool) × (Nat → State → State)) :=
  [ (ps3_button.up, WARMING_UP),
    (ps3_button.right, BEHOLD),
    (ps3_button.down, DUST_OFF),
    (ps3_button.left, fun _ => GIVE_IT_YOUR_ALL),
    (ps3_button.r1, fun _ => Right_Hook),
    (ps3_button.l1, fun _ => Left_Hook),
    (ps3_button.r2, fun _ => Right_Sweep),
    (ps3_button.l2, fun _ => Left_Sweep),
    (ps3_button.circle, fun _ => Right_Shot),
    (ps3_button.square, fun _ => Left_Shot),
    (ps3_button.select, Back_Recovery 2100),
    (ps3_button.start, Front_Recovery 2100) ]

/-- Running a segment of the table on the held buttons `b`. -/
def run_list (now : Nat) (b : ps3_button)
    (l : List ((ps3_button → Bool) × (Nat → State → State))) (s : State) : State :=
  l.foldl (fun st q => call_if (q.1 b) (q.2 now) st) s

/-- Some button that has a primitive is held. -/
def any_primitive (b : ps3_button) : Bool :=
  b.up || b.right || b.down || b.left || b.r1 || b.l1 || b.r2 || b.l2 ||
    b.circle || b.square || b.select || b.start

/-- The body of the stick branch of `notify`. -/
def run_sticks (now : Nat) (lx ly rx ry : Int) (s : State) : State :=
  let s0 : State := { s with led_state := ATK }
  if abs ry + abs rx < abs ly + abs lx then
    if abs ly > abs lx then
      if ly < 0 then Forward 350 now s0 else Backward 350 now s0
    else
      if lx < 0 then Right 350 now s0 else Left 350 now s0
  else
    if rx < 0 then Sidestep_Left 250 now s0 else Sidestep_Right 250 now s0

/-- The rule `if (Ps3.event.button_down.cross) crouched = !crouched;` at the head
of `notify`. -/
def toggle_crouch (inp : Input) (s : State) : State :=
  if inp.button_down.cross then { s with crouched := !s.crouched } else s

/-- The normal-voltage branch of `notify`. -/
def dispatch (now : Nat) (inp : Input) (s : State) : State :=
  let btn_down := inp.button
  let lx := inp.lx
  let ly := inp.ly
  let rx := inp.rx
  let ry := inp.ry
  let s2 := adjust_timeouts now inp.button_down s
  if any_button btn_down then run_buttons now btn_down s2
  else if abs lx > 10 || abs ly > 10 || abs rx > 10 || abs ry > 10 then
    run_sticks now lx ly rx ry s2
  else Idle { s2 with led_state := IDLE }

/-- The callback `notify`: one tick of the dispatcher. -/
def notify (now : Nat) (inp : Input) (s : State) : State :=
  let s1 := toggle_crouch inp s
  let voltage := mean_voltage s1
  if voltage < 2550 then
    Idle { s1 with led_state := CLOSED }
  else
    dispatch now inp s1

/-- The crouch-aware baseline: `crouch_pos` when crouched, `gaucho_pos` otherwise. -/
def baseline (crouched : Bool) (j : Fin 9) : Int :=
  if crouched then crouch_pos j else gaucho_pos j

/-- The globals with every buffer slot holding the sample `v`; used as a
concrete state. -/
def State.level (v : Nat) : State := { State.init with readings := fun _ => v }

/-- A snapshot with no button held, no edge and centred sticks. -/
def Input.none : Input :=
  { button := ps3_button.none, button_down := ps3_button.none,
    lx := 0, ly := 0, rx := 0, ry := 0 }

/-- The cross button held, its edge just fired. -/
def Input.cross_only : Input :=
  { Input.none with button := { ps3_button.none with cross := true },
                    button_down := { ps3_button.none with cross := true } }

/-- The left stick pushed forward. -/
def Input.forward_stick : Input := { Input.none with ly := -50 }

/-- The up button held. -/
def Input.up_held : Input := { Input.none with button := { ps3_button.none with up := true } }

/-- The function `setup`, its ramp initialisation. -/
def setup (now : Nat) (s : State) : State :=
  { s with
    t1_rs := (s.t1_rs.go0 now (gaucho_pos rs)).go now (gaucho_pos rs + 70) 1000
      loop_mode.FORTHANDBACK,
    t1_rb := (s.t1_rb.go0 now (gaucho_pos rb)).go now (gaucho_pos rb - 55) 1000
      loop_mode.FORTHANDBACK,
    t1_ls := (s.t1_ls.go0 now (gaucho_pos ls)).go now (gaucho_pos ls - 70) 1000
      loop_mode.FORTHANDBACK,
    t1_lb := (s.t1_lb.go0 now (gaucho_pos lb)).go now (gaucho_pos lb + 55) 1000
      loop_mode.FORTHANDBACK,
    t2_w := (s.t2_w.go0 now (gaucho_pos w - 95)).go now (gaucho_pos w + 85) 1000
      loop_mode.FORTHANDBACK }

/-- The `In_Use` predicate that the last primitive invoked by the button branch
hands to `Fix_Rest`; `none` when no primitive runs or the last one is a recovery
sequence (which does not call `Fix_Rest`). -/
def last_fix_rest (now : Nat) (b : ps3_button) (s : State) : Option (Fin 9 → Bool) :=
  if b.start || b.select then Option.none
  else if b.square then some In_Use_Left_Shot
  else if b.circle then some In_Use_Right_Shot
  else if b.l2 then some In_Use_Left_Atk
  else if b.r2 then some In_Use_Right_Atk
  else if b.l1 then some In_Use_Left_Atk
  else if b.r1 then some In_Use_Right_Atk
  else if b.left then some In_Use_t4
  else if b.down then some In_Use_t3
  else if b.right then
    some (if now < (s.t2_timeout + 350) % U32 then In_Use_t2_p1 else In_Use_t2_p2)
  else if b.up then some In_Use_t1
  else Option.none

/-- Joints claimed by the gaits `Forward`, `Backward`, `Left` and `Right`. -/
def In_Use_gait (i : Fin 9) : Bool := i == rf || i == lf || i == w

/-- Joints claimed by `Sidestep_Left` and `Sidestep_Right`. -/
def In_Use_sidestep (i : Fin 9) : Bool := i == rh || i == rf || i == lh || i == lf

/-- Joints claimed by `Front_Recovery` in some beat. -/
def In_Use_front (i : Fin 9) : Bool :=
  i == rs || i == ls || i == rb || i == lb || i == rf || i == lf

/-- The up and down buttons held, the down edge just fired. -/
def Input.up_down : Input :=
  { Input.none with button := { ps3_button.none with up := true, down := true },
                    button_down := { ps3_button.none with down := true } }

/-- The right-hook button held while the cross edge fires. -/
def Input.hook_cross : Input :=
  { Input.none with button := { ps3_button.none with r1 := true, cross := true },
                    button_down := { ps3_button.none with cross := true } }

/-- Both axes of the left stick at 6: no axis beyond 10, combined deflection 12. -/
def Input.diagonal : Input := { Input.none with lx := 6, ly := 6 }

/-! ## Beat poses of the two-beat primitives -/

/-- Pose of `Forward` in Beat A (feet +25, waist +45 from `std_pos`). -/
def Forward_A : Fin 9 → Int := tbl [20, 145, 160, 35, 140, 60, 65, 130, 155]

/-- Pose of `Forward` in Beat B (feet -25, waist -45 from `std_pos`). -/
def Forward_B : Fin 9 → Int := tbl [20, 145, 160, 35, 50, 60, 15, 130, 105]

/-- Pose of `Backward` in Beat A (feet +25, waist -45 from `std_pos`). -/
def Backward_A : Fin 9 → Int := tbl [20, 145, 160, 35, 50, 60, 65, 130, 155]

/-- Pose of `Backward` in Beat B (feet -25, waist +45 from `std_pos`). -/
def Backward_B : Fin 9 → Int := tbl [20, 145, 160, 35, 140, 60, 15, 130, 105]

/-- Pose of `Left` in Beat A (left foot -20, right foot +20 from `gaucho_pos`). -/
def Left_A : Fin 9 → Int := tbl [20, 145, 160, 35, 95, 80, 80, 100, 80]

/-- Pose of `Left` in Beat B (waist +80 from `gaucho_pos`). -/
def Left_B : Fin 9 → Int := tbl [20, 145, 160, 35, 175, 80, 60, 100, 100]

/-- Pose of `Right` in Beat A (left foot -20, right foot +20 from `gaucho_pos`). -/
def Right_A : Fin 9 → Int := tbl [20, 145, 160, 35, 95, 80, 80, 100, 80]

/-- Pose of `Right` in Beat B (waist -80 from `gaucho_pos`). -/
def Right_B : Fin 9 → Int := tbl [20, 145, 160, 35, 15, 80, 60, 100, 100]

/-- Pose of `Sidestep_Left` in Beat A (thrust and catch). -/
def Sidestep_Left_A : Fin 9 → Int := tbl [20, 145, 160, 35, 95, 80, 20, 110, 110]

/-- Pose of `Sidestep_Right` in Beat A (thrust and catch). -/
def Sidestep_Right_A : Fin 9 → Int := tbl [20, 145, 160, 35, 95, 80, 60, 110, 150]

/-- Pose of both sidesteps in Beat B: `std_pos`. -/
def Sidestep_B : Fin 9 → Int := tbl [20, 145, 160, 35, 95, 60, 40, 130, 130]

/-- The right stick pulled down and slightly right. -/
def Input.right_stick_a : Input := { Input.none with rx := 5, ry := -50 }

/-- The right stick pulled down and slightly left. -/
def Input.right_stick_b : Input := { Input.none with rx := -5, ry := -50 }

/-! ## Successive passes of the main loop, and the servo range -/

/-- Successive passes of `loop`: `n` calls of `Display_Voltage`, the `k`-th at
time `tm k` with the ADC sample `x k`. -/
def run_display (tm x : Nat → Nat) : Nat → State → State
  | 0, s => s
  | n + 1, s => Display_Voltage (tm n) (x n) (run_display tm x n s)

/-- The range of angles a servo accepts, 0 to 180 degrees. -/
def in_servo_range (v : Int) : Prop := 0 ≤ v ∧ v ≤ 180

instance (v : Int) : Decidable (in_servo_range v) := by
  unfold in_servo_range
  infer_instance

/-! ## LED animations -/

/-- The globals of the LED renderers and the arguments of the last `analogWrite`
on the pins `R`, `G` and `B` (each recorded as the value of the argument
expression; `unsigned` expressions are reduced modulo `2^32`). -/
structure Leds where
  out_R : Nat
  out_G : Nat
  out_B : Nat
  atk_led_timeout : Nat
  atk_r_val : Nat
  atk_b_val : Nat
  blue_led_timeout : Nat
  blue_led_val : Nat
  red_led_timeout : Nat
  r_val : Nat
  all_led_timeout : Nat
  all_led_r_val : Nat
  all_led_g_val : Nat
  all_led_b_val : Nat
  turquoise_led_timeout : Nat
  turquoise_led_g_val : Nat
  turquoise_led_b_val : Nat
  deriving DecidableEq, Repr

/-- The LED globals as statically initialised. -/
def Leds.init : Leds :=
  { out_R := 0, out_G := 0, out_B := 0,
    atk_led_timeout := 0, atk_r_val := 0, atk_b_val := 0,
    blue_led_timeout := 0, blue_led_val := 0,
    red_led_timeout := 0, r_val := 255,
    all_led_timeout := 0, all_led_r_val := 0, all_led_g_val := 0, all_led_b_val := 0,
    turquoise_led_timeout := 0, turquoise_led_g_val := 0, turquoise_led_b_val := 0 }

/-- The three values written to the pins. -/
def Leds.rgb (l : Leds) : Nat × Nat × Nat := (l.out_R, l.out_G, l.out_B)

/-- The function `Idle_Led`. -/
def Idle_Led (l : Leds) : Leds := { l with out_R := 255, out_G := 0, out_B := 255 }

/-- The function `Close_Led`. -/
def Close_Led (l : Leds) : Leds := { l with out_R := 0, out_G := 0, out_B := 0 }

/-- The counter update `(*v) = ((*v)+1) % ((max*2)+1)` of `Glow_Led`, on `unsigned`. -/
def glow_step (v max : Nat) : Nat :=
  ((v + 1) % U32) % (((max * 2) % U32 + 1) % U32)

/-- The expression `(*v < max) ? *v : ((max-1)*2) - (*v)` of `Glow_Led`, on `unsigned`. -/
def glow_fold (v max : Nat) : Nat :=
  if v < max then v else ((((max + U32 - 1) % U32) * 2) % U32 + U32 - v) % U32

/-- The function `Glow_Led`. A pointer argument is an `Option`, `none` for `NULL`;
the result is the new contents of the three counters and the three values
written to the pins `R`, `G`, `B`. The timeout is read and never written. -/
def Glow_Led (ms : Nat) (r_val g_val b_val : Option Nat) (timeout : Nat)
    (r_max g_max b_max : Nat) : (Option Nat × Option Nat × Option Nat) × (Nat × Nat × Nat) :=
  let tick : Bool := decide (ms > (timeout + 1) % U32)
  let r1 := if tick then r_val.map (fun v => glow_step v r_max) else r_val
  let g1 := if tick then g_val.map (fun v => glow_step v g_max) else g_val
  let b1 := if tick then b_val.map (fun v => glow_step v b_max) else b_val
  ((r1, g1, b1),
   (match r1 with
    | some v => glow_fold v r_max
    | Option.none => 0,
    match g1 with
    | some v => glow_fold v g_max
    | Option.none => 0,
    match b1 with
    | some v => glow_fold v b_max
    | Option.none => 0))

/-- The function `Atk_Led`:
`Glow_Led(&atk_r_val, NULL, &atk_b_val, &atk_led_timeout, 256, 0, 256)`. -/
def Atk_Led (ms : Nat) (l : Leds) : Leds :=
  let res := Glow_Led ms (some l.atk_r_val) Option.none (some l.atk_b_val)
    l.atk_led_timeout 256 0 256
  { l with
    atk_r_val := res.1.1.getD l.atk_r_val,
    atk_b_val := res.1.2.2.getD l.atk_b_val,
    out_R := res.2.1, out_G := res.2.2.1, out_B := res.2.2.2 }

/-- The function `Blue_Led`:
`Glow_Led(NULL, NULL, &blue_led_val, &blue_led_timeout, 0, 0, 256)`. -/
def Blue_Led (ms : Nat) (l : Leds) : Leds :=
  let res := Glow_Led ms Option.none Option.none (some l.blue_led_val)
    l.blue_led_timeout 0 0 256
  { l with
    blue_led_val := res.1.2.2.getD l.blue_led_val,
    out_R := res.2.1, out_G := res.2.2.1, out_B := res.2.2.2 }

/-- The function `Red_Led`. -/
def Red_Led (ms : Nat) (l : Leds) : Leds :=
  let l1 : Leds :=
    if ms > (l.red_led_timeout + 50) % U32 then
      { l with r_val := 0, red_led_timeout := ms }
    else { l with r_val := 255 }
  { l1 with out_R := l1.r_val, out_G := 0, out_B := 0 }

/-- The function `All_Led`:
`Glow_Led(&all_led_r_val, &all_led_g_val, &all_led_b_val, &all_led_timeout, 256, 256, 256)`. -/
def All_Led (ms : Nat) (l : Leds) : Leds :=
  let res := Glow_Led ms (some l.all_led_r_val) (some l.all_led_g_val) (some l.all_led_b_val)
    l.all_led_timeout 256 256 256
  { l with
    all_led_r_val := res.1.1.getD l.all_led_r_val,
    all_led_g_val := res.1.2.1.getD l.all_led_g_val,
    all_led_b_val := res.1.2.2.getD l.all_led_b_val,
    out_R := res.2.1, out_G := res.2.2.1, out_B := res.2.2.2 }

/-- The function `Turquoise_Led`:
`Glow_Led(NULL, &turquoise_led_g_val, &turquoise_led_b_val, &turquoise_led_timeout, 256, 256, 0)`. -/
def Turquoise_Led (ms : Nat) (l : Leds) : Leds :=
  let res := Glow_Led ms Option.none (some l.turquoise_led_g_val)
    (some l.turquoise_led_b_val) l.turquoise_led_timeout 256 256 0
  { l with
    turquoise_led_g_val := res.1.2.1.getD l.turquoise_led_g_val,
    turquoise_led_b_val := res.1.2.2.getD l.turquoise_led_b_val,
    out_R := res.2.1, out_G := res.2.2.1, out_B := res.2.2.2 }

/-- The `switch (led_state)` of `loop`: the renderer of the active state. -/
def render_led (st : Led_State) (ms : Nat) (l : Leds) : Leds :=
  match st with
  | IDLE => Idle_Led l
  | CLOSED => Close_Led l
  | ATK => Atk_Led ms l
  | BLUE => Blue_Led ms l
  | RED => Red_Led ms l
  | ALL => All_Led ms l
  | TURQUOISE => Turquoise_Led ms l

/-- The variables a renderer reads besides the clock: its own counters and timeout. -/
def own_vars (st : Led_State) (l : Leds) : List Nat :=
  match st with
  | IDLE => []
  | CLOSED => []
  | ATK => [l.atk_led_timeout, l.atk_r_val, l.atk_b_val]
  | BLUE => [l.blue_led_timeout, l.blue_led_val]
  | RED => [l.red_led_timeout]
  | ALL => [l.all_led_timeout, l.all_led_r_val, l.all_led_g_val, l.all_led_b_val]
  | TURQUOISE => [l.turquoise_led_timeout, l.turquoise_led_g_val, l.turquoise_led_b_val]

/-- Successive calls of a renderer, one per entry of `times`. -/
def render_many (st : Led_State) (times : List Nat) (l : Leds) : Leds :=
  times.foldl (fun acc t => render_led st t acc) l

/-- The amplitude-256 triangular wave of the spec: `v` below 256, `510 - v` from there. -/
def tri256 (v : Nat) : Nat := if v < 256 then v else 510 - v

set_option linter.unusedTactic false
set_option linter.unreachableTactic false
set_option linter.unnecessarySeqFocus false
set_option linter.unusedVariables false

/-! ## Basic facts about servo writes -/

theorem fold_write_eq (c : Fin 9 → Bool) (tb : Fin 9 → Int) (l : List (Fin 9)) (s : State) :
    l.foldl (fun st i => if c i then write i (tb i) st else st) s =
      { s with pos := fun j => if j ∈ l ∧ c j = true then tb j else s.pos j } := by
  induction l generalizing s with
  | nil => simp
  | cons a l ih =>
    rw [List.foldl_cons, ih]
    by_cases hc : c a = true
    · simp only [hc, if_true, write]
      congr 1
      funext j
      by_cases hj : j = a
      · subst hj; simp [hc]
      · simp [hj, Function.update_noteq hj]
    · simp only [hc]
      congr 1
      funext j
      by_cases hj : j = a
      · subst hj; simp [hc]
      · simp [hj]

theorem fix_loop_eq (c : Fin 9 → Bool) (tb : Fin 9 → Int) (s : State) :
    fix_loop c tb s = { s with pos := fun j => if c j = true then tb j else s.pos j } := by
  unfold fix_loop
  rw [fold_write_eq]
  simp [List.mem_finRange]

theorem Fix_Rest_eq (In_Use : Fin 9 → Bool) (s : State) :
    Fix_Rest In_Use s =
      { s with pos := fun j => if In_Use j = false then baseline s.crouched j else s.pos j } := by
  unfold Fix_Rest baseline
  by_cases h : s.crouched = true <;> simp [h, fix_loop_eq]

/-! ## Facts about the voltage mean -/

theorem mean_voltage_eq (s : State) : mean_voltage s = (readings_sum s : ℚ) / 100 := by
  simp [mean_voltage, readings_sum, K]

theorem mean_lt_iff (s : State) (n : Nat) :
    mean_voltage s < (n : ℚ) ↔ readings_sum s < n * 100 := by
  rw [mean_voltage_eq, div_lt_iff₀ (by norm_num : (0 : ℚ) < 100)]
  exact_mod_cast Iff.rfl

theorem mean_ge_iff (s : State) (n : Nat) :
    (n : ℚ) ≤ mean_voltage s ↔ n * 100 ≤ readings_sum s := by
  rw [mean_voltage_eq, le_div_iff₀ (by norm_num : (0 : ℚ) < 100)]
  exact_mod_cast Iff.rfl

theorem mean_voltage_init : mean_voltage State.init = 0 := by
  simp [mean_voltage, State.init]

theorem mean_voltage_level (v : Nat) : mean_voltage (State.level v) = v := by
  simp only [mean_voltage, State.level, State.init, K, List.map_const', List.length_range,
    List.sum_replicate, smul_eq_mul]
  push_cast
  ring

theorem level_not_low (v : Nat) (h : 2550 ≤ v) : ¬ mean_voltage (State.level v) < 2550 := by
  rw [mean_voltage_level]
  have : (2550 : ℚ) ≤ (v : ℚ) := by exact_mod_cast h
  linarith

theorem mean_voltage_pos (s : State) (p0 : Fin 9 → Int) :
    mean_voltage { s with pos := p0 } = mean_voltage s := rfl

theorem mean_voltage_crouched (s : State) (c : Bool) :
    mean_voltage { s with crouched := c } = mean_voltage s := rfl

theorem mean_voltage_congr (s s' : State) (h : s'.readings = s.readings) :
    mean_voltage s' = mean_voltage s := by
  simp [mean_voltage, h]

theorem Display_Voltage_readings (now sample : Nat) (s : State) :
    (Display_Voltage now sample s).readings =
      Function.update s.readings s.reading_idx sample := by
  unfold Display_Voltage
  simp only []
  split_ifs <;> rfl

theorem Display_Voltage_level (now v : Nat) :
    mean_voltage (Display_Voltage now v (State.level v)) = v := by
  rw [← mean_voltage_level v]
  apply mean_voltage_congr
  rw [Display_Voltage_readings]
  funext i
  simp [Function.update, State.level]

theorem mean_voltage_toggle (inp : Input) (s : State) :
    mean_voltage (toggle_crouch inp s) = mean_voltage s := by
  unfold toggle_crouch
  split <;> rfl

theorem toggle_crouched (inp : Input) (s : State) :
    (toggle_crouch inp s).crouched =
      (if inp.button_down.cross then !s.crouched else s.crouched) := by
  unfold toggle_crouch
  split <;> rfl

theorem notify_low (now : Nat) (inp : Input) (s : State) (h : mean_voltage s < 2550) :
    notify now inp s = Idle { toggle_crouch inp s with led_state := CLOSED } := by
  simp [notify, mean_voltage_toggle, h]

theorem notify_ok (now : Nat) (inp : Input) (s : State) (h : ¬ mean_voltage s < 2550) :
    notify now inp s = dispatch now inp (toggle_crouch inp s) := by
  simp [notify, mean_voltage_toggle, h]

/-! ## Frame facts: what each primitive leaves alone, and that it writes every joint -/

theorem Left_led (spd now : Nat) (s : State) :
    (Left spd now s).led_state = s.led_state := by
  unfold Left
  simp only []
  split_ifs <;> simp [Fix_Rest_eq, fix_loop_eq, write]

theorem Left_crouched (spd now : Nat) (s : State) :
    (Left spd now s).crouched = s.crouched := by
  unfold Left
  simp only []
  split_ifs <;> simp [Fix_Rest_eq, fix_loop_eq, write]

theorem Left_whole (spd now : Nat) (s : State) (p0 : Fin 9 → Int) :
    Left spd now { s with pos := p0 } = Left spd now s := by
  unfold Left
  simp only []
  split_ifs <;> simp only [Fix_Rest_eq, fix_loop_eq, write] <;> congr 1 <;> funext j <;>
    fin_cases j <;>
    simp [rs, rb, ls, lb, w, rh, rf, lh, lf, In_Use_Idle, In_Use_Right_Atk, In_Use_Left_Atk,
      In_Use_Right_Shot, In_Use_Left_Shot, In_Use_t1, In_Use_t2_p1, In_Use_t2_p2, In_Use_t3,
      In_Use_t4]

theorem Right_led (spd now : Nat) (s : State) :
    (Right spd now s).led_state = s.led_state := by
  unfold Right
  simp only []
  split_ifs <;> simp [Fix_Rest_eq, fix_loop_eq, write]

theorem Right_crouched (spd now : Nat) (s : State) :
    (Right spd now s).crouched = s.crouched := by
  unfold Right
  simp only []
  split_ifs <;> simp [Fix_Rest_eq, fix_loop_eq, write]

theorem Right_whole (spd now : Nat) (s : State) (p0 : Fin 9 → Int) :
    Right spd now { s with pos := p0 } = Right spd now s := by
  unfold Right
  simp only []
  split_ifs <;> simp only [Fix_Rest_eq, fix_loop_eq, write] <;> congr 1 <;> funext j <;>
    fin_cases j <;>
    simp [rs, rb, ls, lb, w, rh, rf, lh, lf, In_Use_Idle, In_Use_Right_Atk, In_Use_Left_Atk,
      In_Use_Right_Shot, In_Use_Left_Shot, In_Use_t1, In_Use_t2_p1, In_Use_t2_p2, In_Use_t3,
      In_Use_t4]

theorem Sidestep_Left_led (spd now : Nat) (s : State) :
    (Sidestep_Left spd now s).led_state = s.led_state := by
  unfold Sidestep_Left
  simp only []
  split_ifs <;> simp [Fix_Rest_eq, fix_loop_eq, write]

theorem Sidestep_Left_crouched (spd now : Nat) (s : State) :
    (Sidestep_Left spd now s).crouched = s.crouched := by
  unfold Sidestep_Left
  simp only []
  split_ifs <;> simp [Fix_Rest_eq, fix_loop_eq, write]

theorem Sidestep_Left_whole (spd now : Nat) (s : State) (p0 : Fin 9 → Int) :
    Sidestep_Left spd now { s with pos := p0 } = Sidestep_Left spd now s := by
  unfold Sidestep_Left
  simp only []
  split_ifs <;> simp only [Fix_Rest_eq, fix_loop_eq, write] <;> congr 1 <;> funext j <;>
    fin_cases j <;>
    simp [rs, rb, ls, lb, w, rh, rf, lh, lf, In_Use_Idle, In_Use_Right_Atk, In_Use_Left_Atk,
      In_Use_Right_Shot, In_Use_Left_Shot, In_Use_t1, In_Use_t2_p1, In_Use_t2_p2, In_Use_t3,
      In_Use_t4]

theorem Sidestep_Right_led (spd now : Nat) (s : State) :
    (Sidestep_Right spd now s).led_state = s.led_state := by
  unfold Sidestep_Right
  simp only []
  split_ifs <;> simp [Fix_Rest_eq, fix_loop_eq, write]

theorem Sidestep_Right_crouched (spd now : Nat) (s : State) :
    (Sidestep_Right spd now s).crouched = s.crouched := by
  unfold Sidestep_Right
  simp only []
  split_ifs <;> simp [Fix_Rest_eq, fix_loop_eq, write]

theorem Sidestep_Right_whole (spd now : Nat) (s : State) (p0 : Fin 9 → Int) :
    Sidestep_Right spd now { s with pos := p0 } = Sidestep_Right spd now s := by
  unfold Sidestep_Right
  simp only []
  split_ifs <;> simp only [Fix_Rest_eq, fix_loop_eq, write] <;> congr 1 <;> funext j <;>
    fin_cases j <;>
    simp [rs, rb, ls, lb, w, rh, rf, lh, lf, In_Use_Idle, In_Use_Right_Atk, In_Use_Left_Atk,
      In_Use_Right_Shot, In_Use_Left_Shot, In_Use_t1, In_Use_t2_p1, In_Use_t2_p2, In_Use_t3,
      In_Use_t4]

theorem Forward_led (spd now : Nat) (s : State) :
    (Forward spd now s).led_state = s.led_state := by
  unfold Forward
  simp only []
  split_ifs <;> simp [Fix_Rest_eq, fix_loop_eq, write]

theorem Forward_crouched (spd now : Nat) (s : State) :
    (Forward spd now s).crouched = s.crouched := by
  unfold Forward
  simp only []
  split_ifs <;> simp [Fix_Rest_eq, fix_loop_eq, write]

theorem Forward_whole (spd now : Nat) (s : State) (p0 : Fin 9 → Int) :
    Forward spd now { s with pos := p0 } = Forward spd now s := by
  unfold Forward
  simp only []
  split_ifs <;> simp only [Fix_Rest_eq, fix_loop_eq, write] <;> congr 1 <;> funext j <;>
    fin_cases j <;>
    simp [rs, rb, ls, lb, w, rh, rf, lh, lf, In_Use_Idle, In_Use_Right_Atk, In_Use_Left_Atk,
      In_Use_Right_Shot, In_Use_Left_Shot, In_Use_t1, In_Use_t2_p1, In_Use_t2_p2, In_Use_t3,
      In_Use_t4]

theorem Backward_led (spd now : Nat) (s : State) :
    (Backward spd now s).led_state = s.led_state := by
  unfold Backward
  simp only []
  split_ifs <;> simp [Fix_Rest_eq, fix_loop_eq, write]

theorem Backward_crouched (spd now : Nat) (s : State) :
    (Backward spd now s).crouched = s.crouched := by
  unfold Backward
  simp only []
  split_ifs <;> simp [Fix_Rest_eq, fix_loop_eq, write]

theorem Backward_whole (spd now : Nat) (s : State) (p0 : Fin 9 → Int) :
    Backward spd now { s with pos := p0 } = Backward spd now s := by
  unfold Backward
  simp only []
  split_ifs <;> simp only [Fix_Rest_eq, fix_loop_eq, write] <;> congr 1 <;> funext j <;>
    fin_cases j <;>
    simp [rs, rb, ls, lb, w, rh, rf, lh, lf, In_Use_Idle, In_Use_Right_Atk, In_Use_Left_Atk,
      In_Use_Right_Shot, In_Use_Left_Shot, In_Use_t1, In_Use_t2_p1, In_Use_t2_p2, In_Use_t3,
      In_Use_t4]

theorem Back_Recovery_led (spd now : Nat) (s : State) :
    (Back_Recovery spd now s).led_state = s.led_state := by
  unfold Back_Recovery
  simp only []
  split_ifs <;> simp [Fix_Rest_eq, fix_loop_eq, write]

theorem Back_Recovery_crouched (spd now : Nat) (s : State) :
    (Back_Recovery spd now s).crouched = s.crouched := by
  unfold Back_Recovery
  simp only []
  split_ifs <;> simp [Fix_Rest_eq, fix_loop_eq, write]

theorem Back_Recovery_whole (spd now : Nat) (s : State) (p0 : Fin 9 → Int) :
    Back_Recovery spd now { s with pos := p0 } = Back_Recovery spd now s := by
  unfold Back_Recovery
  simp only []
  split_ifs <;> simp only [Fix_Rest_eq, fix_loop_eq, write] <;> congr 1 <;> funext j <;>
    fin_cases j <;>
    simp [rs, rb, ls, lb, w, rh, rf, lh, lf, In_Use_Idle, In_Use_Right_Atk, In_Use_Left_Atk,
      In_Use_Right_Shot, In_Use_Left_Shot, In_Use_t1, In_Use_t2_p1, In_Use_t2_p2, In_Use_t3,
      In_Use_t4]

theorem Front_Recovery_led (spd now : Nat) (s : State) :
    (Front_Recovery spd now s).led_state = s.led_state := by
  unfold Front_Recovery
  simp only []
  split_ifs <;> simp [Fix_Rest_eq, fix_loop_eq, write]

theorem Front_Recovery_crouched (spd now : Nat) (s : State) :
    (Front_Recovery spd now s).crouched = s.crouched := by
  unfold Front_Recovery
  simp only []
  split_ifs <;> simp [Fix_Rest_eq, fix_loop_eq, write]

theorem Front_Recovery_whole (spd now : Nat) (s : State) (p0 : Fin 9 → Int) :
    Front_Recovery spd now { s with pos := p0 } = Front_Recovery spd now s := by
  unfold Front_Recovery
  simp only []
  split_ifs <;> simp only [Fix_Rest_eq, fix_loop_eq, write] <;> congr 1 <;> funext j <;>
    fin_cases j <;>
    simp [rs, rb, ls, lb, w, rh, rf, lh, lf, In_Use_Idle, In_Use_Right_Atk, In_Use_Left_Atk,
      In_Use_Right_Shot, In_Use_Left_Shot, In_Use_t1, In_Use_t2_p1, In_Use_t2_p2, In_Use_t3,
      In_Use_t4]

theorem Idle_led (s : State) :
    (Idle s).led_state = s.led_state := by
  unfold Idle
  simp [Fix_Rest_eq, fix_loop_eq, write]

theorem Idle_crouched (s : State) :
    (Idle s).crouched = s.crouched := by
  unfold Idle
  simp [Fix_Rest_eq, fix_loop_eq, write]

theorem Idle_whole (s : State) (p0 : Fin 9 → Int) :
    Idle { s with pos := p0 } = Idle s := by
  unfold Idle
  simp only [Fix_Rest_eq, fix_loop_eq, write] <;> congr 1 <;> funext j <;>
    fin_cases j <;>
    simp [rs, rb, ls, lb, w, rh, rf, lh, lf, In_Use_Idle, In_Use_Right_Atk, In_Use_Left_Atk,
      In_Use_Right_Shot, In_Use_Left_Shot, In_Use_t1, In_Use_t2_p1, In_Use_t2_p2, In_Use_t3,
      In_Use_t4]

theorem Right_Sweep_led (s : State) :
    (Right_Sweep s).led_state = s.led_state := by
  unfold Right_Sweep
  simp [Fix_Rest_eq, fix_loop_eq, write]

theorem Right_Sweep_crouched (s : State) :
    (Right_Sweep s).crouched = s.crouched := by
  unfold Right_Sweep
  simp [Fix_Rest_eq, fix_loop_eq, write]

theorem Right_Sweep_whole (s : State) (p0 : Fin 9 → Int) :
    Right_Sweep { s with pos := p0 } = Right_Sweep s := by
  unfold Right_Sweep
  simp only [Fix_Rest_eq, fix_loop_eq, write] <;> congr 1 <;> funext j <;>
    fin_cases j <;>
    simp [rs, rb, ls, lb, w, rh, rf, lh, lf, In_Use_Idle, In_Use_Right_Atk, In_Use_Left_Atk,
      In_Use_Right_Shot, In_Use_Left_Shot, In_Use_t1, In_Use_t2_p1, In_Use_t2_p2, In_Use_t3,
      In_Use_t4]

theorem Left_Sweep_led (s : State) :
    (Left_Sweep s).led_state = s.led_state := by
  unfold Left_Sweep
  simp [Fix_Rest_eq, fix_loop_eq, write]

theorem Left_Sweep_crouched (s : State) :
    (Left_Sweep s).crouched = s.crouched := by
  unfold Left_Sweep
  simp [Fix_Rest_eq, fix_loop_eq, write]

theorem Left_Sweep_whole (s : State) (p0 : Fin 9 → Int) :
    Left_Sweep { s with pos := p0 } = Left_Sweep s := by
  unfold Left_Sweep
  simp only [Fix_Rest_eq, fix_loop_eq, write] <;> congr 1 <;> funext j <;>
    fin_cases j <;>
    simp [rs, rb, ls, lb, w, rh, rf, lh, lf, In_Use_Idle, In_Use_Right_Atk, In_Use_Left_Atk,
      In_Use_Right_Shot, In_Use_Left_Shot, In_Use_t1, In_Use_t2_p1, In_Use_t2_p2, In_Use_t3,
      In_Use_t4]

theorem Right_Hook_led (s : State) :
    (Right_Hook s).led_state = s.led_state := by
  unfold Right_Hook
  simp [Fix_Rest_eq, fix_loop_eq, write]

theorem Right_Hook_crouched (s : State) :
    (Right_Hook s).crouched = s.crouched := by
  unfold Right_Hook
  simp [Fix_Rest_eq, fix_loop_eq, write]

theorem Right_Hook_whole (s : State) (p0 : Fin 9 → Int) :
    Right_Hook { s with pos := p0 } = Right_Hook s := by
  unfold Right_Hook
  simp only [Fix_Rest_eq, fix_loop_eq, write] <;> congr 1 <;> funext j <;>
    fin_cases j <;>
    simp [rs, rb, ls, lb, w, rh, rf, lh, lf, In_Use_Idle, In_Use_Right_Atk, In_Use_Left_Atk,
      In_Use_Right_Shot, In_Use_Left_Shot, In_Use_t1, In_Use_t2_p1, In_Use_t2_p2, In_Use_t3,
      In_Use_t4]

theorem Left_Hook_led (s : State) :
    (Left_Hook s).led_state = s.led_state := by
  unfold Left_Hook
  simp [Fix_Rest_eq, fix_loop_eq, write]

theorem Left_Hook_crouched (s : State) :
    (Left_Hook s).crouched = s.crouched := by
  unfold Left_Hook
  simp [Fix_Rest_eq, fix_loop_eq, write]

theorem Left_Hook_whole (s : State) (p0 : Fin 9 → Int) :
    Left_Hook { s with pos := p0 } = Left_Hook s := by
  unfold Left_Hook
  simp only [Fix_Rest_eq, fix_loop_eq, write] <;> congr 1 <;> funext j <;>
    fin_cases j <;>
    simp [rs, rb, ls, lb, w, rh, rf, lh, lf, In_Use_Idle, In_Use_Right_Atk, In_Use_Left_Atk,
      In_Use_Right_Shot, In_Use_Left_Shot, In_Use_t1, In_Use_t2_p1, In_Use_t2_p2, In_Use_t3,
      In_Use_t4]

theorem Right_Shot_led (s : State) :
    (Right_Shot s).led_state = s.led_state := by
  unfold Right_Shot
  simp [Fix_Rest_eq, fix_loop_eq, write]

theorem Right_Shot_crouched (s : State) :
    (Right_Shot s).crouched = s.crouched := by
  unfold Right_Shot
  simp [Fix_Rest_eq, fix_loop_eq, write]

theorem Right_Shot_whole (s : State) (p0 : Fin 9 → Int) :
    Right_Shot { s with pos := p0 } = Right_Shot s := by
  unfold Right_Shot
  simp only [Fix_Rest_eq, fix_loop_eq, write] <;> congr 1 <;> funext j <;>
    fin_cases j <;>
    simp [rs, rb, ls, lb, w, rh, rf, lh, lf, In_Use_Idle, In_Use_Right_Atk, In_Use_Left_Atk,
      In_Use_Right_Shot, In_Use_Left_Shot, In_Use_t1, In_Use_t2_p1, In_Use_t2_p2, In_Use_t3,
      In_Use_t4]

theorem Left_Shot_led (s : State) :
    (Left_Shot s).led_state = s.led_state := by
  unfold Left_Shot
  simp [Fix_Rest_eq, fix_loop_eq, write]

theorem Left_Shot_crouched (s : State) :
    (Left_Shot s).crouched = s.crouched := by
  unfold Left_Shot
  simp [Fix_Rest_eq, fix_loop_eq, write]

theorem Left_Shot_whole (s : State) (p0 : Fin 9 → Int) :
    Left_Shot { s with pos := p0 } = Left_Shot s := by
  unfold Left_Shot
  simp only [Fix_Rest_eq, fix_loop_eq, write] <;> congr 1 <;> funext j <;>
    fin_cases j <;>
    simp [rs, rb, ls, lb, w, rh, rf, lh, lf, In_Use_Idle, In_Use_Right_Atk, In_Use_Left_Atk,
      In_Use_Right_Shot, In_Use_Left_Shot, In_Use_t1, In_Use_t2_p1, In_Use_t2_p2, In_Use_t3,
      In_Use_t4]

theorem GIVE_IT_YOUR_ALL_led (s : State) :
    (GIVE_IT_YOUR_ALL s).led_state = TURQUOISE := by
  unfold GIVE_IT_YOUR_ALL
  simp [Fix_Rest_eq, fix_loop_eq, write]

theorem GIVE_IT_YOUR_ALL_crouched (s : State) :
    (GIVE_IT_YOUR_ALL s).crouched = s.crouched := by
  unfold GIVE_IT_YOUR_ALL
  simp [Fix_Rest_eq, fix_loop_eq, write]

theorem GIVE_IT_YOUR_ALL_whole (s : State) (p0 : Fin 9 → Int) :
    GIVE_IT_YOUR_ALL { s with pos := p0 } = GIVE_IT_YOUR_ALL s := by
  unfold GIVE_IT_YOUR_ALL
  simp only [Fix_Rest_eq, fix_loop_eq, write] <;> congr 1 <;> funext j <;>
    fin_cases j <;>
    simp [rs, rb, ls, lb, w, rh, rf, lh, lf, In_Use_Idle, In_Use_Right_Atk, In_Use_Left_Atk,
      In_Use_Right_Shot, In_Use_Left_Shot, In_Use_t1, In_Use_t2_p1, In_Use_t2_p2, In_Use_t3,
      In_Use_t4]

theorem WARMING_UP_led (now : Nat) (s : State) :
    (WARMING_UP now s).led_state = BLUE := by
  unfold WARMING_UP
  simp [Fix_Rest_eq, fix_loop_eq, write]

theorem WARMING_UP_crouched (now : Nat) (s : State) :
    (WARMING_UP now s).crouched = false := by
  unfold WARMING_UP
  simp [Fix_Rest_eq, fix_loop_eq, write]

theorem WARMING_UP_whole (now : Nat) (s : State) (p0 : Fin 9 → Int) :
    WARMING_UP now { s with pos := p0 } = WARMING_UP now s := by
  unfold WARMING_UP
  simp only [Fix_Rest_eq, fix_loop_eq, write] <;> congr 1 <;> funext j <;>
    fin_cases j <;>
    simp [rs, rb, ls, lb, w, rh, rf, lh, lf, In_Use_Idle, In_Use_Right_Atk, In_Use_Left_Atk,
      In_Use_Right_Shot, In_Use_Left_Shot, In_Use_t1, In_Use_t2_p1, In_Use_t2_p2, In_Use_t3,
      In_Use_t4]

theorem BEHOLD_led (now : Nat) (s : State) :
    (BEHOLD now s).led_state = RED := by
  unfold BEHOLD
  simp only []
  split_ifs <;> simp [Fix_Rest_eq, fix_loop_eq, write]

theorem BEHOLD_crouched (now : Nat) (s : State) :
    (BEHOLD now s).crouched = false := by
  unfold BEHOLD
  simp only []
  split_ifs <;> simp [Fix_Rest_eq, fix_loop_eq, write]

theorem BEHOLD_whole (now : Nat) (s : State) (p0 : Fin 9 → Int) :
    BEHOLD now { s with pos := p0 } = BEHOLD now s := by
  unfold BEHOLD
  simp only []
  split_ifs <;> simp only [Fix_Rest_eq, fix_loop_eq, write] <;> congr 1 <;> funext j <;>
    fin_cases j <;>
    simp [rs, rb, ls, lb, w, rh, rf, lh, lf, In_Use_Idle, In_Use_Right_Atk, In_Use_Left_Atk,
      In_Use_Right_Shot, In_Use_Left_Shot, In_Use_t1, In_Use_t2_p1, In_Use_t2_p2, In_Use_t3,
      In_Use_t4]

theorem DUST_OFF_led (now : Nat) (s : State) :
    (DUST_OFF now s).led_state = ALL := by
  unfold DUST_OFF
  simp only []
  split_ifs <;> simp [Fix_Rest_eq, fix_loop_eq, write]

theorem DUST_OFF_crouched (now : Nat) (s : State) :
    (DUST_OFF now s).crouched = false := by
  unfold DUST_OFF
  simp only []
  split_ifs <;> simp [Fix_Rest_eq, fix_loop_eq, write]

theorem DUST_OFF_whole (now : Nat) (s : State) (p0 : Fin 9 → Int) :
    DUST_OFF now { s with pos := p0 } = DUST_OFF now s := by
  unfold DUST_OFF
  simp only []
  split_ifs <;> simp only [Fix_Rest_eq, fix_loop_eq, write] <;> congr 1 <;> funext j <;>
    fin_cases j <;>
    simp [rs, rb, ls, lb, w, rh, rf, lh, lf, In_Use_Idle, In_Use_Right_Atk, In_Use_Left_Atk,
      In_Use_Right_Shot, In_Use_Left_Shot, In_Use_t1, In_Use_t2_p1, In_Use_t2_p2, In_Use_t3,
      In_Use_t4]

theorem Left_readings (spd now : Nat) (s : State) :
    (Left spd now s).readings = s.readings := by
  unfold Left
  simp only []
  split_ifs <;> simp [Fix_Rest_eq, fix_loop_eq, write]

theorem Right_readings (spd now : Nat) (s : State) :
    (Right spd now s).readings = s.readings := by
  unfold Right
  simp only []
  split_ifs <;> simp [Fix_Rest_eq, fix_loop_eq, write]

theorem Sidestep_Left_readings (spd now : Nat) (s : State) :
    (Sidestep_Left spd now s).readings = s.readings := by
  unfold Sidestep_Left
  simp only []
  split_ifs <;> simp [Fix_Rest_eq, fix_loop_eq, write]

theorem Sidestep_Right_readings (spd now : Nat) (s : State) :
    (Sidestep_Right spd now s).readings = s.readings := by
  unfold Sidestep_Right
  simp only []
  split_ifs <;> simp [Fix_Rest_eq, fix_loop_eq, write]

theorem Forward_readings (spd now : Nat) (s : State) :
    (Forward spd now s).readings = s.readings := by
  unfold Forward
  simp only []
  split_ifs <;> simp [Fix_Rest_eq, fix_loop_eq, write]

theorem Backward_readings (spd now : Nat) (s : State) :
    (Backward spd now s).readings = s.readings := by
  unfold Backward
  simp only []
  split_ifs <;> simp [Fix_Rest_eq, fix_loop_eq, write]

theorem Back_Recovery_readings (spd now : Nat) (s : State) :
    (Back_Recovery spd now s).readings = s.readings := by
  unfold Back_Recovery
  simp only []
  split_ifs <;> simp [Fix_Rest_eq, fix_loop_eq, write]

theorem Front_Recovery_readings (spd now : Nat) (s : State) :
    (Front_Recovery spd now s).readings = s.readings := by
  unfold Front_Recovery
  simp only []
  split_ifs <;> simp [Fix_Rest_eq, fix_loop_eq, write]

theorem Idle_readings (s : State) :
    (Idle s).readings = s.readings := by
  unfold Idle
  simp [Fix_Rest_eq, fix_loop_eq, write]

theorem Right_Sweep_readings (s : State) :
    (Right_Sweep s).readings = s.readings := by
  unfold Right_Sweep
  simp [Fix_Rest_eq, fix_loop_eq, write]

theorem Left_Sweep_readings (s : State) :
    (Left_Sweep s).readings = s.readings := by
  unfold Left_Sweep
  simp [Fix_Rest_eq, fix_loop_eq, write]

theorem Right_Hook_readings (s : State) :
    (Right_Hook s).readings = s.readings := by
  unfold Right_Hook
  simp [Fix_Rest_eq, fix_loop_eq, write]

theorem Left_Hook_readings (s : State) :
    (Left_Hook s).readings = s.readings := by
  unfold Left_Hook
  simp [Fix_Rest_eq, fix_loop_eq, write]

theorem Right_Shot_readings (s : State) :
    (Right_Shot s).readings = s.readings := by
  unfold Right_Shot
  simp [Fix_Rest_eq, fix_loop_eq, write]

theorem Left_Shot_readings (s : State) :
    (Left_Shot s).readings = s.readings := by
  unfold Left_Shot
  simp [Fix_Rest_eq, fix_loop_eq, write]

theorem GIVE_IT_YOUR_ALL_readings (s : State) :
    (GIVE_IT_YOUR_ALL s).readings = s.readings := by
  unfold GIVE_IT_YOUR_ALL
  simp [Fix_Rest_eq, fix_loop_eq, write]

theorem WARMING_UP_readings (now : Nat) (s : State) :
    (WARMING_UP now s).readings = s.readings := by
  unfold WARMING_UP
  simp [Fix_Rest_eq, fix_loop_eq, write]

theorem BEHOLD_readings (now : Nat) (s : State) :
    (BEHOLD now s).readings = s.readings := by
  unfold BEHOLD
  simp only []
  split_ifs <;> simp [Fix_Rest_eq, fix_loop_eq, write]

theorem DUST_OFF_readings (now : Nat) (s : State) :
    (DUST_OFF now s).readings = s.readings := by
  unfold DUST_OFF
  simp only []
  split_ifs <;> simp [Fix_Rest_eq, fix_loop_eq, write]

theorem Idle_pos (s : State) (j : Fin 9) : (Idle s).pos j = baseline s.crouched j := by
  simp [Idle, Fix_Rest_eq, In_Use_Idle]

/-! ## The dispatcher, branch by branch -/

theorem run_sticks_led (now : Nat) (lx ly rx ry : Int) (s : State) :
    (run_sticks now lx ly rx ry s).led_state = ATK := by
  unfold run_sticks
  simp only []
  split_ifs <;>
    simp [Forward_led, Backward_led, Left_led, Right_led, Sidestep_Left_led, Sidestep_Right_led]

theorem run_buttons_led (now : Nat) (b : ps3_button) (s : State) :
    (run_buttons now b s).led_state =
      (if b.left then TURQUOISE else if b.down then ALL else if b.right then RED
        else if b.up then BLUE else ATK) := by
  unfold run_buttons call_if
  simp only [apply_ite State.led_state, Front_Recovery_led, Back_Recovery_led, Left_Shot_led,
    Right_Shot_led, Left_Sweep_led, Right_Sweep_led, Left_Hook_led, Right_Hook_led,
    GIVE_IT_YOUR_ALL_led, DUST_OFF_led, BEHOLD_led, WARMING_UP_led, ite_self]

theorem dispatch_led_ne_closed (now : Nat) (inp : Input) (s : State) :
    (dispatch now inp s).led_state ≠ CLOSED := by
  unfold dispatch
  simp only []
  split_ifs
  · rw [run_buttons_led]
    split_ifs <;> decide
  · rw [run_sticks_led]
    decide
  · simp [Idle_led]

/-! ## The button branch as a table -/

theorem run_buttons_eq_run_list (now : Nat) (b : ps3_button) (s : State) :
    run_buttons now b s = run_list now b button_prims { s with led_state := ATK } := by
  simp only [run_buttons, run_list, button_prims, List.foldl_cons, List.foldl_nil]

theorem button_prims_whole (now : Nat) (q : (ps3_button → Bool) × (Nat → State → State))
    (hq : q ∈ button_prims) (s : State) (p0 : Fin 9 → Int) :
    q.2 now { s with pos := p0 } = q.2 now s := by
  simp only [button_prims, List.mem_cons, List.mem_singleton, List.not_mem_nil, or_false] at hq
  rcases hq with h | h | h | h | h | h | h | h | h | h | h | h <;> subst h <;>
    simp only [WARMING_UP_whole, BEHOLD_whole, DUST_OFF_whole, GIVE_IT_YOUR_ALL_whole,
      Right_Hook_whole, Left_Hook_whole, Right_Sweep_whole, Left_Sweep_whole, Right_Shot_whole,
      Left_Shot_whole, Back_Recovery_whole, Front_Recovery_whole]

theorem run_list_none (now : Nat) (b : ps3_button)
    (l : List ((ps3_button → Bool) × (Nat → State → State))) (s : State)
    (h : ∀ q ∈ l, q.1 b = false) : run_list now b l s = s := by
  induction l generalizing s with
  | nil => rfl
  | cons q l ih =>
    have hq : q.1 b = false := h q (List.mem_cons_self _ _)
    have hl : ∀ r ∈ l, r.1 b = false := fun r hr => h r (List.mem_cons_of_mem _ hr)
    simp only [run_list, List.foldl_cons, hq, call_if] at ih ⊢
    exact ih s hl

theorem run_list_append (now : Nat) (b : ps3_button)
    (l l' : List ((ps3_button → Bool) × (Nat → State → State))) (s : State) :
    run_list now b (l ++ l') s = run_list now b l' (run_list now b l s) := by
  simp [run_list, List.foldl_append]

theorem run_list_last (now : Nat) (b : ps3_button)
    (pre post : List ((ps3_button → Bool) × (Nat → State → State)))
    (q : (ps3_button → Bool) × (Nat → State → State)) (s : State)
    (hq : q.1 b = true) (hpost : ∀ r ∈ post, r.1 b = false) :
    run_list now b (pre ++ q :: post) s = q.2 now (run_list now b pre s) := by
  rw [run_list_append]
  show run_list now b post (call_if (q.1 b) (q.2 now) (run_list now b pre s)) = _
  rw [run_list_none now b post _ hpost, hq]
  rfl

theorem any_primitive_iff (b : ps3_button) :
    any_primitive b = true ↔ ∃ q ∈ button_prims, q.1 b = true := by
  simp [any_primitive, button_prims]
  tauto

theorem any_button_of_primitive (b : ps3_button) (h : any_primitive b = true) :
    any_button b = true := by
  simp only [any_primitive, any_button, Bool.or_eq_true] at h ⊢
  tauto

theorem run_list_whole (now : Nat) (b : ps3_button)
    (l : List ((ps3_button → Bool) × (Nat → State → State)))
    (hl : ∀ q ∈ l, ∀ (s : State) (p0 : Fin 9 → Int), q.2 now { s with pos := p0 } = q.2 now s)
    (hb : ∃ q ∈ l, q.1 b = true) (s : State) (p0 : Fin 9 → Int) :
    run_list now b l { s with pos := p0 } = run_list now b l s := by
  induction l generalizing s p0 with
  | nil =>
    obtain ⟨q, hq, _⟩ := hb
    cases hq
  | cons q l ih =>
    have hl' : ∀ r ∈ l, ∀ (s : State) (p0 : Fin 9 → Int),
        r.2 now { s with pos := p0 } = r.2 now s :=
      fun r hr => hl r (List.mem_cons_of_mem _ hr)
    by_cases hq : q.1 b = true
    · simp only [run_list, List.foldl_cons, hq, call_if, if_true]
      rw [hl q (List.mem_cons_self _ _)]
    · have hb' : ∃ r ∈ l, r.1 b = true := by
        obtain ⟨r, hr, hrb⟩ := hb
        rcases List.mem_cons.mp hr with h | h
        · subst h; exact absurd hrb hq
        · exact ⟨r, h, hrb⟩
      simp only [run_list, List.foldl_cons, hq, call_if] at ih ⊢
      exact ih hl' hb' s p0

theorem run_buttons_whole (now : Nat) (b : ps3_button) (s : State) (p0 : Fin 9 → Int)
    (h : any_primitive b = true) :
    run_buttons now b { s with pos := p0 } = run_buttons now b s := by
  rw [run_buttons_eq_run_list, run_buttons_eq_run_list]
  exact run_list_whole now b button_prims (fun q hq => button_prims_whole now q hq)
    ((any_primitive_iff b).mp h) { s with led_state := ATK } p0

theorem run_buttons_no_primitive (now : Nat) (b : ps3_button) (s : State)
    (h : any_primitive b = false) : run_buttons now b s = { s with led_state := ATK } := by
  rw [run_buttons_eq_run_list]
  apply run_list_none
  intro q hq
  by_contra hqb
  have : any_primitive b = true := (any_primitive_iff b).mpr ⟨q, hq, by simpa using hqb⟩
  rw [h] at this
  cases this

/-! ## What the dispatcher leaves alone -/

theorem adjust_timeouts_pos (now : Nat) (e : ps3_button) (s : State) (p0 : Fin 9 → Int) :
    adjust_timeouts now e { s with pos := p0 } = { adjust_timeouts now e s with pos := p0 } := by
  unfold adjust_timeouts
  simp only []
  split_ifs <;> rfl

theorem adjust_timeouts_crouched (now : Nat) (e : ps3_button) (s : State) :
    (adjust_timeouts now e s).crouched = s.crouched := by
  unfold adjust_timeouts
  simp only []
  split_ifs <;> rfl

theorem adjust_timeouts_readings (now : Nat) (e : ps3_button) (s : State) :
    (adjust_timeouts now e s).readings = s.readings := by
  unfold adjust_timeouts
  simp only []
  split_ifs <;> rfl

theorem adjust_timeouts_get_pos (now : Nat) (e : ps3_button) (s : State) :
    (adjust_timeouts now e s).pos = s.pos := by
  unfold adjust_timeouts
  simp only []
  split_ifs <;> rfl

theorem toggle_crouch_pos (inp : Input) (s : State) (p0 : Fin 9 → Int) :
    toggle_crouch inp { s with pos := p0 } = { toggle_crouch inp s with pos := p0 } := by
  unfold toggle_crouch
  split <;> rfl

theorem toggle_crouch_get_pos (inp : Input) (s : State) :
    (toggle_crouch inp s).pos = s.pos := by
  unfold toggle_crouch
  split <;> rfl

theorem toggle_crouch_readings (inp : Input) (s : State) :
    (toggle_crouch inp s).readings = s.readings := by
  unfold toggle_crouch
  split <;> rfl

theorem run_sticks_whole (now : Nat) (lx ly rx ry : Int) (s : State) (p0 : Fin 9 → Int) :
    run_sticks now lx ly rx ry { s with pos := p0 } = run_sticks now lx ly rx ry s := by
  unfold run_sticks
  simp only []
  split_ifs
  · exact Forward_whole 350 now { s with led_state := ATK } p0
  · exact Backward_whole 350 now { s with led_state := ATK } p0
  · exact Right_whole 350 now { s with led_state := ATK } p0
  · exact Left_whole 350 now { s with led_state := ATK } p0
  · exact Sidestep_Left_whole 250 now { s with led_state := ATK } p0
  · exact Sidestep_Right_whole 250 now { s with led_state := ATK } p0

theorem run_sticks_crouched (now : Nat) (lx ly rx ry : Int) (s : State) :
    (run_sticks now lx ly rx ry s).crouched = s.crouched := by
  unfold run_sticks
  simp only []
  split_ifs <;>
    simp [Forward_crouched, Backward_crouched, Left_crouched, Right_crouched,
      Sidestep_Left_crouched, Sidestep_Right_crouched]

theorem run_sticks_readings (now : Nat) (lx ly rx ry : Int) (s : State) :
    (run_sticks now lx ly rx ry s).readings = s.readings := by
  unfold run_sticks
  simp only []
  split_ifs <;>
    simp [Forward_readings, Backward_readings, Left_readings, Right_readings,
      Sidestep_Left_readings, Sidestep_Right_readings]

theorem call_if_crouched (b : Bool) (f : State → State) (s : State)
    (hf : ∀ x, (f x).crouched = x.crouched) : (call_if b f s).crouched = s.crouched := by
  unfold call_if
  split <;> simp [hf]

theorem call_if_readings (b : Bool) (f : State → State) (s : State)
    (hf : ∀ x, (f x).readings = x.readings) : (call_if b f s).readings = s.readings := by
  unfold call_if
  split <;> simp [hf]

theorem run_buttons_readings (now : Nat) (b : ps3_button) (s : State) :
    (run_buttons now b s).readings = s.readings := by
  unfold run_buttons
  simp only [call_if_readings, Front_Recovery_readings, Back_Recovery_readings,
    Left_Shot_readings, Right_Shot_readings, Left_Sweep_readings, Right_Sweep_readings,
    Left_Hook_readings, Right_Hook_readings, GIVE_IT_YOUR_ALL_readings, DUST_OFF_readings,
    BEHOLD_readings, WARMING_UP_readings, implies_true]

theorem run_buttons_crouched (now : Nat) (b : ps3_button) (s : State) :
    (run_buttons now b s).crouched =
      (if b.up || b.right || b.down then false else s.crouched) := by
  unfold run_buttons
  simp only [call_if_crouched, Front_Recovery_crouched, Back_Recovery_crouched,
    Left_Shot_crouched, Right_Shot_crouched, Left_Sweep_crouched, Right_Sweep_crouched,
    Left_Hook_crouched, Right_Hook_crouched, GIVE_IT_YOUR_ALL_crouched, implies_true]
  cases b.up <;> cases b.right <;> cases b.down <;>
    simp [call_if, DUST_OFF_crouched, BEHOLD_crouched, WARMING_UP_crouched]

theorem dispatch_readings (now : Nat) (inp : Input) (s : State) :
    (dispatch now inp s).readings = s.readings := by
  unfold dispatch
  simp only []
  split_ifs
  · rw [run_buttons_readings, adjust_timeouts_readings]
  · rw [run_sticks_readings, adjust_timeouts_readings]
  · simp [Idle_readings, adjust_timeouts_readings]

theorem notify_readings (now : Nat) (inp : Input) (s : State) :
    (notify now inp s).readings = s.readings := by
  unfold notify
  simp only []
  split_ifs
  · simp [Idle_readings, toggle_crouch_readings]
  · rw [dispatch_readings, toggle_crouch_readings]

theorem mean_voltage_notify (now : Nat) (inp : Input) (s : State) :
    mean_voltage (notify now inp s) = mean_voltage s :=
  mean_voltage_congr _ _ (notify_readings now inp s)

theorem dispatch_whole (now : Nat) (inp : Input) (s : State) (p0 : Fin 9 → Int)
    (h : any_button inp.button = false ∨ any_primitive inp.button = true) :
    dispatch now inp { s with pos := p0 } = dispatch now inp s := by
  unfold dispatch
  simp only [adjust_timeouts_pos]
  split_ifs with hb hs
  · have hp : any_primitive inp.button = true := by
      rcases h with h | h
      · rw [hb] at h; cases h
      · exact h
    exact run_buttons_whole now inp.button _ p0 hp
  · exact run_sticks_whole now _ _ _ _ _ p0
  · exact Idle_whole { adjust_timeouts now inp.button_down s with led_state := IDLE } p0

theorem notify_whole (now : Nat) (inp : Input) (s : State) (p0 : Fin 9 → Int)
    (h : mean_voltage s < 2550 ∨ any_button inp.button = false ∨
      any_primitive inp.button = true) :
    notify now inp { s with pos := p0 } = notify now inp s := by
  by_cases hv : mean_voltage s < 2550
  · rw [notify_low now inp _ (by rw [mean_voltage_pos]; exact hv), notify_low now inp s hv,
      toggle_crouch_pos]
    exact Idle_whole { toggle_crouch inp s with led_state := CLOSED } p0
  · rw [notify_ok now inp _ (by rw [mean_voltage_pos]; exact hv), notify_ok now inp s hv,
      toggle_crouch_pos]
    rcases h with h | h
    · exact absurd h hv
    · exact dispatch_whole now inp _ p0 h

theorem notify_cross_only (now : Nat) (inp : Input) (s : State)
    (hv : ¬ mean_voltage s < 2550) (hb : any_button inp.button = true)
    (hp : any_primitive inp.button = false) :
    (notify now inp s).pos = s.pos := by
  rw [notify_ok now inp s hv]
  unfold dispatch
  simp only [hb, if_true]
  rw [run_buttons_no_primitive now inp.button _ hp]
  simp [adjust_timeouts_get_pos, toggle_crouch_get_pos]

/-! ## C1: the low-voltage override -/

/-- C1. Whatever the prior state and the input snapshot, when the mean of the
voltage buffer is below 2550 the LED state after `notify` is `CLOSED` and every
joint target equals the crouch-aware baseline, taken with the crouch flag as
toggled by this tick's cross edge. -/
theorem C1_safety_override (now : Nat) (inp : Input) (s : State)
    (h : mean_voltage s < 2550) :
    (notify now inp s).led_state = CLOSED ∧
      ∀ j : Fin 9, (notify now inp s).pos j =
        baseline (if inp.button_down.cross then !s.crouched else s.crouched) j := by
  rw [notify_low now inp s h]
  refine ⟨by rw [Idle_led], fun j => ?_⟩
  rw [Idle_pos]
  simp [toggle_crouched]

/-- C1 at the zero-initialised buffer, with the up button held and its edge fired. -/
theorem C1_safety_override_witness :
    mean_voltage State.init < 2550 ∧
      (notify 7 { Input.none with button := { ps3_button.none with up := true },
                                  button_down := { ps3_button.none with up := true },
                                  lx := 100 } State.init).led_state = CLOSED ∧
      ∀ j : Fin 9,
        (notify 7 { Input.none with button := { ps3_button.none with up := true },
                                    button_down := { ps3_button.none with up := true },
                                    lx := 100 } State.init).pos j = gaucho_pos j :=
  ⟨by rw [mean_voltage_init]; norm_num,
   C1_safety_override 7 _ State.init (by rw [mean_voltage_init]; norm_num)⟩

/-! ## C2: charge bins and the latch threshold -/

/-- C2. With `m` the mean of the buffer that `Display_Voltage` has just
refreshed: the full graphic is drawn iff `m >= 3050`, the two-bar graphic iff
`2800 <= m < 3050`, the one-bar graphic iff `2550 <= m < 2800` (in the lit half
of its blink), the empty graphic iff `m < 2550` (in the lit half of its blink),
and `notify` takes the low-voltage branch (LED `CLOSED`) iff `m < 2550`. -/
theorem C2_charge_bins (now sample : Nat) (s : State) :
    ((Display_Voltage now sample s).lcd = some Bitmap.full_charge ↔
        3050 ≤ mean_voltage (Display_Voltage now sample s)) ∧
    ((Display_Voltage now sample s).lcd = some Bitmap.two_bar_charge ↔
        2800 ≤ mean_voltage (Display_Voltage now sample s) ∧
          mean_voltage (Display_Voltage now sample s) < 3050) ∧
    ((Display_Voltage now sample s).lcd = some Bitmap.one_bar_charge ↔
        (2550 ≤ mean_voltage (Display_Voltage now sample s) ∧
          mean_voltage (Display_Voltage now sample s) < 2800) ∧ now % 2000 < 1000) ∧
    ((Display_Voltage now sample s).lcd = some Bitmap.empty_charge ↔
        mean_voltage (Display_Voltage now sample s) < 2550 ∧ now % 2000 < 1000) ∧
    (∀ (t : Nat) (inp : Input),
        (notify t inp (Display_Voltage now sample s)).led_state = CLOSED ↔
          mean_voltage (Display_Voltage now sample s) < 2550) := by
  have hm : mean_voltage (Display_Voltage now sample s) =
      mean_voltage { s with readings := Function.update s.readings s.reading_idx sample } :=
    mean_voltage_congr _ _ (Display_Voltage_readings now sample s)
  have hm2 := hm
  rw [hm]
  generalize hmv :
    mean_voltage { s with readings := Function.update s.readings s.reading_idx sample } = m
  rw [hmv] at hm2
  refine ⟨?_, ?_, ?_, ?_, ?_⟩
  · unfold Display_Voltage
    simp only [hmv]
    split_ifs <;> simp_all
  · unfold Display_Voltage
    simp only [hmv]
    split_ifs <;> simp_all
  · unfold Display_Voltage
    simp only [hmv]
    split_ifs <;> simp_all <;> intros <;> linarith
  · unfold Display_Voltage
    simp only [hmv]
    split_ifs <;> simp_all <;> intros <;> linarith
  · intro t inp
    constructor
    · intro hc
      by_contra hlt
      rw [notify_ok t inp _ (by rw [hm2]; exact hlt)] at hc
      exact dispatch_led_ne_closed _ _ _ hc
    · intro hlt
      rw [notify_low t inp _ (by rw [hm2]; exact hlt), Idle_led]

/-- C2 at the six boundary means: 3050 is full; 3049 and 2800 are two-bar; 2799
and 2550 are one-bar with the latch clear; 2549 is empty with the latch set. -/
theorem C2_charge_bins_witness :
    (Display_Voltage 0 3050 (State.level 3050)).lcd = some Bitmap.full_charge ∧
    (Display_Voltage 0 3049 (State.level 3049)).lcd = some Bitmap.two_bar_charge ∧
    (Display_Voltage 0 2800 (State.level 2800)).lcd = some Bitmap.two_bar_charge ∧
    (Display_Voltage 0 2799 (State.level 2799)).lcd = some Bitmap.one_bar_charge ∧
    (Display_Voltage 0 2550 (State.level 2550)).lcd = some Bitmap.one_bar_charge ∧
    (notify 1 Input.none (Display_Voltage 0 2550 (State.level 2550))).led_state ≠ CLOSED ∧
    (Display_Voltage 0 2549 (State.level 2549)).lcd = some Bitmap.empty_charge ∧
    (notify 1 Input.none (Display_Voltage 0 2549 (State.level 2549))).led_state = CLOSED :=
  ⟨(C2_charge_bins 0 3050 (State.level 3050)).1.mpr
      (by rw [Display_Voltage_level]; norm_num),
   (C2_charge_bins 0 3049 (State.level 3049)).2.1.mpr
      (by rw [Display_Voltage_level]; norm_num),
   (C2_charge_bins 0 2800 (State.level 2800)).2.1.mpr
      (by rw [Display_Voltage_level]; norm_num),
   (C2_charge_bins 0 2799 (State.level 2799)).2.2.1.mpr
      (by rw [Display_Voltage_level]; norm_num),
   (C2_charge_bins 0 2550 (State.level 2550)).2.2.1.mpr
      (by rw [Display_Voltage_level]; norm_num),
   fun hc => absurd
      (((C2_charge_bins 0 2550 (State.level 2550)).2.2.2.2 1 Input.none).mp hc)
      (by rw [Display_Voltage_level]; norm_num),
   (C2_charge_bins 0 2549 (State.level 2549)).2.2.2.1.mpr
      (by rw [Display_Voltage_level]; norm_num),
   ((C2_charge_bins 0 2549 (State.level 2549)).2.2.2.2 1 Input.none).mpr
      (by rw [Display_Voltage_level]; norm_num)⟩

/-! ## Backfill by `Fix_Rest` -/

theorem Fix_Rest_backfill (U : Fin 9 → Bool) (s : State) (j : Fin 9) (hj : U j = false) :
    (Fix_Rest U s).pos j = baseline (Fix_Rest U s).crouched j := by
  simp [Fix_Rest_eq, hj]

theorem Left_Shot_backfill (s : State) (j : Fin 9) (hj : In_Use_Left_Shot j = false) :
    (Left_Shot s).pos j = baseline (Left_Shot s).crouched j :=
  Fix_Rest_backfill _ _ j hj

theorem Right_Shot_backfill (s : State) (j : Fin 9) (hj : In_Use_Right_Shot j = false) :
    (Right_Shot s).pos j = baseline (Right_Shot s).crouched j :=
  Fix_Rest_backfill _ _ j hj

theorem Left_Sweep_backfill (s : State) (j : Fin 9) (hj : In_Use_Left_Atk j = false) :
    (Left_Sweep s).pos j = baseline (Left_Sweep s).crouched j :=
  Fix_Rest_backfill _ _ j hj

theorem Right_Sweep_backfill (s : State) (j : Fin 9) (hj : In_Use_Right_Atk j = false) :
    (Right_Sweep s).pos j = baseline (Right_Sweep s).crouched j :=
  Fix_Rest_backfill _ _ j hj

theorem Left_Hook_backfill (s : State) (j : Fin 9) (hj : In_Use_Left_Atk j = false) :
    (Left_Hook s).pos j = baseline (Left_Hook s).crouched j :=
  Fix_Rest_backfill _ _ j hj

theorem Right_Hook_backfill (s : State) (j : Fin 9) (hj : In_Use_Right_Atk j = false) :
    (Right_Hook s).pos j = baseline (Right_Hook s).crouched j :=
  Fix_Rest_backfill _ _ j hj

theorem GIVE_IT_YOUR_ALL_backfill (s : State) (j : Fin 9) (hj : In_Use_t4 j = false) :
    (GIVE_IT_YOUR_ALL s).pos j = baseline (GIVE_IT_YOUR_ALL s).crouched j :=
  Fix_Rest_backfill _ _ j hj

theorem DUST_OFF_backfill (now : Nat) (s : State) (j : Fin 9) (hj : In_Use_t3 j = false) :
    (DUST_OFF now s).pos j = baseline (DUST_OFF now s).crouched j := by
  unfold DUST_OFF
  simp only []
  exact Fix_Rest_backfill _ _ j hj

theorem WARMING_UP_backfill (now : Nat) (s : State) (j : Fin 9) (hj : In_Use_t1 j = false) :
    (WARMING_UP now s).pos j = baseline (WARMING_UP now s).crouched j :=
  Fix_Rest_backfill _ _ j hj

theorem BEHOLD_backfill (now : Nat) (s : State) (j : Fin 9)
    (hj : (if now < (s.t2_timeout + 350) % U32 then In_Use_t2_p1 else In_Use_t2_p2) j = false) :
    (BEHOLD now s).pos j = baseline (BEHOLD now s).crouched j := by
  unfold BEHOLD
  simp only []
  split_ifs with h
  · rw [if_pos h] at hj
    exact Fix_Rest_backfill _ _ j hj
  · rw [if_neg h] at hj
    exact Fix_Rest_backfill _ _ j hj


theorem run_buttons_unfold (now : Nat) (b : ps3_button) (s : State) :
    run_buttons now b s =
      call_if b.start (Front_Recovery 2100 now)
      (call_if b.select (Back_Recovery 2100 now)
      (call_if b.square Left_Shot
      (call_if b.circle Right_Shot
      (call_if b.l2 Left_Sweep
      (call_if b.r2 Right_Sweep
      (call_if b.l1 Left_Hook
      (call_if b.r1 Right_Hook
      (call_if b.left GIVE_IT_YOUR_ALL
      (call_if b.down (DUST_OFF now)
      (call_if b.right (BEHOLD now)
      (call_if b.up (WARMING_UP now) { s with led_state := ATK }))))))))))) := rfl

theorem call_if_true (f : State → State) (s : State) : call_if true f s = f s := rfl

theorem call_if_false (f : State → State) (s : State) : call_if false f s = s := rfl

theorem call_if_t2 (b : Bool) (f : State → State) (s : State)
    (hf : ∀ x, (f x).t2_timeout = x.t2_timeout) : (call_if b f s).t2_timeout = s.t2_timeout := by
  unfold call_if
  split <;> simp [hf]

theorem WARMING_UP_t2 (now : Nat) (s : State) :
    (WARMING_UP now s).t2_timeout = s.t2_timeout := by
  unfold WARMING_UP
  simp [Fix_Rest_eq, write]

theorem run_buttons_backfill (now : Nat) (b : ps3_button) (s : State) (U : Fin 9 → Bool)
    (hU : last_fix_rest now b s = some U) (j : Fin 9) (hj : U j = false) :
    (run_buttons now b s).pos j = baseline (run_buttons now b s).crouched j := by
  rw [run_buttons_unfold]
  unfold last_fix_rest at hU
  rcases Bool.eq_false_or_eq_true b.start with h | h
  · simp [h] at hU
  simp only [h, call_if_false, Bool.false_or] at hU ⊢
  clear h
  rcases Bool.eq_false_or_eq_true b.select with h | h
  · simp [h] at hU
  simp only [h, call_if_false, Bool.false_eq_true, if_false] at hU ⊢
  clear h
  rcases Bool.eq_false_or_eq_true b.square with h | h
  · simp only [h, call_if_true, if_true, Option.some.injEq] at hU ⊢
    subst hU
    exact Left_Shot_backfill _ j hj
  simp only [h, call_if_false, Bool.false_eq_true, if_false] at hU ⊢
  clear h
  rcases Bool.eq_false_or_eq_true b.circle with h | h
  · simp only [h, call_if_true, if_true, Option.some.injEq] at hU ⊢
    subst hU
    exact Right_Shot_backfill _ j hj
  simp only [h, call_if_false, Bool.false_eq_true, if_false] at hU ⊢
  clear h
  rcases Bool.eq_false_or_eq_true b.l2 with h | h
  · simp only [h, call_if_true, if_true, Option.some.injEq] at hU ⊢
    subst hU
    exact Left_Sweep_backfill _ j hj
  simp only [h, call_if_false, Bool.false_eq_true, if_false] at hU ⊢
  clear h
  rcases Bool.eq_false_or_eq_true b.r2 with h | h
  · simp only [h, call_if_true, if_true, Option.some.injEq] at hU ⊢
    subst hU
    exact Right_Sweep_backfill _ j hj
  simp only [h, call_if_false, Bool.false_eq_true, if_false] at hU ⊢
  clear h
  rcases Bool.eq_false_or_eq_true b.l1 with h | h
  · simp only [h, call_if_true, if_true, Option.some.injEq] at hU ⊢
    subst hU
    exact Left_Hook_backfill _ j hj
  simp only [h, call_if_false, Bool.false_eq_true, if_false] at hU ⊢
  clear h
  rcases Bool.eq_false_or_eq_true b.r1 with h | h
  · simp only [h, call_if_true, if_true, Option.some.injEq] at hU ⊢
    subst hU
    exact Right_Hook_backfill _ j hj
  simp only [h, call_if_false, Bool.false_eq_true, if_false] at hU ⊢
  clear h
  rcases Bool.eq_false_or_eq_true b.left with h | h
  · simp only [h, call_if_true, if_true, Option.some.injEq] at hU ⊢
    subst hU
    exact GIVE_IT_YOUR_ALL_backfill _ j hj
  simp only [h, call_if_false, Bool.false_eq_true, if_false] at hU ⊢
  clear h
  rcases Bool.eq_false_or_eq_true b.down with h | h
  · simp only [h, call_if_true, if_true, Option.some.injEq] at hU ⊢
    subst hU
    exact DUST_OFF_backfill now _ j hj
  simp only [h, call_if_false, Bool.false_eq_true, if_false] at hU ⊢
  clear h
  rcases Bool.eq_false_or_eq_true b.right with h | h
  · simp only [h, call_if_true, if_true, Option.some.injEq] at hU ⊢
    subst hU
    refine BEHOLD_backfill now _ j ?_
    rw [call_if_t2 _ _ _ (WARMING_UP_t2 now)]
    exact hj
  simp only [h, call_if_false, Bool.false_eq_true, if_false] at hU ⊢
  clear h
  rcases Bool.eq_false_or_eq_true b.up with h | h
  · simp only [h, call_if_true, if_true, Option.some.injEq] at hU ⊢
    subst hU
    exact WARMING_UP_backfill now _ j hj
  simp [h] at hU


/-! ## C3, C5, C8, C9, C10: retained targets, LED state, idle, crouch flag, pose table -/

/-- Claim C3, evaluated where it fails: a tick at normal voltage in which only the
cross button is held enters the button branch, invokes no primitive and runs no
backfill.  After a forward-gait tick followed by such a tick every joint target
is still the one the gait wrote (left foot at `std_pos[lf] + 25`), although the
crouch flag is now set and the crouched baseline of the left foot is different. -/
theorem C3_cross_only_retains_targets :
    any_button Input.cross_only.button = true ∧
    (∀ j : Fin 9,
      (notify 101 Input.cross_only (notify 100 Input.forward_stick (State.level 3000))).pos j =
        (notify 100 Input.forward_stick (State.level 3000)).pos j) ∧
    (notify 101 Input.cross_only (notify 100 Input.forward_stick (State.level 3000))).pos lf
      = std_pos lf + 25 ∧
    (notify 101 Input.cross_only
      (notify 100 Input.forward_stick (State.level 3000))).crouched = true ∧
    baseline true lf ≠ std_pos lf + 25 := by
  have h1 : ¬ mean_voltage (State.level 3000) < 2550 := level_not_low 3000 (by norm_num)
  have h2 : ¬ mean_voltage (notify 100 Input.forward_stick (State.level 3000)) < 2550 := by
    rw [mean_voltage_notify]; exact h1
  refine ⟨by decide, ?_, ?_, ?_, by decide⟩
  · intro j
    rw [notify_cross_only 101 Input.cross_only _ h2 (by decide) (by decide)]
  · rw [notify_cross_only 101 Input.cross_only _ h2 (by decide) (by decide), notify_ok _ _ _ h1]
    decide
  · rw [notify_ok _ _ _ h2, notify_ok _ _ _ h1]
    decide

/-- Claim C5 fails as stated: at normal voltage with the up button held, the LED
state after `notify` is not `ATK` (`WARMING_UP` has set it to `BLUE`). -/
theorem C5_counterexample :
    ¬ mean_voltage (State.level 3000) < 2550 ∧ Input.up_held.button.up = true ∧
      (notify 0 Input.up_held (State.level 3000)).led_state ≠ ATK := by
  have h1 : ¬ mean_voltage (State.level 3000) < 2550 := level_not_low 3000 (by norm_num)
  refine ⟨h1, rfl, ?_⟩
  rw [notify_ok _ _ _ h1]
  decide

/-- Claim C5, amended. At normal voltage with at least one of the twelve buttons
up, right, down, left, r1, l1, r2, l2, circle, square, select, start held, the LED
state after `notify` is that of the last held taunt in source order, `TURQUOISE`
for left, else `ALL` for down, else `RED` for right, else `BLUE` for up, and it
is `ATK` when none of these four is held. -/
theorem C5_led_after_buttons (now : Nat) (inp : Input) (s : State)
    (hv : ¬ mean_voltage s < 2550) (hb : any_primitive inp.button = true) :
    (notify now inp s).led_state =
      (if inp.button.left then TURQUOISE else if inp.button.down then ALL
        else if inp.button.right then RED else if inp.button.up then BLUE else ATK) := by
  rw [notify_ok now inp s hv]
  unfold dispatch
  simp only [any_button_of_primitive _ hb, if_true]
  rw [run_buttons_led]

/-- Claim C5, amended, at the up button (`BLUE`) and at the r1 button (`ATK`). -/
theorem C5_led_after_buttons_witness :
    (notify 0 Input.up_held (State.level 3000)).led_state = BLUE ∧
    (notify 0 { Input.none with button := { ps3_button.none with r1 := true } }
      (State.level 3000)).led_state = ATK :=
  ⟨C5_led_after_buttons 0 Input.up_held (State.level 3000)
      (level_not_low 3000 (by norm_num)) (by decide),
   C5_led_after_buttons 0 _ (State.level 3000) (level_not_low 3000 (by norm_num)) (by decide)⟩

/-- Claim C8. At normal voltage, with none of the buttons tested by `notify` held
and every stick axis of magnitude at most 10, the LED state after `notify` is
`IDLE` and every joint target equals the crouch-aware baseline, taken with the
crouch flag as toggled by this tick's cross edge. -/
theorem C8_no_input_idle (now : Nat) (inp : Input) (s : State)
    (hv : ¬ mean_voltage s < 2550) (hb : any_button inp.button = false)
    (hlx : abs inp.lx ≤ 10) (hly : abs inp.ly ≤ 10) (hrx : abs inp.rx ≤ 10)
    (hry : abs inp.ry ≤ 10) :
    (notify now inp s).led_state = IDLE ∧
      ∀ j : Fin 9, (notify now inp s).pos j =
        baseline (if inp.button_down.cross then !s.crouched else s.crouched) j := by
  rw [notify_ok now inp s hv]
  unfold dispatch
  have hs : (decide (abs inp.lx > 10) || decide (abs inp.ly > 10) || decide (abs inp.rx > 10) ||
      decide (abs inp.ry > 10)) = false := by
    simp only [Bool.or_eq_false_iff, decide_eq_false_iff_not, not_lt, gt_iff_lt]
    exact ⟨⟨⟨hlx, hly⟩, hrx⟩, hry⟩
  simp only [hb, hs, Bool.false_eq_true, if_false]
  refine ⟨by rw [Idle_led], fun j => ?_⟩
  rw [Idle_pos]
  simp [adjust_timeouts_crouched, toggle_crouched]

/-- Claim C8 at the stick reading `lx = 5, ly = 5, rx = 0, ry = 0`. -/
theorem C8_no_input_idle_witness :
    (notify 0 { Input.none with lx := 5, ly := 5 } (State.level 3000)).led_state = IDLE ∧
      ∀ j : Fin 9, (notify 0 { Input.none with lx := 5, ly := 5 } (State.level 3000)).pos j =
        gaucho_pos j :=
  C8_no_input_idle 0 { Input.none with lx := 5, ly := 5 } (State.level 3000)
    (level_not_low 3000 (by norm_num)) (by decide) (by decide) (by decide) (by decide)
    (by decide)

/-- Claim C9 fails as stated: with the crouch flag set, no cross edge, normal
voltage and the up button held, the flag after `notify` differs from the flag
before (`WARMING_UP` has cleared it). -/
theorem C9_counterexample :
    Input.up_held.button_down.cross = false ∧
      (notify 0 Input.up_held { State.level 3000 with crouched := true }).crouched ≠
        ({ State.level 3000 with crouched := true } : State).crouched := by
  have h1 : ¬ mean_voltage { State.level 3000 with crouched := true } < 2550 := by
    rw [mean_voltage_crouched]; exact level_not_low 3000 (by norm_num)
  refine ⟨rfl, ?_⟩
  rw [notify_ok _ _ _ h1]
  decide

theorem dispatch_crouched (now : Nat) (inp : Input) (s : State) :
    (dispatch now inp s).crouched =
      (if inp.button.up || inp.button.right || inp.button.down then false else s.crouched) := by
  unfold dispatch
  simp only []
  by_cases hb : any_button inp.button = true
  · simp only [hb, if_true, run_buttons_crouched, adjust_timeouts_crouched]
  · have h3 : (inp.button.up || inp.button.right || inp.button.down) = false := by
      simp only [any_button, Bool.or_eq_true, not_or, Bool.not_eq_true] at hb
      simp [hb]
    rw [h3]
    simp only [hb, if_false, Bool.false_eq_true]
    split_ifs
    · rw [run_sticks_crouched, adjust_timeouts_crouched]
    · simp [Idle_crouched, adjust_timeouts_crouched]

/-- Claim C9, amended. After `notify` the crouch flag is `false` when the voltage
is normal and one of the taunt buttons up, right, down is held; in every other
case it is the flag before the tick, negated exactly when the cross edge fired. -/
theorem C9_crouch_flag (now : Nat) (inp : Input) (s : State) :
    (notify now inp s).crouched =
      (if ¬ mean_voltage s < 2550 ∧
          (inp.button.up = true ∨ inp.button.right = true ∨ inp.button.down = true)
        then false
        else if inp.button_down.cross then !s.crouched else s.crouched) := by
  by_cases hv : mean_voltage s < 2550
  · rw [notify_low now inp s hv]
    simp [hv, Idle_crouched, toggle_crouched]
  · rw [notify_ok now inp s hv, dispatch_crouched, toggle_crouched]
    by_cases h3 : (inp.button.up || inp.button.right || inp.button.down) = true
    · have h3p := h3
      simp only [Bool.or_eq_true] at h3p
      have : inp.button.up = true ∨ inp.button.right = true ∨ inp.button.down = true := by
        tauto
      simp [h3, hv, this]
    · have h3p := h3
      simp only [Bool.or_eq_true, not_or] at h3p
      have : ¬ (inp.button.up = true ∨ inp.button.right = true ∨ inp.button.down = true) := by
        tauto
      simp only [h3, this, and_false, if_false]
      simp

/-- Claim C10 fails as stated: `std_pos` does not pair the hips as 60/40 and the
feet as 130/130. -/
theorem C10_counterexample :
    ¬ (std_pos rs = 20 ∧ std_pos ls = 160 ∧ std_pos rb = 145 ∧ std_pos lb = 35 ∧
        std_pos w = 95 ∧ std_pos rh = 60 ∧ std_pos lh = 40 ∧ std_pos rf = 130 ∧
        std_pos lf = 130) := by
  decide

/-- Claim C10, amended. The table `std_pos` gives right/left shoulder 20/160,
right/left bicep 145/35, waist 95, right hip 60 and right foot 40, left hip 130
and left foot 130. -/
theorem C10_std_pos_table :
    std_pos rs = 20 ∧ std_pos ls = 160 ∧ std_pos rb = 145 ∧ std_pos lb = 35 ∧
      std_pos w = 95 ∧ std_pos rh = 60 ∧ std_pos rf = 40 ∧ std_pos lh = 130 ∧
      std_pos lf = 130 := by
  decide


/-! ## Backfill by the gaits and by `Front_Recovery` -/

theorem Forward_backfill (spd now : Nat) (s : State) (j : Fin 9) (hj : In_Use_gait j = false) :
    (Forward spd now s).pos j = std_pos j := by
  unfold Forward
  simp only []
  split_ifs <;> simp only [fix_loop_eq, write] <;> revert hj <;> fin_cases j <;>
    simp [In_Use_gait, rs, rb, ls, lb, w, rh, rf, lh, lf]

theorem Backward_backfill (spd now : Nat) (s : State) (j : Fin 9)
    (hj : In_Use_gait j = false) : (Backward spd now s).pos j = std_pos j := by
  unfold Backward
  simp only []
  split_ifs <;> simp only [fix_loop_eq, write] <;> revert hj <;> fin_cases j <;>
    simp [In_Use_gait, rs, rb, ls, lb, w, rh, rf, lh, lf]

theorem Left_backfill (spd now : Nat) (s : State) (j : Fin 9) (hj : In_Use_gait j = false) :
    (Left spd now s).pos j = gaucho_pos j := by
  unfold Left
  simp only []
  split_ifs <;> simp only [fix_loop_eq, write] <;> revert hj <;> fin_cases j <;>
    simp [In_Use_gait, rs, rb, ls, lb, w, rh, rf, lh, lf]

theorem Right_backfill (spd now : Nat) (s : State) (j : Fin 9) (hj : In_Use_gait j = false) :
    (Right spd now s).pos j = gaucho_pos j := by
  unfold Right
  simp only []
  split_ifs <;> simp only [fix_loop_eq, write] <;> revert hj <;> fin_cases j <;>
    simp [In_Use_gait, rs, rb, ls, lb, w, rh, rf, lh, lf]

theorem Sidestep_Left_backfill (spd now : Nat) (s : State) (j : Fin 9)
    (hj : In_Use_sidestep j = false) : (Sidestep_Left spd now s).pos j = std_pos j := by
  unfold Sidestep_Left
  simp only []
  split_ifs <;> simp only [fix_loop_eq, write] <;> revert hj <;> fin_cases j <;>
    simp [In_Use_sidestep, rs, rb, ls, lb, w, rh, rf, lh, lf]

theorem Sidestep_Right_backfill (spd now : Nat) (s : State) (j : Fin 9)
    (hj : In_Use_sidestep j = false) : (Sidestep_Right spd now s).pos j = std_pos j := by
  unfold Sidestep_Right
  simp only []
  split_ifs <;> simp only [fix_loop_eq, write] <;> revert hj <;> fin_cases j <;>
    simp [In_Use_sidestep, rs, rb, ls, lb, w, rh, rf, lh, lf]

theorem Forward_not_idle (spd now : Nat) (s : State) (c : Bool) :
    (Forward spd now s).pos w ≠ baseline c w := by
  unfold Forward
  simp only []
  split_ifs <;> simp only [fix_loop_eq, write] <;> cases c <;>
    simp [rs, rb, ls, lb, w, rh, rf, lh, lf] <;> decide

theorem Backward_not_idle (spd now : Nat) (s : State) (c : Bool) :
    (Backward spd now s).pos w ≠ baseline c w := by
  unfold Backward
  simp only []
  split_ifs <;> simp only [fix_loop_eq, write] <;> cases c <;>
    simp [rs, rb, ls, lb, w, rh, rf, lh, lf] <;> decide

theorem Left_not_idle (spd now : Nat) (s : State) (c : Bool) :
    (Left spd now s).pos w ≠ baseline c w ∨ (Left spd now s).pos lf ≠ baseline c lf := by
  unfold Left
  simp only []
  split_ifs <;> simp only [fix_loop_eq, write] <;> cases c <;>
    simp [rs, rb, ls, lb, w, rh, rf, lh, lf] <;> decide

theorem Right_not_idle (spd now : Nat) (s : State) (c : Bool) :
    (Right spd now s).pos w ≠ baseline c w ∨ (Right spd now s).pos lf ≠ baseline c lf := by
  unfold Right
  simp only []
  split_ifs <;> simp only [fix_loop_eq, write] <;> cases c <;>
    simp [rs, rb, ls, lb, w, rh, rf, lh, lf] <;> decide

theorem Sidestep_Left_not_idle (spd now : Nat) (s : State) (c : Bool) :
    (Sidestep_Left spd now s).pos lf ≠ baseline c lf := by
  unfold Sidestep_Left
  simp only []
  split_ifs <;> simp only [fix_loop_eq, write] <;> cases c <;>
    simp [rs, rb, ls, lb, w, rh, rf, lh, lf] <;> decide

theorem Sidestep_Right_not_idle (spd now : Nat) (s : State) (c : Bool) :
    (Sidestep_Right spd now s).pos lf ≠ baseline c lf := by
  unfold Sidestep_Right
  simp only []
  split_ifs <;> simp only [fix_loop_eq, write] <;> cases c <;>
    simp [rs, rb, ls, lb, w, rh, rf, lh, lf] <;> decide

theorem Right_Sweep_front_start (s : State) :
    (Right_Sweep s).front_recovery_start = s.front_recovery_start := by
  unfold Right_Sweep
  simp [Fix_Rest_eq, fix_loop_eq, write]

theorem Left_Sweep_front_start (s : State) :
    (Left_Sweep s).front_recovery_start = s.front_recovery_start := by
  unfold Left_Sweep
  simp [Fix_Rest_eq, fix_loop_eq, write]

theorem Right_Hook_front_start (s : State) :
    (Right_Hook s).front_recovery_start = s.front_recovery_start := by
  unfold Right_Hook
  simp [Fix_Rest_eq, fix_loop_eq, write]

theorem Left_Hook_front_start (s : State) :
    (Left_Hook s).front_recovery_start = s.front_recovery_start := by
  unfold Left_Hook
  simp [Fix_Rest_eq, fix_loop_eq, write]

theorem Right_Shot_front_start (s : State) :
    (Right_Shot s).front_recovery_start = s.front_recovery_start := by
  unfold Right_Shot
  simp [Fix_Rest_eq, fix_loop_eq, write]

theorem Left_Shot_front_start (s : State) :
    (Left_Shot s).front_recovery_start = s.front_recovery_start := by
  unfold Left_Shot
  simp [Fix_Rest_eq, fix_loop_eq, write]

theorem GIVE_IT_YOUR_ALL_front_start (s : State) :
    (GIVE_IT_YOUR_ALL s).front_recovery_start = s.front_recovery_start := by
  unfold GIVE_IT_YOUR_ALL
  simp [Fix_Rest_eq, fix_loop_eq, write]

theorem WARMING_UP_front_start (now : Nat) (s : State) :
    (WARMING_UP now s).front_recovery_start = s.front_recovery_start := by
  unfold WARMING_UP
  simp [Fix_Rest_eq, fix_loop_eq, write]

theorem BEHOLD_front_start (now : Nat) (s : State) :
    (BEHOLD now s).front_recovery_start = s.front_recovery_start := by
  unfold BEHOLD
  simp only []
  split_ifs <;> simp [Fix_Rest_eq, fix_loop_eq, write]

theorem DUST_OFF_front_start (now : Nat) (s : State) :
    (DUST_OFF now s).front_recovery_start = s.front_recovery_start := by
  unfold DUST_OFF
  simp only []
  split_ifs <;> simp [Fix_Rest_eq, fix_loop_eq, write]

theorem Back_Recovery_front_start (spd now : Nat) (s : State) :
    (Back_Recovery spd now s).front_recovery_start = s.front_recovery_start := by
  unfold Back_Recovery
  simp only []
  split_ifs <;> simp [Fix_Rest_eq, fix_loop_eq, write]

theorem call_if_front_start (b : Bool) (f : State → State) (s : State)
    (hf : ∀ x, (f x).front_recovery_start = x.front_recovery_start) :
    (call_if b f s).front_recovery_start = s.front_recovery_start := by
  unfold call_if
  split <;> simp [hf]

theorem Front_Recovery_backfill (spd now : Nat) (s : State) (j : Fin 9)
    (hj : In_Use_front j = false) :
    (Front_Recovery spd now s).pos j =
      (if now < (s.front_recovery_start + 1 * spd / 4) % U32 ∨
          now < (s.front_recovery_start + 2 * spd / 4) % U32 ∨
          now < (s.front_recovery_start + 3 * spd / 4) % U32
        then gaucho_pos j else crouch_pos j) := by
  unfold Front_Recovery
  simp only []
  split_ifs with h1 h2 h3 h4 h5 h6 h7 <;> simp only [fix_loop_eq, write] <;>
    first
    | (exfalso; tauto)
    | (revert hj; fin_cases j <;> simp [In_Use_front, rs, rb, ls, lb, w, rh, rf, lh, lf])

theorem run_buttons_start (now : Nat) (b : ps3_button) (s : State) (j : Fin 9)
    (hs : b.start = true) (hj : In_Use_front j = false) :
    (run_buttons now b s).pos j =
      (if now < (s.front_recovery_start + 1 * 2100 / 4) % U32 ∨
          now < (s.front_recovery_start + 2 * 2100 / 4) % U32 ∨
          now < (s.front_recovery_start + 3 * 2100 / 4) % U32
        then gaucho_pos j else crouch_pos j) := by
  rw [run_buttons_unfold, hs, call_if_true, Front_Recovery_backfill 2100 now _ j hj]
  simp only [call_if_front_start, Back_Recovery_front_start, Left_Shot_front_start,
    Right_Shot_front_start, Left_Sweep_front_start, Right_Sweep_front_start,
    Left_Hook_front_start, Right_Hook_front_start, GIVE_IT_YOUR_ALL_front_start,
    DUST_OFF_front_start, BEHOLD_front_start, WARMING_UP_front_start, implies_true]

theorem adjust_timeouts_front_start (now : Nat) (e : ps3_button) (s : State) :
    (adjust_timeouts now e s).front_recovery_start =
      (if e.start then now else s.front_recovery_start) := by
  unfold adjust_timeouts
  simp only []
  split_ifs <;> rfl

theorem toggle_crouch_front_start (inp : Input) (s : State) :
    (toggle_crouch inp s).front_recovery_start = s.front_recovery_start := by
  unfold toggle_crouch
  split <;> rfl

theorem run_sticks_cases (now : Nat) (lx ly rx ry : Int) (s : State) :
    run_sticks now lx ly rx ry s = Forward 350 now { s with led_state := ATK } ∨
    run_sticks now lx ly rx ry s = Backward 350 now { s with led_state := ATK } ∨
    run_sticks now lx ly rx ry s = Right 350 now { s with led_state := ATK } ∨
    run_sticks now lx ly rx ry s = Left 350 now { s with led_state := ATK } ∨
    run_sticks now lx ly rx ry s = Sidestep_Left 250 now { s with led_state := ATK } ∨
    run_sticks now lx ly rx ry s = Sidestep_Right 250 now { s with led_state := ATK } := by
  unfold run_sticks
  simp only []
  split_ifs <;> simp

theorem run_sticks_not_idle (now : Nat) (lx ly rx ry : Int) (s : State) (c : Bool) :
    ∃ j : Fin 9, (run_sticks now lx ly rx ry s).pos j ≠ baseline c j := by
  unfold run_sticks
  simp only []
  split_ifs
  · exact ⟨w, Forward_not_idle _ _ _ c⟩
  · exact ⟨w, Backward_not_idle _ _ _ c⟩
  · rcases Right_not_idle 350 now { s with led_state := ATK } c with h | h
    · exact ⟨w, h⟩
    · exact ⟨lf, h⟩
  · rcases Left_not_idle 350 now { s with led_state := ATK } c with h | h
    · exact ⟨w, h⟩
    · exact ⟨lf, h⟩
  · exact ⟨lf, Sidestep_Left_not_idle _ _ _ c⟩
  · exact ⟨lf, Sidestep_Right_not_idle _ _ _ c⟩

theorem sticks_active (inp : Input)
    (hd : abs inp.lx > 10 ∨ abs inp.ly > 10 ∨ abs inp.rx > 10 ∨ abs inp.ry > 10) :
    (decide (abs inp.lx > 10) || decide (abs inp.ly > 10) || decide (abs inp.rx > 10) ||
      decide (abs inp.ry > 10)) = true := by
  simp only [Bool.or_eq_true, decide_eq_true_eq]
  tauto

theorem dispatch_sticks (now : Nat) (inp : Input) (s : State)
    (hb : any_button inp.button = false)
    (hd : abs inp.lx > 10 ∨ abs inp.ly > 10 ∨ abs inp.rx > 10 ∨ abs inp.ry > 10) :
    dispatch now inp s =
      run_sticks now inp.lx inp.ly inp.rx inp.ry (adjust_timeouts now inp.button_down s) := by
  unfold dispatch
  simp only [hb, sticks_active inp hd, Bool.false_eq_true, if_false, if_true]

theorem dispatch_buttons (now : Nat) (inp : Input) (s : State)
    (hb : any_button inp.button = true) :
    dispatch now inp s = run_buttons now inp.button (adjust_timeouts now inp.button_down s) := by
  unfold dispatch
  simp only [hb, if_true]

/-! ## C7, C4, C6: dead zone, backfill, last primitive wins -/

/-- Claim C7 fails as stated: at normal voltage with no button held and the left
stick at `lx = 6, ly = 6`, the combined deflection 12 exceeds 10, yet the LED
state after `notify` is `IDLE` and the pose is the idle baseline. -/
theorem C7_counterexample :
    ¬ mean_voltage (State.level 3000) < 2550 ∧
    any_button Input.diagonal.button = false ∧
    abs Input.diagonal.lx + abs Input.diagonal.ly > 10 ∧
    (notify 0 Input.diagonal (State.level 3000)).led_state = IDLE ∧
    (notify 0 Input.diagonal (State.level 3000)).led_state ≠ ATK ∧
    (∀ j : Fin 9,
      (notify 0 Input.diagonal (State.level 3000)).pos j = gaucho_pos j) := by
  have h1 : ¬ mean_voltage (State.level 3000) < 2550 := level_not_low 3000 (by norm_num)
  refine ⟨h1, by decide, by decide, ?_, ?_, ?_⟩ <;> rw [notify_ok _ _ _ h1] <;> decide

/-- Claim C7, amended. At normal voltage with none of the buttons tested by
`notify` held, if some single stick axis has magnitude above 10 then the LED
state after `notify` is `ATK` and the tick is exactly one of the six locomotion
primitives (`Forward`, `Backward`, `Right`, `Left` with period 350,
`Sidestep_Left`, `Sidestep_Right` with period 250); the resulting pose differs
from the idle baseline at some joint. -/
theorem C7_dead_zone_per_axis (now : Nat) (inp : Input) (s : State)
    (hv : ¬ mean_voltage s < 2550) (hb : any_button inp.button = false)
    (hd : abs inp.lx > 10 ∨ abs inp.ly > 10 ∨ abs inp.rx > 10 ∨ abs inp.ry > 10) :
    (notify now inp s).led_state = ATK ∧
    (notify now inp s = Forward 350 now
        { adjust_timeouts now inp.button_down (toggle_crouch inp s) with led_state := ATK } ∨
      notify now inp s = Backward 350 now
        { adjust_timeouts now inp.button_down (toggle_crouch inp s) with led_state := ATK } ∨
      notify now inp s = Right 350 now
        { adjust_timeouts now inp.button_down (toggle_crouch inp s) with led_state := ATK } ∨
      notify now inp s = Left 350 now
        { adjust_timeouts now inp.button_down (toggle_crouch inp s) with led_state := ATK } ∨
      notify now inp s = Sidestep_Left 250 now
        { adjust_timeouts now inp.button_down (toggle_crouch inp s) with led_state := ATK } ∨
      notify now inp s = Sidestep_Right 250 now
        { adjust_timeouts now inp.button_down (toggle_crouch inp s) with led_state := ATK }) ∧
    ∃ j : Fin 9, (notify now inp s).pos j ≠ baseline (notify now inp s).crouched j := by
  rw [notify_ok now inp s hv, dispatch_sticks now inp _ hb hd]
  exact ⟨run_sticks_led _ _ _ _ _ _, run_sticks_cases _ _ _ _ _ _,
    run_sticks_not_idle _ _ _ _ _ _ _⟩

/-- Claim C7, amended, at the left stick pushed forward (`ly = -50`). -/
theorem C7_dead_zone_per_axis_witness :
    (notify 100 Input.forward_stick (State.level 3000)).led_state = ATK ∧
    (∃ j : Fin 9, (notify 100 Input.forward_stick (State.level 3000)).pos j ≠
      baseline (notify 100 Input.forward_stick (State.level 3000)).crouched j) :=
  ⟨(C7_dead_zone_per_axis 100 Input.forward_stick (State.level 3000)
      (level_not_low 3000 (by norm_num)) (by decide) (by decide)).1,
   (C7_dead_zone_per_axis 100 Input.forward_stick (State.level 3000)
      (level_not_low 3000 (by norm_num)) (by decide) (by decide)).2.2⟩


/-- Claim C4 fails as stated: the stick-selected `Forward` gait claims the feet and
the waist, and leaves the right hip at `std_pos[rh]`, which is not the
crouch-aware baseline. -/
theorem C4_counterexample :
    ¬ mean_voltage (State.level 3000) < 2550 ∧
    notify 100 Input.forward_stick (State.level 3000) =
      Forward 350 100 { State.level 3000 with led_state := ATK } ∧
    In_Use_gait rh = false ∧
    (notify 100 Input.forward_stick (State.level 3000)).pos rh = std_pos rh ∧
    (notify 100 Input.forward_stick (State.level 3000)).pos rh ≠
      baseline (notify 100 Input.forward_stick (State.level 3000)).crouched rh := by
  have h1 : ¬ mean_voltage (State.level 3000) < 2550 := level_not_low 3000 (by norm_num)
  refine ⟨h1, ?_, by decide, ?_, ?_⟩
  · rw [notify_ok _ _ _ h1]
    rfl
  · rw [notify_ok _ _ _ h1]
    decide
  · rw [notify_ok _ _ _ h1]
    decide

/-- Claim C4, amended. At normal voltage: (1) when the last primitive invoked by
the button branch is an attack or a taunt, every joint outside the `In_Use` set
it hands to `Fix_Rest` ends the tick at the crouch-aware baseline, taken with
the crouch flag at the end of the tick; (2) when start is held, the joints that
`Front_Recovery` never claims end at `gaucho_pos` during its first three beats
and at `crouch_pos` afterwards, whatever the flag; (3) for the stick-selected
primitives, joints outside the claimed set end at `std_pos` for `Forward`,
`Backward` and the sidesteps and at `gaucho_pos` for the turns, whatever the
flag. -/
theorem C4_backfill (now : Nat) (inp : Input) (s : State) (hv : ¬ mean_voltage s < 2550) :
    (∀ U : Fin 9 → Bool,
      last_fix_rest now inp.button
          (adjust_timeouts now inp.button_down (toggle_crouch inp s)) = some U →
        ∀ j : Fin 9, U j = false →
          (notify now inp s).pos j = baseline (notify now inp s).crouched j) ∧
    (inp.button.start = true → ∀ j : Fin 9, In_Use_front j = false →
      (notify now inp s).pos j =
        (if now < ((if inp.button_down.start then now else s.front_recovery_start)
                + 1 * 2100 / 4) % U32 ∨
            now < ((if inp.button_down.start then now else s.front_recovery_start)
                + 2 * 2100 / 4) % U32 ∨
            now < ((if inp.button_down.start then now else s.front_recovery_start)
                + 3 * 2100 / 4) % U32
          then gaucho_pos j else crouch_pos j)) ∧
    (any_button inp.button = false →
      (abs inp.lx > 10 ∨ abs inp.ly > 10 ∨ abs inp.rx > 10 ∨ abs inp.ry > 10) →
      (abs inp.ry + abs inp.rx < abs inp.ly + abs inp.lx → abs inp.ly > abs inp.lx →
        ∀ j : Fin 9, In_Use_gait j = false → (notify now inp s).pos j = std_pos j) ∧
      (abs inp.ry + abs inp.rx < abs inp.ly + abs inp.lx → ¬ abs inp.ly > abs inp.lx →
        ∀ j : Fin 9, In_Use_gait j = false → (notify now inp s).pos j = gaucho_pos j) ∧
      (¬ abs inp.ry + abs inp.rx < abs inp.ly + abs inp.lx →
        ∀ j : Fin 9, In_Use_sidestep j = false → (notify now inp s).pos j = std_pos j)) := by
  rw [notify_ok now inp s hv]
  refine ⟨?_, ?_, ?_⟩
  · intro U hU j hj
    have hb : any_button inp.button = true := by
      by_contra hb
      simp only [any_button, Bool.or_eq_true, not_or, Bool.not_eq_true] at hb
      obtain ⟨⟨⟨⟨⟨⟨⟨⟨⟨⟨⟨⟨a1, a2⟩, a3⟩, a4⟩, a5⟩, a6⟩, a7⟩, a8⟩, a9⟩, a10⟩, a11⟩, a12⟩, a13⟩ := hb
      simp [last_fix_rest, a1, a2, a3, a4, a5, a6, a7, a8, a9, a10, a12, a13] at hU
    rw [dispatch_buttons now inp _ hb]
    exact run_buttons_backfill now inp.button _ U hU j hj
  · intro hs j hj
    have hb : any_button inp.button = true := by simp [any_button, hs]
    rw [dispatch_buttons now inp _ hb, run_buttons_start now inp.button _ j hs hj,
      adjust_timeouts_front_start, toggle_crouch_front_start]
  · intro hb hd
    rw [dispatch_sticks now inp _ hb hd]
    unfold run_sticks
    simp only []
    refine ⟨?_, ?_, ?_⟩
    · intro h1 h2 j hj
      simp only [h1, h2, if_true]
      split_ifs
      · exact Forward_backfill _ _ _ j hj
      · exact Backward_backfill _ _ _ j hj
    · intro h1 h2 j hj
      simp only [h1, h2, if_true, if_false]
      split_ifs
      · exact Right_backfill _ _ _ j hj
      · exact Left_backfill _ _ _ j hj
    · intro h1 j hj
      simp only [h1, if_false]
      split_ifs
      · exact Sidestep_Left_backfill _ _ _ j hj
      · exact Sidestep_Right_backfill _ _ _ j hj

/-- Claim C4, amended, at the right hook held while the cross edge fires: the
right hip, outside the right arm and waist, ends at the crouched baseline. -/
theorem C4_backfill_witness :
    In_Use_Right_Atk rh = false ∧
      (notify 0 Input.hook_cross (State.level 3000)).pos rh =
        baseline (notify 0 Input.hook_cross (State.level 3000)).crouched rh ∧
      (notify 0 Input.hook_cross (State.level 3000)).crouched = true ∧
      baseline true rh = 135 :=
  ⟨by decide,
   (C4_backfill 0 Input.hook_cross (State.level 3000)
      (level_not_low 3000 (by norm_num))).1 In_Use_Right_Atk (by decide) rh (by decide),
   by rw [notify_ok _ _ _ (level_not_low 3000 (by norm_num))]; decide,
   by decide⟩

theorem DUST_OFF_after_WARMING_UP (now : Nat) (s : State) :
    (DUST_OFF now (WARMING_UP now { s with led_state := ATK })).pos = (DUST_OFF now s).pos := by
  unfold DUST_OFF WARMING_UP
  simp only [Fix_Rest_eq, write]
  split_ifs <;> funext j <;> fin_cases j <;>
    simp [In_Use_t1, In_Use_t3, rs, rb, ls, lb, w, rh, rf, lh, lf]

/-- Claim C6. At normal voltage the button branch runs the primitives of the held
buttons in the order up, right, down, left, r1, l1, r2, l2, circle, square,
select, start, and the joint targets at the end of the tick are those written by
the last held one, whatever the earlier ones wrote. With exactly up and down held
among the twelve, all nine targets (feet, waist and biceps among them) are those
`DUST_OFF` produces on its own. -/
theorem C6_last_wins (now : Nat) (inp : Input) (s : State) (hv : ¬ mean_voltage s < 2550) :
    (∀ (pre post : List ((ps3_button → Bool) × (Nat → State → State)))
        (q : (ps3_button → Bool) × (Nat → State → State)),
      button_prims = pre ++ q :: post → q.1 inp.button = true →
      (∀ r ∈ post, r.1 inp.button = false) →
      ∀ p0 : Fin 9 → Int,
        (notify now inp s).pos =
          (q.2 now
            { run_list now inp.button pre
                { adjust_timeouts now inp.button_down (toggle_crouch inp s) with
                  led_state := ATK } with pos := p0 }).pos) ∧
    (inp.button.up = true ∧ inp.button.down = true ∧ inp.button.right = false ∧
        inp.button.left = false ∧ inp.button.r1 = false ∧ inp.button.l1 = false ∧
        inp.button.r2 = false ∧ inp.button.l2 = false ∧ inp.button.circle = false ∧
        inp.button.square = false ∧ inp.button.select = false ∧ inp.button.start = false →
      (notify now inp s).pos =
        (DUST_OFF now (adjust_timeouts now inp.button_down (toggle_crouch inp s))).pos) := by
  rw [notify_ok now inp s hv]
  refine ⟨?_, ?_⟩
  · intro pre post q hsplit hq hpost p0
    have hmem : q ∈ button_prims := by rw [hsplit]; simp
    have hp : any_primitive inp.button = true := (any_primitive_iff _).mpr ⟨q, hmem, hq⟩
    rw [dispatch_buttons now inp _ (any_button_of_primitive _ hp), run_buttons_eq_run_list,
      hsplit, run_list_last now inp.button pre post q _ hq hpost]
    exact (congrArg State.pos (button_prims_whole now q hmem _ p0)).symm
  · rintro ⟨h1, h2, h3, h4, h5, h6, h7, h8, h9, h10, h11, h12⟩
    have hb : any_button inp.button = true := by simp [any_button, h1]
    rw [dispatch_buttons now inp _ hb, run_buttons_unfold]
    simp only [h1, h2, h3, h4, h5, h6, h7, h8, h9, h10, h11, h12, call_if_true, call_if_false]
    exact DUST_OFF_after_WARMING_UP now _


theorem mean_voltage_setup (now : Nat) (s : State) :
    mean_voltage (setup now s) = mean_voltage s := rfl

/-- Claim C6 with up and down held 400 ms after `setup`: the targets are those of
`DUST_OFF` (right shoulder at 20), not those `WARMING_UP` would leave (48). -/
theorem C6_last_wins_witness :
    (notify 400 Input.up_down (setup 0 (State.level 3000))).pos =
        (DUST_OFF 400 (adjust_timeouts 400 Input.up_down.button_down
          (toggle_crouch Input.up_down (setup 0 (State.level 3000))))).pos ∧
      (DUST_OFF 400 (adjust_timeouts 400 Input.up_down.button_down
          (toggle_crouch Input.up_down (setup 0 (State.level 3000))))).pos rs = 20 ∧
      (WARMING_UP 400 (adjust_timeouts 400 Input.up_down.button_down
          (toggle_crouch Input.up_down (setup 0 (State.level 3000))))).pos rs = 48 :=
  ⟨(C6_last_wins 400 Input.up_down (setup 0 (State.level 3000))
      (by rw [mean_voltage_setup]; exact level_not_low 3000 (by norm_num))).2 (by decide),
   by decide, by decide⟩

/-! ## C11, C15: the forward gait and the final hold of the front recovery -/

/-- Claim C11. For every time `t`, `Forward(350)` with phase `t mod 350` below 175
sets left foot, right foot and waist to `std_pos` +25, +25, +45, with phase at
least 175 to `std_pos` -25, -25, -45, and in both beats every other joint to its
`std_pos` value. -/
theorem C11_forward_gait (t : Nat) (s : State) :
    (t % 350 < 175 →
      (Forward 350 t s).pos lf = std_pos lf + 25 ∧
      (Forward 350 t s).pos rf = std_pos rf + 25 ∧
      (Forward 350 t s).pos w = std_pos w + 45) ∧
    (175 ≤ t % 350 →
      (Forward 350 t s).pos lf = std_pos lf - 25 ∧
      (Forward 350 t s).pos rf = std_pos rf - 25 ∧
      (Forward 350 t s).pos w = std_pos w - 45) ∧
    (∀ j : Fin 9, j ≠ lf → j ≠ rf → j ≠ w → (Forward 350 t s).pos j = std_pos j) := by
  refine ⟨?_, ?_, ?_⟩
  · intro h
    unfold Forward
    simp only []
    rw [if_pos (by simpa using h)]
    simp [fix_loop_eq, write, rs, rb, ls, lb, w, rh, rf, lh, lf]
  · intro h
    unfold Forward
    simp only []
    rw [if_neg (by simpa using h)]
    simp [fix_loop_eq, write, rs, rb, ls, lb, w, rh, rf, lh, lf]
  · intro j h1 h2 h3
    apply Forward_backfill
    simp [In_Use_gait, h1, h2, h3]

/-- Claim C11 at `t = 100` (Beat A) and `t = 300` (Beat B). -/
theorem C11_forward_gait_witness :
    ((Forward 350 100 (State.level 3000)).pos lf = 155 ∧
      (Forward 350 100 (State.level 3000)).pos rf = 65 ∧
      (Forward 350 100 (State.level 3000)).pos w = 140) ∧
    ((Forward 350 300 (State.level 3000)).pos lf = 105 ∧
      (Forward 350 300 (State.level 3000)).pos rf = 15 ∧
      (Forward 350 300 (State.level 3000)).pos w = 50) ∧
    (Forward 350 100 (State.level 3000)).pos rh = 60 ∧
    (Forward 350 300 (State.level 3000)).pos lh = 130 :=
  ⟨(C11_forward_gait 100 (State.level 3000)).1 (by decide),
   (C11_forward_gait 300 (State.level 3000)).2.1 (by decide),
   (C11_forward_gait 100 (State.level 3000)).2.2 rh (by decide) (by decide) (by decide),
   (C11_forward_gait 300 (State.level 3000)).2.2 lh (by decide) (by decide) (by decide)⟩

theorem wrap_le (a k now : Nat) (h : a + k ≤ now) : ¬ now < (a + k) % U32 := by
  have := Nat.mod_le (a + k) U32
  omega

theorem wrap_le_of_le (a k k' now : Nat) (hk : k ≤ k') (h : a + k' ≤ now) :
    ¬ now < (a + k) % U32 := by
  have := Nat.mod_le (a + k) U32
  omega

theorem Front_Recovery_final (now : Nat) (s : State)
    (h : s.front_recovery_start + 1575 ≤ now) :
    Front_Recovery 2100 now s = { s with pos := crouch_pos } := by
  unfold Front_Recovery
  simp only []
  rw [if_neg (wrap_le_of_le _ _ 1575 _ (by norm_num) h),
    if_neg (wrap_le_of_le _ _ 1575 _ (by norm_num) h),
    if_neg (wrap_le_of_le _ _ 1575 _ (by norm_num) h), fix_loop_eq]
  simp

/-- Claim C15. From three quarters of the duration on
(`t >= front_recovery_start + 1575`), `Front_Recovery(2100)` writes `crouch_pos` to
all nine joints and changes nothing else (no flag is raised, the crouch flag is
untouched); invoked again at any later time it leaves the same pose. -/
theorem C15_front_recovery_hold (now : Nat) (s : State)
    (h : s.front_recovery_start + 1575 ≤ now) :
    Front_Recovery 2100 now s = { s with pos := crouch_pos } ∧
    (∀ later : Nat, now ≤ later →
      Front_Recovery 2100 later (Front_Recovery 2100 now s) = { s with pos := crouch_pos }) := by
  refine ⟨Front_Recovery_final now s h, fun later hl => ?_⟩
  rw [Front_Recovery_final now s h]
  exact Front_Recovery_final later { s with pos := crouch_pos } (by simpa using by omega)

/-- Claim C15 at `t = 1575` with the activation timestamp 0, and again 15 minutes
later. -/
theorem C15_front_recovery_hold_witness :
    (∀ j : Fin 9, (Front_Recovery 2100 1575 (State.level 3000)).pos j = crouch_pos j) ∧
    (Front_Recovery 2100 1575 (State.level 3000)).crouched = false ∧
    (∀ j : Fin 9,
      (Front_Recovery 2100 900000 (Front_Recovery 2100 1575 (State.level 3000))).pos j
        = crouch_pos j) :=
  ⟨fun j => by
      rw [(C15_front_recovery_hold 1575 (State.level 3000) (by decide)).1],
   by rw [(C15_front_recovery_hold 1575 (State.level 3000) (by decide)).1]; rfl,
   fun j => by
      rw [(C15_front_recovery_hold 1575 (State.level 3000) (by decide)).2 900000 (by decide)]⟩

/-! ## The two-beat primitives as a choice between two poses -/

theorem Forward_pose (spd t : Nat) (s : State) :
    Forward spd t s =
      { s with pos := if t % spd < spd / 2 then Forward_A else Forward_B } := by
  unfold Forward
  simp only []
  split_ifs <;> simp only [fix_loop_eq, write] <;> congr 1 <;> funext j <;>
    fin_cases j <;> simp [rs, rb, ls, lb, w, rh, rf, lh, lf] <;> rfl

theorem Backward_pose (spd t : Nat) (s : State) :
    Backward spd t s =
      { s with pos := if t % spd < spd / 2 then Backward_A else Backward_B } := by
  unfold Backward
  simp only []
  split_ifs <;> simp only [fix_loop_eq, write] <;> congr 1 <;> funext j <;>
    fin_cases j <;> simp [rs, rb, ls, lb, w, rh, rf, lh, lf] <;> rfl

theorem Left_pose (spd t : Nat) (s : State) :
    Left spd t s = { s with pos := if t % spd < spd / 2 then Left_A else Left_B } := by
  unfold Left
  simp only []
  split_ifs <;> simp only [fix_loop_eq, write] <;> congr 1 <;> funext j <;>
    fin_cases j <;> simp [rs, rb, ls, lb, w, rh, rf, lh, lf] <;> rfl

theorem Right_pose (spd t : Nat) (s : State) :
    Right spd t s = { s with pos := if t % spd < spd / 2 then Right_A else Right_B } := by
  unfold Right
  simp only []
  split_ifs <;> simp only [fix_loop_eq, write] <;> congr 1 <;> funext j <;>
    fin_cases j <;> simp [rs, rb, ls, lb, w, rh, rf, lh, lf] <;> rfl

theorem Sidestep_Left_pose (spd t : Nat) (s : State) :
    Sidestep_Left spd t s =
      { s with pos := if t % spd < spd / 2 then Sidestep_Left_A else Sidestep_B } := by
  unfold Sidestep_Left
  simp only []
  split_ifs <;> simp only [fix_loop_eq, write] <;> congr 1 <;> funext j <;>
    fin_cases j <;> simp [rs, rb, ls, lb, w, rh, rf, lh, lf] <;> rfl

theorem Sidestep_Right_pose (spd t : Nat) (s : State) :
    Sidestep_Right spd t s =
      { s with pos := if t % spd < spd / 2 then Sidestep_Right_A else Sidestep_B } := by
  unfold Sidestep_Right
  simp only []
  split_ifs <;> simp only [fix_loop_eq, write] <;> congr 1 <;> funext j <;>
    fin_cases j <;> simp [rs, rb, ls, lb, w, rh, rf, lh, lf] <;> rfl


/-! ## C16, C17, C19, C20: two-beat primitives, back recovery, dust-off -/

theorem pose_ne (a b : Fin 9 → Int) (j : Fin 9) (h : a j ≠ b j) : a ≠ b :=
  fun hab => h (by rw [hab])

/-- Claim C16. For each of the six two-beat primitives and every period
`spd > 0`: the result depends on `t` only through `t mod spd`; the pose is the
Beat A pose exactly when `t mod spd < spd / 2` (integer division) and the Beat B
pose otherwise, the two poses being different; and the result at `t + spd` is
the result at `t`. -/
theorem C16_two_beat_periodic (spd t : Nat) (s : State) (hspd : 0 < spd) :
    (∀ t2 : Nat, t2 % spd = t % spd →
      Forward spd t2 s = Forward spd t s ∧
      Backward spd t2 s = Backward spd t s ∧
      Left spd t2 s = Left spd t s ∧
      Right spd t2 s = Right spd t s ∧
      Sidestep_Left spd t2 s = Sidestep_Left spd t s ∧
      Sidestep_Right spd t2 s = Sidestep_Right spd t s) ∧
    (Forward spd t s).pos = (if t % spd < spd / 2 then Forward_A else Forward_B) ∧
    (Backward spd t s).pos = (if t % spd < spd / 2 then Backward_A else Backward_B) ∧
    (Left spd t s).pos = (if t % spd < spd / 2 then Left_A else Left_B) ∧
    (Right spd t s).pos = (if t % spd < spd / 2 then Right_A else Right_B) ∧
    (Sidestep_Left spd t s).pos = (if t % spd < spd / 2 then Sidestep_Left_A else Sidestep_B) ∧
    (Sidestep_Right spd t s).pos = (if t % spd < spd / 2 then Sidestep_Right_A else Sidestep_B) ∧
    Forward_A ≠ Forward_B ∧
    Backward_A ≠ Backward_B ∧
    Left_A ≠ Left_B ∧
    Right_A ≠ Right_B ∧
    Sidestep_Left_A ≠ Sidestep_B ∧
    Sidestep_Right_A ≠ Sidestep_B ∧
    Forward spd (t + spd) s = Forward spd t s ∧
    Backward spd (t + spd) s = Backward spd t s ∧
    Left spd (t + spd) s = Left spd t s ∧
    Right spd (t + spd) s = Right spd t s ∧
    Sidestep_Left spd (t + spd) s = Sidestep_Left spd t s ∧
    Sidestep_Right spd (t + spd) s = Sidestep_Right spd t s := by
  have hper : (t + spd) % spd = t % spd := Nat.add_mod_right t spd
  refine ⟨?_, ?_, ?_, ?_, ?_, ?_, ?_, ?_, ?_, ?_, ?_, ?_, ?_, ?_, ?_, ?_, ?_, ?_, ?_⟩
  · intro t2 h2
    simp only [Forward_pose, Backward_pose, Left_pose, Right_pose, Sidestep_Left_pose,
      Sidestep_Right_pose, h2, and_self]
  · rw [Forward_pose]
  · rw [Backward_pose]
  · rw [Left_pose]
  · rw [Right_pose]
  · rw [Sidestep_Left_pose]
  · rw [Sidestep_Right_pose]
  · exact pose_ne _ _ w (by decide)
  · exact pose_ne _ _ w (by decide)
  · exact pose_ne _ _ w (by decide)
  · exact pose_ne _ _ w (by decide)
  · exact pose_ne _ _ lf (by decide)
  · exact pose_ne _ _ lf (by decide)
  · rw [Forward_pose, Forward_pose, hper]
  · rw [Backward_pose, Backward_pose, hper]
  · rw [Left_pose, Left_pose, hper]
  · rw [Right_pose, Right_pose, hper]
  · rw [Sidestep_Left_pose, Sidestep_Left_pose, hper]
  · rw [Sidestep_Right_pose, Sidestep_Right_pose, hper]

/-- Claim C16 for `Forward(350)` at `t = 100` and `Sidestep_Left(250)` at `t = 300`. -/
theorem C16_two_beat_periodic_witness :
    (Forward 350 100 (State.level 3000)).pos = Forward_A ∧
    Forward 350 (100 + 350) (State.level 3000) = Forward 350 100 (State.level 3000) ∧
    Sidestep_Left 250 (300 + 250) (State.level 3000) =
      Sidestep_Left 250 300 (State.level 3000) :=
  ⟨(C16_two_beat_periodic 350 100 (State.level 3000) (by decide)).2.1,
   (C16_two_beat_periodic 350 100 (State.level 3000) (by decide)).2.2.2.2.2.2.2.2.2.2.2.2.2.1,
   (C16_two_beat_periodic 250 300
      (State.level 3000) (by decide)).2.2.2.2.2.2.2.2.2.2.2.2.2.2.2.2.2.1⟩

/-- Claim C17. For every period `spd > 0` and time `t`, `Left(spd)` and
`Right(spd)` agree on the eight joints other than the waist: the left and right
foot at `gaucho_pos` -20 and +20 in Beat A and at `gaucho_pos` in Beat B, the
other six at `gaucho_pos`. The waist is `gaucho_pos[w]` for both in Beat A; in
Beat B it is `gaucho_pos[w] + 80` for `Left` and `gaucho_pos[w] - 80` for `Right`. -/
theorem C17_turns_differ_in_waist (spd t : Nat) (s : State) (hspd : 0 < spd) :
    (∀ j : Fin 9, j ≠ w → (Left spd t s).pos j = (Right spd t s).pos j) ∧
    (∀ j : Fin 9, j ≠ lf → j ≠ rf → j ≠ w → (Left spd t s).pos j = gaucho_pos j) ∧
    (t % spd < spd / 2 →
      (Left spd t s).pos lf = gaucho_pos lf - 20 ∧
      (Left spd t s).pos rf = gaucho_pos rf + 20 ∧
      (Left spd t s).pos w = gaucho_pos w ∧
      (Right spd t s).pos w = gaucho_pos w) ∧
    (¬ t % spd < spd / 2 →
      (Left spd t s).pos lf = gaucho_pos lf ∧
      (Left spd t s).pos rf = gaucho_pos rf ∧
      (Left spd t s).pos w = gaucho_pos w + 80 ∧
      (Right spd t s).pos w = gaucho_pos w - 80) := by
  refine ⟨?_, ?_, ?_, ?_⟩
  · intro j hj
    rw [Left_pose, Right_pose]
    split_ifs <;> revert hj <;> fin_cases j <;> simp [w] <;> rfl
  · intro j h1 h2 h3
    apply Left_backfill
    simp [In_Use_gait, h1, h2, h3]
  · intro h
    rw [Left_pose, Right_pose]
    simp only [h, if_true]
    decide
  · intro h
    rw [Left_pose, Right_pose]
    simp only [h, if_false]
    decide

/-- Claim C17 for period 350 at `t = 100` (Beat A) and `t = 300` (Beat B). -/
theorem C17_turns_differ_in_waist_witness :
    ((Left 350 100 (State.level 3000)).pos lf = 100 - 20 ∧
      (Left 350 100 (State.level 3000)).pos rf = 60 + 20 ∧
      (Left 350 100 (State.level 3000)).pos w = 95 ∧
      (Right 350 100 (State.level 3000)).pos w = 95) ∧
    ((Left 350 300 (State.level 3000)).pos lf = 100 ∧
      (Left 350 300 (State.level 3000)).pos rf = 60 ∧
      (Left 350 300 (State.level 3000)).pos w = 95 + 80 ∧
      (Right 350 300 (State.level 3000)).pos w = 95 - 80) ∧
    (Left 350 300 (State.level 3000)).pos rh = (Right 350 300 (State.level 3000)).pos rh :=
  ⟨(C17_turns_differ_in_waist 350 100 (State.level 3000) (by decide)).2.2.1 (by decide),
   (C17_turns_differ_in_waist 350 300 (State.level 3000) (by decide)).2.2.2 (by decide),
   (C17_turns_differ_in_waist 350 300 (State.level 3000) (by decide)).1 rh (by decide)⟩

/-- Claim C19, evaluated where it fails: in the third beat of `Back_Recovery(2100)`
(activation timestamp 0, `t = 1100`) the shoulders are written `gaucho_pos` +30 /
-30 and then written again `gaucho_pos` +105 / -105, so the pose left has the
shoulders still raised; the biceps are at `gaucho_pos` -145 / +145 as claimed. -/
theorem C19_back_recovery_third_beat :
    (State.level 3000).back_recovery_start + 1050 ≤ 1100 ∧
    1100 < (State.level 3000).back_recovery_start + 1575 ∧
    (Back_Recovery 2100 1100 (State.level 3000)).pos rs = gaucho_pos rs + 105 ∧
    (Back_Recovery 2100 1100 (State.level 3000)).pos ls = gaucho_pos ls - 105 ∧
    (Back_Recovery 2100 1100 (State.level 3000)).pos rs ≠ gaucho_pos rs + 30 ∧
    (Back_Recovery 2100 1100 (State.level 3000)).pos ls ≠ gaucho_pos ls - 30 ∧
    (Back_Recovery 2100 1100 (State.level 3000)).pos rb = gaucho_pos rb - 145 ∧
    (Back_Recovery 2100 1100 (State.level 3000)).pos lb = gaucho_pos lb + 145 := by
  decide

theorem DUST_OFF_after_window (now : Nat) (s : State) (h : s.t3_timeout + 500 ≤ now) :
    DUST_OFF now s = { s with crouched := false, led_state := ALL, pos := gaucho_pos } := by
  unfold DUST_OFF
  simp only []
  rw [if_neg (wrap_le _ _ _ h)]
  simp only [Fix_Rest_eq, write, baseline]
  congr 1
  funext j
  fin_cases j <;> simp [In_Use_t3, rb, lb]

/-- Claim C20. Invoked at `t >= t3_timeout + 500`, `DUST_OFF` clears the crouch
flag, sets the LED state `ALL` and leaves all nine joints (both biceps among
them) at `gaucho_pos`, changing nothing else. Invoked at `t < t3_timeout + 500`
(the sum below the clock wrap), it writes the biceps from the samples of the
ramp channels `t3_rb`, `t3_lb` and every other joint from `gaucho_pos`. -/
theorem C20_dust_off_window (now : Nat) (s : State) :
    (s.t3_timeout + 500 ≤ now →
      DUST_OFF now s = { s with crouched := false, led_state := ALL, pos := gaucho_pos }) ∧
    (now < s.t3_timeout + 500 → s.t3_timeout + 500 < U32 →
      (DUST_OFF now s).pos rb = s.t3_rb.sample now ∧
      (DUST_OFF now s).pos lb = s.t3_lb.sample now ∧
      (∀ j : Fin 9, j ≠ rb → j ≠ lb → (DUST_OFF now s).pos j = gaucho_pos j)) := by
  refine ⟨DUST_OFF_after_window now s, ?_⟩
  intro h1 h2
  have hc : now < (s.t3_timeout + 500) % U32 := by
    rw [Nat.mod_eq_of_lt h2]; exact h1
  unfold DUST_OFF
  simp only []
  rw [if_pos hc]
  simp only [Fix_Rest_eq, write, baseline, rampInt.update]
  refine ⟨by simp [In_Use_t3, rb, lb], by simp [In_Use_t3, rb, lb], ?_⟩
  intro j hj1 hj2
  revert hj1 hj2
  fin_cases j <;> simp [In_Use_t3, rb, lb]

/-- Claim C20 at `t = 500` with timestamp 0 from a crouched state, and 300 ms
after a down edge at `t = 400` (right bicep at 166, on the ramp from 145 to 180). -/
theorem C20_dust_off_window_witness :
    (∀ j : Fin 9,
      (DUST_OFF 500 { State.level 3000 with crouched := true }).pos j = gaucho_pos j) ∧
    (DUST_OFF 500 { State.level 3000 with crouched := true }).crouched = false ∧
    (DUST_OFF 700 (adjust_timeouts 400 Input.up_down.button_down (State.level 3000))).pos rb
      = 166 :=
  ⟨fun j => by
      rw [(C20_dust_off_window 500 { State.level 3000 with crouched := true }).1 (by decide)],
   by rw [(C20_dust_off_window 500 { State.level 3000 with crouched := true }).1 (by decide)],
   ((C20_dust_off_window 700
      (adjust_timeouts 400 Input.up_down.button_down (State.level 3000))).2
        (by decide) (by decide)).1.trans (by decide)⟩

/-! ## C18: stick selection -/

/-- Claim C18 fails as stated: with the right stick chosen and its vertical axis
the larger one, the same value `ry = -50` gives `Sidestep_Right` for `rx = 5` and
`Sidestep_Left` for `rx = -5`; the sign of the larger axis does not pick the
primitive. -/
theorem C18_counterexample :
    ¬ mean_voltage (State.level 3000) < 2550 ∧
    abs Input.right_stick_a.ry > abs Input.right_stick_a.rx ∧
    abs Input.right_stick_b.ry > abs Input.right_stick_b.rx ∧
    Input.right_stick_a.ry = Input.right_stick_b.ry ∧
    notify 0 Input.right_stick_a (State.level 3000) =
      Sidestep_Right 250 0 { State.level 3000 with led_state := ATK } ∧
    notify 0 Input.right_stick_b (State.level 3000) =
      Sidestep_Left 250 0 { State.level 3000 with led_state := ATK } ∧
    (notify 0 Input.right_stick_a (State.level 3000)).pos rf ≠
      (notify 0 Input.right_stick_b (State.level 3000)).pos rf := by
  have h1 : ¬ mean_voltage (State.level 3000) < 2550 := level_not_low 3000 (by norm_num)
  refine ⟨h1, by decide, by decide, rfl, ?_, ?_, ?_⟩
  · rw [notify_ok _ _ _ h1]; rfl
  · rw [notify_ok _ _ _ h1]; rfl
  · rw [notify_ok _ _ _ h1, notify_ok _ _ _ h1]; decide

/-- Claim C18, amended. At normal voltage, with none of the buttons tested by
`notify` held and some stick axis beyond 10, the tick is exactly one locomotion
primitive: the left stick is chosen iff `|ry| + |rx| < |ly| + |lx|`; on it,
`|ly| > |lx|` gives `Forward(350)` for `ly < 0` and `Backward(350)` otherwise, and
else `Right(350)` for `lx < 0` and `Left(350)` otherwise; on the right stick the
sign of the horizontal axis alone decides, `Sidestep_Left(250)` for `rx < 0` and
`Sidestep_Right(250)` otherwise. -/
theorem C18_stick_selection (now : Nat) (inp : Input) (s : State)
    (hv : ¬ mean_voltage s < 2550) (hb : any_button inp.button = false)
    (hd : abs inp.lx > 10 ∨ abs inp.ly > 10 ∨ abs inp.rx > 10 ∨ abs inp.ry > 10) :
    notify now inp s =
      (if abs inp.ry + abs inp.rx < abs inp.ly + abs inp.lx then
        (if abs inp.ly > abs inp.lx then
          (if inp.ly < 0 then
            Forward 350 now
              { adjust_timeouts now inp.button_down (toggle_crouch inp s) with led_state := ATK }
          else
            Backward 350 now
              { adjust_timeouts now inp.button_down (toggle_crouch inp s) with led_state := ATK })
        else
          (if inp.lx < 0 then
            Right 350 now
              { adjust_timeouts now inp.button_down (toggle_crouch inp s) with led_state := ATK }
          else
            Left 350 now
              { adjust_timeouts now inp.button_down (toggle_crouch inp s) with led_state := ATK }))
      else
        (if inp.rx < 0 then
          Sidestep_Left 250 now
            { adjust_timeouts now inp.button_down (toggle_crouch inp s) with led_state := ATK }
        else
          Sidestep_Right 250 now
            { adjust_timeouts now inp.button_down (toggle_crouch inp s) with led_state := ATK })) := by
  rw [notify_ok now inp s hv, dispatch_sticks now inp _ hb hd]
  rfl

/-- Claim C18, amended, at the left stick pushed forward and at the right stick
pulled down and slightly right. -/
theorem C18_stick_selection_witness :
    notify 100 Input.forward_stick (State.level 3000) =
        Forward 350 100 { State.level 3000 with led_state := ATK } ∧
      notify 0 Input.right_stick_a (State.level 3000) =
        Sidestep_Right 250 0 { State.level 3000 with led_state := ATK } :=
  ⟨(C18_stick_selection 100 Input.forward_stick (State.level 3000)
      (level_not_low 3000 (by norm_num)) (by decide) (by decide)).trans rfl,
   (C18_stick_selection 0 Input.right_stick_a (State.level 3000)
      (level_not_low 3000 (by norm_num)) (by decide) (by decide)).trans rfl⟩

/-! ## C12, C13, C14: the LED renderers -/

set_option maxRecDepth 100000 in
/-- Claim C12, evaluated where it fails: after 511 calls of `Atk_Led` (at the
times 2, 3, ..., 512) the red counter is 511 and the value written to the red
channel is `510 - 511` in unsigned arithmetic, 4294967295; and the first call of
`Turquoise_Led` writes 4294967294 to the blue channel. Neither lies in 0..255. -/
theorem C12_glow_out_of_range :
    (render_many ATK (List.range' 2 511) Leds.init).atk_r_val = 511 ∧
    (render_many ATK (List.range' 2 511) Leds.init).out_R = 4294967295 ∧
    ¬ (render_many ATK (List.range' 2 511) Leds.init).out_R ≤ 255 ∧
    (render_led TURQUOISE 2 Leds.init).out_B = 4294967294 ∧
    ¬ (render_led TURQUOISE 2 Leds.init).out_B ≤ 255 := by
  decide

/-- Claim C13, evaluated where it fails: `Turquoise_Led` writes red 0 and the
triangular wave of the green counter, which advances; the blue counter is
reduced modulo `2 * 0 + 1` and stays 0, and the blue channel is written
4294967294 on every call, not the triangular wave of its counter. -/
theorem C13_turquoise_blue :
    (render_led TURQUOISE 2 Leds.init).out_R = 0 ∧
    (render_led TURQUOISE 2 Leds.init).turquoise_led_g_val = 1 ∧
    (render_led TURQUOISE 2 Leds.init).out_G = tri256 1 ∧
    (render_led TURQUOISE 2 Leds.init).turquoise_led_b_val = 0 ∧
    (render_led TURQUOISE 2 Leds.init).out_B = 4294967294 ∧
    (render_many TURQUOISE [2, 4, 6] Leds.init).turquoise_led_g_val = 3 ∧
    (render_many TURQUOISE [2, 4, 6] Leds.init).turquoise_led_b_val = 0 ∧
    (render_many TURQUOISE [2, 4, 6] Leds.init).out_B = 4294967294 ∧
    (render_many TURQUOISE [2, 4, 6] Leds.init).out_B ≠
      tri256 (render_many TURQUOISE [2, 4, 6] Leds.init).turquoise_led_b_val := by
  decide

/-- Claim C14 fails as stated: invocations at the same time after different call
histories write different values. The `ATK` renderer at `t = 9` writes (1, 0, 1)
when it has not run before and (2, 0, 2) when it has run once, 4 ms earlier at
`t = 5`; the `RED` renderer at `t = 100` writes (0, 0, 0) when it has not run
before and (255, 0, 0) when it has run at `t = 90`, or just before at `t = 100`. -/
theorem C14_counterexample :
    (render_led ATK 9 Leds.init).rgb = (1, 0, 1) ∧
    (render_led ATK 9 (render_led ATK 5 Leds.init)).rgb = (2, 0, 2) ∧
    (render_led RED 100 Leds.init).rgb = (0, 0, 0) ∧
    (render_led RED 100 (render_led RED 90 Leds.init)).rgb = (255, 0, 0) ∧
    (render_led RED 100 (render_led RED 100 Leds.init)).rgb = (255, 0, 0) := by
  decide

/-- Claim C14, amended. For every animation state and time `t`, two renderer
invocations at `t` that start from the same values of that renderer's own
counters and timeout write identical (R, G, B) values and leave identical
counters, whatever the other renderers' variables; `IDLE` and `CLOSED` have no
such variables and always write (255, 0, 255) and (0, 0, 0). -/
theorem C14_renderers_read_own_state (st : Led_State) (t : Nat) (l l2 : Leds)
    (h : own_vars st l = own_vars st l2) :
    (render_led st t l).rgb = (render_led st t l2).rgb ∧
    own_vars st (render_led st t l) = own_vars st (render_led st t l2) ∧
    (st = IDLE → (render_led st t l).rgb = (255, 0, 255)) ∧
    (st = CLOSED → (render_led st t l).rgb = (0, 0, 0)) := by
  cases st <;>
    simp only [own_vars, List.cons.injEq, and_true] at h <;>
    simp [render_led, own_vars, Leds.rgb, Idle_Led, Close_Led, Atk_Led, Blue_Led, Red_Led,
      All_Led, Turquoise_Led, h]
  · split_ifs <;> simp

/-- Claim C14, amended: the `ATK` renderer at `t = 9` writes the same values
after the `RED` and `BLUE` renderers have run as it does from the initial state. -/
theorem C14_renderers_read_own_state_witness :
    (render_led ATK 9 (render_led BLUE 7 (render_led RED 3 Leds.init))).rgb =
        (render_led ATK 9 Leds.init).rgb ∧
      (render_led IDLE 9 (render_led BLUE 7 Leds.init)).rgb = (255, 0, 255) :=
  ⟨(C14_renderers_read_own_state ATK 9 (render_led BLUE 7 (render_led RED 3 Leds.init))
      Leds.init (by decide)).1,
   (C14_renderers_read_own_state IDLE 9 (render_led BLUE 7 Leds.init)
      Leds.init (by decide)).2.2.1 rfl⟩

/-! ## C21, C22: the circular voltage buffer and the start-up transient -/

theorem Display_Voltage_idx (now sample : Nat) (s : State) :
    (Display_Voltage now sample s).reading_idx = (s.reading_idx + 1) % K := by
  unfold Display_Voltage
  simp only []
  split_ifs <;> rfl

theorem run_display_idx (tm x : Nat → Nat) (n : Nat) :
    (run_display tm x n State.init).reading_idx = n % 100 := by
  induction n with
  | zero => rfl
  | succ n ih =>
    rw [run_display, Display_Voltage_idx, ih, K]
    omega

theorem run_display_readings_succ (tm x : Nat → Nat) (n : Nat) :
    (run_display tm x (n + 1) State.init).readings =
      Function.update (run_display tm x n State.init).readings (n % 100) (x n) := by
  rw [run_display, Display_Voltage_readings, run_display_idx]

theorem run_display_recent (tm x : Nat → Nat) (n k : Nat) (hk : k < n) (hn : n ≤ k + 100) :
    (run_display tm x n State.init).readings (k % 100) = x k := by
  induction n with
  | zero => omega
  | succ n ih =>
    rw [run_display_readings_succ]
    by_cases hkn : k = n
    · subst hkn
      simp
    · have hne : k % 100 ≠ n % 100 := by omega
      rw [Function.update_noteq hne]
      exact ih (by omega) (by omega)

theorem run_display_untouched (tm x : Nat → Nat) (n i : Nat) (hi : n ≤ i) :
    (run_display tm x n State.init).readings i = 0 := by
  induction n with
  | zero => rfl
  | succ n ih =>
    rw [run_display_readings_succ]
    have hne : i ≠ n % 100 := by
      have := Nat.mod_le n 100
      omega
    rw [Function.update_noteq hne]
    exact ih (by omega)

theorem list_range_sum (f : Nat → Nat) (n : Nat) :
    ((List.range n).map f).sum = ∑ i in Finset.range n, f i := by
  induction n with
  | zero => rfl
  | succ n ih => rw [List.range_succ, List.map_append, List.sum_append, ih,
      Finset.sum_range_succ]; simp

theorem list_range'_sum (f : Nat → Nat) (a n : Nat) :
    ((List.range' a n).map f).sum = ∑ k in Finset.Ico a (a + n), f k := by
  induction n with
  | zero => simp
  | succ n ih =>
    rw [List.range'_concat, List.map_append, List.sum_append, ih, ← Nat.add_assoc,
      Finset.sum_Ico_succ_top (by omega)]
    simp

theorem readings_sum_eq_finset (s : State) :
    readings_sum s = ∑ i in Finset.range 100, s.readings i := by
  unfold readings_sum K
  exact list_range_sum _ _

theorem run_display_sum_early (tm x : Nat → Nat) (n : Nat) (hn : n ≤ 100) :
    readings_sum (run_display tm x n State.init) = ((List.range n).map x).sum := by
  rw [readings_sum_eq_finset, list_range_sum]
  symm
  rw [← Finset.sum_subset (Finset.range_mono hn)]
  · apply Finset.sum_congr rfl
    intro k hk
    have hk2 : k < n := Finset.mem_range.mp hk
    have := run_display_recent tm x n k hk2 (by omega)
    rw [Nat.mod_eq_of_lt (by omega)] at this
    exact this.symm
  · intro i _ hi
    exact run_display_untouched tm x n i (by simpa using hi)

theorem run_display_sum_late (tm x : Nat → Nat) (n : Nat) (hn : 100 ≤ n) :
    readings_sum (run_display tm x n State.init) =
      ((List.range' (n - 100) 100).map x).sum := by
  rw [readings_sum_eq_finset, list_range'_sum]
  have himg : (Finset.Ico (n - 100) (n - 100 + 100)).image (· % 100) = Finset.range 100 :=
    Nat.image_Ico_mod (n - 100) 100
  rw [← himg, Finset.sum_image]
  · apply Finset.sum_congr rfl
    intro k hk
    rw [Finset.mem_Ico] at hk
    exact run_display_recent tm x n k (by omega) (by omega)
  · intro a ha b hb hab
    rw [Finset.mem_Ico] at ha hb
    omega


theorem run_display_slot (tm x : Nat → Nat) (n i : Nat) (hn : 100 ≤ n) (hi : i < 100) :
    ∃ k, n - 100 ≤ k ∧ k < n ∧ k % 100 = i ∧
      (run_display tm x n State.init).readings i = x k := by
  have himg : (Finset.Ico (n - 100) (n - 100 + 100)).image (· % 100) = Finset.range 100 :=
    Nat.image_Ico_mod (n - 100) 100
  have hmem : i ∈ (Finset.Ico (n - 100) (n - 100 + 100)).image (· % 100) := by
    rw [himg]; exact Finset.mem_range.mpr hi
  obtain ⟨k, hk, hki⟩ := Finset.mem_image.mp hmem
  rw [Finset.mem_Ico] at hk
  have hki2 : k % 100 = i := hki
  refine ⟨k, hk.1, by omega, hki2, ?_⟩
  have := run_display_recent tm x n k (by omega) (by omega)
  rw [hki2] at this
  exact this

/-- Claim C21. Starting from the zero-initialised buffer with write index 0, after
`n` calls of `Display_Voltage` the write index is `n mod 100`, hence below `K`;
and once `n >= 100`, the slot `k mod 100` holds the sample of call `k` for each
of the last 100 calls, every slot holds one of these samples, and the mean is
the arithmetic mean of the last 100 samples. -/
theorem C21_circular_buffer (tm x : Nat → Nat) (n : Nat) :
    (run_display tm x n State.init).reading_idx = n % 100 ∧
    (run_display tm x n State.init).reading_idx < K ∧
    (100 ≤ n →
      (∀ k : Nat, n - 100 ≤ k → k < n →
        (run_display tm x n State.init).readings (k % 100) = x k) ∧
      (∀ i : Nat, i < 100 → ∃ k, n - 100 ≤ k ∧ k < n ∧ k % 100 = i ∧
        (run_display tm x n State.init).readings i = x k) ∧
      mean_voltage (run_display tm x n State.init) =
        ((((List.range' (n - 100) 100).map x).sum : Nat) : ℚ) / 100) := by
  refine ⟨run_display_idx tm x n, ?_, ?_⟩
  · rw [run_display_idx, K]
    exact Nat.mod_lt _ (by norm_num)
  · intro hn
    refine ⟨fun k h1 h2 => run_display_recent tm x n k h2 (by omega),
      fun i hi => run_display_slot tm x n i hn hi, ?_⟩
    rw [mean_voltage_eq, run_display_sum_late tm x n hn]

/-- Claim C21 after 250 calls with the samples 0, 1, 2, ...: write index 50, slot 49
holds sample 249, slot 50 holds sample 150, and the mean is 19950 / 100. -/
theorem C21_circular_buffer_witness :
    (run_display (fun k => 10 * k) (fun k => k) 250 State.init).reading_idx = 50 ∧
    (run_display (fun k => 10 * k) (fun k => k) 250 State.init).readings 49 = 249 ∧
    (run_display (fun k => 10 * k) (fun k => k) 250 State.init).readings 50 = 150 ∧
    mean_voltage (run_display (fun k => 10 * k) (fun k => k) 250 State.init) =
      ((19950 : Nat) : ℚ) / 100 :=
  ⟨(C21_circular_buffer (fun k => 10 * k) (fun k => k) 250).1,
   ((C21_circular_buffer (fun k => 10 * k) (fun k => k) 250).2.2 (by decide)).1 249
      (by decide) (by decide),
   ((C21_circular_buffer (fun k => 10 * k) (fun k => k) 250).2.2 (by decide)).1 150
      (by decide) (by decide),
   ((C21_circular_buffer (fun k => 10 * k) (fun k => k) 250).2.2 (by decide)).2.2.trans
      (by rw [show ((List.range' (250 - 100) 100).map (fun k => k)).sum = 19950 from by
        decide])⟩

theorem list_sum_le (x : Nat → Nat) (n b : Nat) (hx : ∀ k, k < n → x k ≤ b) :
    ((List.range n).map x).sum ≤ n * b := by
  induction n with
  | zero => simp
  | succ n ih =>
    rw [List.range_succ, List.map_append, List.sum_append]
    have h1 := ih (fun k hk => hx k (by omega))
    have h2 := hx n (by omega)
    simp only [List.map_cons, List.map_nil, List.sum_cons, List.sum_nil, Nat.add_zero]
    rw [Nat.succ_mul]
    omega

theorem mean_low_of_sum (s : State) (h : readings_sum s < 255000) : mean_voltage s < 2550 := by
  have := (mean_lt_iff s 2550).mpr (by simpa using h)
  exact_mod_cast this

theorem mean_not_low_of_sum (s : State) (h : 255000 ≤ readings_sum s) :
    ¬ mean_voltage s < 2550 := by
  intro hlt
  have hlt2 : mean_voltage s < ((2550 : Nat) : ℚ) := by exact_mod_cast hlt
  have := (mean_lt_iff s 2550).mp hlt2
  omega

/-- Claim C22. Starting from the zero-initialised buffer, after `n <= 62` calls of
`Display_Voltage` with samples in 0..4095 the mean is below 2550; every `notify`
on a state holding that buffer, whatever the snapshot and the rest of the state,
ends with LED state `CLOSED` and the idle pose and leaves the buffer alone; and
63 samples of 4095 bring the mean to 2550 or more. -/
theorem C22_startup_transient (tm x : Nat → Nat) (n : Nat)
    (hx : ∀ k, k < n → x k ≤ 4095) (hn : n ≤ 62) :
    mean_voltage (run_display tm x n State.init) < 2550 ∧
    (∀ s : State, s.readings = (run_display tm x n State.init).readings →
      ∀ (now : Nat) (inp : Input),
        (notify now inp s).led_state = CLOSED ∧
        (∀ j : Fin 9, (notify now inp s).pos j =
          baseline (if inp.button_down.cross then !s.crouched else s.crouched) j) ∧
        (notify now inp s).readings = s.readings) ∧
    ¬ mean_voltage (run_display tm (fun _ => 4095) 63 State.init) < 2550 := by
  have hlow : mean_voltage (run_display tm x n State.init) < 2550 := by
    apply mean_low_of_sum
    rw [run_display_sum_early tm x n (by omega)]
    have := list_sum_le x n 4095 hx
    have h2 : n * 4095 ≤ 62 * 4095 := Nat.mul_le_mul_right _ hn
    omega
  refine ⟨hlow, ?_, ?_⟩
  · intro s hs now inp
    have hs2 : mean_voltage s < 2550 := by
      rw [mean_voltage_congr _ _ hs]; exact hlow
    refine ⟨?_, ?_, notify_readings now inp s⟩
    · rw [notify_low now inp s hs2, Idle_led]
    · intro j
      rw [notify_low now inp s hs2, Idle_pos]
      simp [toggle_crouched]
  · apply mean_not_low_of_sum
    rw [run_display_sum_early tm _ 63 (by norm_num)]
    decide

/-- Claim C22 with 62 samples of 4095 (latch set, up button ignored) and with 63
(latch clear). -/
theorem C22_startup_transient_witness :
    mean_voltage (run_display (fun k => 10 * k) (fun _ => 4095) 62 State.init) < 2550 ∧
    (notify 700 Input.up_held
      (run_display (fun k => 10 * k) (fun _ => 4095) 62 State.init)).led_state = CLOSED ∧
    ¬ mean_voltage (run_display (fun k => 10 * k) (fun _ => 4095) 63 State.init) < 2550 :=
  ⟨(C22_startup_transient (fun k => 10 * k) (fun _ => 4095) 62
      (fun _ _ => Nat.le_refl 4095) (by decide)).1,
   ((C22_startup_transient (fun k => 10 * k) (fun _ => 4095) 62
      (fun _ _ => Nat.le_refl 4095) (by decide)).2.1 _ rfl 700 Input.up_held).1,
   (C22_startup_transient (fun k => 10 * k) (fun _ => 4095) 62
      (fun _ _ => Nat.le_refl 4095) (by decide)).2.2⟩

/-! ## C23: every primitive writes the whole body -/

/-- Claim C23. Each of the nineteen motion primitives, at every time and in every
state (so in both phases of `BEHOLD` and in each quartile of the recoveries),
gives the same result whatever the joint targets were before it: it assigns all
nine joints. -/
theorem C23_whole_body (spd now : Nat) (s : State) (p0 : Fin 9 → Int) :
    Idle { s with pos := p0 } = Idle s ∧
    Forward spd now { s with pos := p0 } = Forward spd now s ∧
    Backward spd now { s with pos := p0 } = Backward spd now s ∧
    Left spd now { s with pos := p0 } = Left spd now s ∧
    Right spd now { s with pos := p0 } = Right spd now s ∧
    Sidestep_Left spd now { s with pos := p0 } = Sidestep_Left spd now s ∧
    Sidestep_Right spd now { s with pos := p0 } = Sidestep_Right spd now s ∧
    Right_Hook { s with pos := p0 } = Right_Hook s ∧
    Left_Hook { s with pos := p0 } = Left_Hook s ∧
    Right_Sweep { s with pos := p0 } = Right_Sweep s ∧
    Left_Sweep { s with pos := p0 } = Left_Sweep s ∧
    Right_Shot { s with pos := p0 } = Right_Shot s ∧
    Left_Shot { s with pos := p0 } = Left_Shot s ∧
    WARMING_UP now { s with pos := p0 } = WARMING_UP now s ∧
    BEHOLD now { s with pos := p0 } = BEHOLD now s ∧
    DUST_OFF now { s with pos := p0 } = DUST_OFF now s ∧
    GIVE_IT_YOUR_ALL { s with pos := p0 } = GIVE_IT_YOUR_ALL s ∧
    Front_Recovery spd now { s with pos := p0 } = Front_Recovery spd now s ∧
    Back_Recovery spd now { s with pos := p0 } = Back_Recovery spd now s :=
  ⟨Idle_whole s p0,
    Forward_whole spd now s p0,
    Backward_whole spd now s p0,
    Left_whole spd now s p0,
    Right_whole spd now s p0,
    Sidestep_Left_whole spd now s p0,
    Sidestep_Right_whole spd now s p0,
    Right_Hook_whole s p0,
    Left_Hook_whole s p0,
    Right_Sweep_whole s p0,
    Left_Sweep_whole s p0,
    Right_Shot_whole s p0,
    Left_Shot_whole s p0,
    WARMING_UP_whole now s p0,
    BEHOLD_whole now s p0,
    DUST_OFF_whole now s p0,
    GIVE_IT_YOUR_ALL_whole s p0,
    Front_Recovery_whole spd now s p0,
    Back_Recovery_whole spd now s p0⟩

/-- Claim C23 for the last quartile of `Back_Recovery(2100)` and the first phase of
`BEHOLD`, from the targets all at 90 against all at 0. -/
theorem C23_whole_body_witness :
    Back_Recovery 2100 2000 { State.level 3000 with pos := fun _ => 90 } =
        Back_Recovery 2100 2000 (State.level 3000) ∧
      BEHOLD 100 { State.level 3000 with pos := fun _ => 90 } = BEHOLD 100 (State.level 3000) :=
  ⟨(C23_whole_body 2100 2000 (State.level 3000) (fun _ => 90)).2.2.2.2.2.2.2.2.2.2.2.2.2.2.2.2.2.2,
   (C23_whole_body 2100 100 (State.level 3000) (fun _ => 90)).2.2.2.2.2.2.2.2.2.2.2.2.2.2.1⟩

/-! ## Ranges of the commanded angles -/

theorem Idle_range (s : State) (j : Fin 9) :
    in_servo_range ((Idle s).pos j) := by
  unfold Idle
  simp only [Fix_Rest_eq, fix_loop_eq, write, baseline] <;> fin_cases j <;>
    simp [rs, rb, ls, lb, w, rh, rf, lh, lf, In_Use_Idle, In_Use_Right_Atk, In_Use_Left_Atk,
      In_Use_Right_Shot, In_Use_Left_Shot, In_Use_t1, In_Use_t2_p1, In_Use_t2_p2, In_Use_t3,
      In_Use_t4] <;>
    (try split_ifs) <;> decide

theorem Forward_range (spd now : Nat) (s : State) (j : Fin 9) :
    in_servo_range ((Forward spd now s).pos j) := by
  unfold Forward
  simp only []
  split_ifs <;>
  simp only [Fix_Rest_eq, fix_loop_eq, write, baseline] <;> fin_cases j <;>
    simp [rs, rb, ls, lb, w, rh, rf, lh, lf, In_Use_Idle, In_Use_Right_Atk, In_Use_Left_Atk,
      In_Use_Right_Shot, In_Use_Left_Shot, In_Use_t1, In_Use_t2_p1, In_Use_t2_p2, In_Use_t3,
      In_Use_t4] <;>
    (try split_ifs) <;> decide

theorem Backward_range (spd now : Nat) (s : State) (j : Fin 9) :
    in_servo_range ((Backward spd now s).pos j) := by
  unfold Backward
  simp only []
  split_ifs <;>
  simp only [Fix_Rest_eq, fix_loop_eq, write, baseline] <;> fin_cases j <;>
    simp [rs, rb, ls, lb, w, rh, rf, lh, lf, In_Use_Idle, In_Use_Right_Atk, In_Use_Left_Atk,
      In_Use_Right_Shot, In_Use_Left_Shot, In_Use_t1, In_Use_t2_p1, In_Use_t2_p2, In_Use_t3,
      In_Use_t4] <;>
    (try split_ifs) <;> decide

theorem Left_range (spd now : Nat) (s : State) (j : Fin 9) :
    in_servo_range ((Left spd now s).pos j) := by
  unfold Left
  simp only []
  split_ifs <;>
  simp only [Fix_Rest_eq, fix_loop_eq, write, baseline] <;> fin_cases j <;>
    simp [rs, rb, ls, lb, w, rh, rf, lh, lf, In_Use_Idle, In_Use_Right_Atk, In_Use_Left_Atk,
      In_Use_Right_Shot, In_Use_Left_Shot, In_Use_t1, In_Use_t2_p1, In_Use_t2_p2, In_Use_t3,
      In_Use_t4] <;>
    (try split_ifs) <;> decide

theorem Right_range (spd now : Nat) (s : State) (j : Fin 9) :
    in_servo_range ((Right spd now s).pos j) := by
  unfold Right
  simp only []
  split_ifs <;>
  simp only [Fix_Rest_eq, fix_loop_eq, write, baseline] <;> fin_cases j <;>
    simp [rs, rb, ls, lb, w, rh, rf, lh, lf, In_Use_Idle, In_Use_Right_Atk, In_Use_Left_Atk,
      In_Use_Right_Shot, In_Use_Left_Shot, In_Use_t1, In_Use_t2_p1, In_Use_t2_p2, In_Use_t3,
      In_Use_t4] <;>
    (try split_ifs) <;> decide

theorem Sidestep_Left_range (spd now : Nat) (s : State) (j : Fin 9) :
    in_servo_range ((Sidestep_Left spd now s).pos j) := by
  unfold Sidestep_Left
  simp only []
  split_ifs <;>
  simp only [Fix_Rest_eq, fix_loop_eq, write, baseline] <;> fin_cases j <;>
    simp [rs, rb, ls, lb, w, rh, rf, lh, lf, In_Use_Idle, In_Use_Right_Atk, In_Use_Left_Atk,
      In_Use_Right_Shot, In_Use_Left_Shot, In_Use_t1, In_Use_t2_p1, In_Use_t2_p2, In_Use_t3,
      In_Use_t4] <;>
    (try split_ifs) <;> decide

theorem Sidestep_Right_range (spd now : Nat) (s : State) (j : Fin 9) :
    in_servo_range ((Sidestep_Right spd now s).pos j) := by
  unfold Sidestep_Right
  simp only []
  split_ifs <;>
  simp only [Fix_Rest_eq, fix_loop_eq, write, baseline] <;> fin_cases j <;>
    simp [rs, rb, ls, lb, w, rh, rf, lh, lf, In_Use_Idle, In_Use_Right_Atk, In_Use_Left_Atk,
      In_Use_Right_Shot, In_Use_Left_Shot, In_Use_t1, In_Use_t2_p1, In_Use_t2_p2, In_Use_t3,
      In_Use_t4] <;>
    (try split_ifs) <;> decide

theorem Left_Hook_range (s : State) (j : Fin 9) :
    in_servo_range ((Left_Hook s).pos j) := by
  unfold Left_Hook
  simp only [Fix_Rest_eq, fix_loop_eq, write, baseline] <;> fin_cases j <;>
    simp [rs, rb, ls, lb, w, rh, rf, lh, lf, In_Use_Idle, In_Use_Right_Atk, In_Use_Left_Atk,
      In_Use_Right_Shot, In_Use_Left_Shot, In_Use_t1, In_Use_t2_p1, In_Use_t2_p2, In_Use_t3,
      In_Use_t4] <;>
    (try split_ifs) <;> decide

theorem Right_Sweep_range (s : State) (j : Fin 9) :
    in_servo_range ((Right_Sweep s).pos j) := by
  unfold Right_Sweep
  simp only [Fix_Rest_eq, fix_loop_eq, write, baseline] <;> fin_cases j <;>
    simp [rs, rb, ls, lb, w, rh, rf, lh, lf, In_Use_Idle, In_Use_Right_Atk, In_Use_Left_Atk,
      In_Use_Right_Shot, In_Use_Left_Shot, In_Use_t1, In_Use_t2_p1, In_Use_t2_p2, In_Use_t3,
      In_Use_t4] <;>
    (try split_ifs) <;> decide

theorem Left_Sweep_range (s : State) (j : Fin 9) :
    in_servo_range ((Left_Sweep s).pos j) := by
  unfold Left_Sweep
  simp only [Fix_Rest_eq, fix_loop_eq, write, baseline] <;> fin_cases j <;>
    simp [rs, rb, ls, lb, w, rh, rf, lh, lf, In_Use_Idle, In_Use_Right_Atk, In_Use_Left_Atk,
      In_Use_Right_Shot, In_Use_Left_Shot, In_Use_t1, In_Use_t2_p1, In_Use_t2_p2, In_Use_t3,
      In_Use_t4] <;>
    (try split_ifs) <;> decide

theorem Right_Shot_range (s : State) (j : Fin 9) :
    in_servo_range ((Right_Shot s).pos j) := by
  unfold Right_Shot
  simp only [Fix_Rest_eq, fix_loop_eq, write, baseline] <;> fin_cases j <;>
    simp [rs, rb, ls, lb, w, rh, rf, lh, lf, In_Use_Idle, In_Use_Right_Atk, In_Use_Left_Atk,
      In_Use_Right_Shot, In_Use_Left_Shot, In_Use_t1, In_Use_t2_p1, In_Use_t2_p2, In_Use_t3,
      In_Use_t4] <;>
    (try split_ifs) <;> decide

theorem Left_Shot_range (s : State) (j : Fin 9) :
    in_servo_range ((Left_Shot s).pos j) := by
  unfold Left_Shot
  simp only [Fix_Rest_eq, fix_loop_eq, write, baseline] <;> fin_cases j <;>
    simp [rs, rb, ls, lb, w, rh, rf, lh, lf, In_Use_Idle, In_Use_Right_Atk, In_Use_Left_Atk,
      In_Use_Right_Shot, In_Use_Left_Shot, In_Use_t1, In_Use_t2_p1, In_Use_t2_p2, In_Use_t3,
      In_Use_t4] <;>
    (try split_ifs) <;> decide

theorem GIVE_IT_YOUR_ALL_range (s : State) (j : Fin 9) :
    in_servo_range ((GIVE_IT_YOUR_ALL s).pos j) := by
  unfold GIVE_IT_YOUR_ALL
  simp only [Fix_Rest_eq, fix_loop_eq, write, baseline] <;> fin_cases j <;>
    simp [rs, rb, ls, lb, w, rh, rf, lh, lf, In_Use_Idle, In_Use_Right_Atk, In_Use_Left_Atk,
      In_Use_Right_Shot, In_Use_Left_Shot, In_Use_t1, In_Use_t2_p1, In_Use_t2_p2, In_Use_t3,
      In_Use_t4] <;>
    (try split_ifs) <;> decide

theorem Right_Hook_range (s : State) :
    (∀ j : Fin 9, j ≠ w → in_servo_range ((Right_Hook s).pos j)) ∧
      (Right_Hook s).pos w = 185 := by
  unfold Right_Hook
  simp only [Fix_Rest_eq, fix_loop_eq, write, baseline]
  refine ⟨?_, ?_⟩
  · intro j hj
    revert hj
    fin_cases j <;> simp [rs, rb, ls, lb, w, rh, rf, lh, lf, In_Use_Right_Atk] <;>
      (try split_ifs) <;> decide
  · simp [rs, rb, ls, lb, w, rh, rf, lh, lf, In_Use_Right_Atk]
    decide

theorem WARMING_UP_range (now : Nat) (s : State) (j : Fin 9) (hj : In_Use_t1 j = false) :
    in_servo_range ((WARMING_UP now s).pos j) := by
  unfold WARMING_UP
  simp only [Fix_Rest_eq, fix_loop_eq, write, baseline]
  revert hj
  fin_cases j <;> simp [rs, rb, ls, lb, w, rh, rf, lh, lf, In_Use_t1] <;>
    (try split_ifs) <;> decide

theorem BEHOLD_range (now : Nat) (s : State) (j : Fin 9)
    (hj : now < (s.t2_timeout + 350) % U32 ∨ j ≠ w) :
    in_servo_range ((BEHOLD now s).pos j) := by
  unfold BEHOLD
  simp only []
  split_ifs with h
  · simp only [Fix_Rest_eq, fix_loop_eq, write, baseline]
    fin_cases j <;> simp [rs, rb, ls, lb, w, rh, rf, lh, lf, In_Use_t2_p1] <;>
      (try split_ifs) <;> decide
  · have hw : j ≠ w := by
      rcases hj with hj | hj
      · exact absurd hj h
      · exact hj
    simp only [Fix_Rest_eq, fix_loop_eq, write, baseline]
    revert hw
    fin_cases j <;> simp [rs, rb, ls, lb, w, rh, rf, lh, lf, In_Use_t2_p2] <;>
      (try split_ifs) <;> decide

theorem DUST_OFF_range (now : Nat) (s : State) (j : Fin 9)
    (hj : ¬ now < (s.t3_timeout + 500) % U32 ∨ In_Use_t3 j = false) :
    in_servo_range ((DUST_OFF now s).pos j) := by
  unfold DUST_OFF
  simp only []
  split_ifs with h
  · have hu : In_Use_t3 j = false := by
      rcases hj with hj | hj
      · exact absurd h hj
      · exact hj
    simp only [Fix_Rest_eq, fix_loop_eq, write, baseline]
    revert hu
    fin_cases j <;> simp [rs, rb, ls, lb, w, rh, rf, lh, lf, In_Use_t3] <;>
      (try split_ifs) <;> decide
  · simp only [Fix_Rest_eq, fix_loop_eq, write, baseline]
    fin_cases j <;> simp [rs, rb, ls, lb, w, rh, rf, lh, lf, In_Use_t3] <;>
      (try split_ifs) <;> decide

theorem Front_Recovery_range (spd now : Nat) (s : State) :
    (∀ j : Fin 9, j ≠ rf ∨ ¬ now < (s.front_recovery_start + 1 * spd / 4) % U32 →
      in_servo_range ((Front_Recovery spd now s).pos j)) ∧
    (now < (s.front_recovery_start + 1 * spd / 4) % U32 →
      (Front_Recovery spd now s).pos rf = -20) := by
  unfold Front_Recovery
  simp only []
  refine ⟨?_, ?_⟩
  · intro j hj
    split_ifs with h1 h2 h3
    · have hw : j ≠ rf := by
        rcases hj with hj | hj
        · exact hj
        · exact absurd h1 hj
      simp only [fix_loop_eq, write]
      revert hw
      fin_cases j <;> simp [rs, rb, ls, lb, w, rh, rf, lh, lf] <;> decide
    · simp only [fix_loop_eq, write]
      fin_cases j <;> simp [rs, rb, ls, lb, w, rh, rf, lh, lf] <;> decide
    · simp only [fix_loop_eq, write]
      fin_cases j <;> simp [rs, rb, ls, lb, w, rh, rf, lh, lf] <;> decide
    · simp only [fix_loop_eq, write]
      fin_cases j <;> simp [rs, rb, ls, lb, w, rh, rf, lh, lf] <;> decide
  · intro h1
    rw [if_pos h1]
    simp only [fix_loop_eq, write]
    simp [rs, rb, ls, lb, w, rh, rf, lh, lf]
    decide

theorem Back_Recovery_range (spd now : Nat) (s : State) :
    (now < (s.back_recovery_start + 1 * spd / 4) % U32 ∨
        now < (s.back_recovery_start + 2 * spd / 4) % U32 ∨
        now < (s.back_recovery_start + 3 * spd / 4) % U32 →
      (∀ j : Fin 9, j ≠ rf → in_servo_range ((Back_Recovery spd now s).pos j)) ∧
      (Back_Recovery spd now s).pos rf = -20) ∧
    in_servo_range ((Back_Recovery spd now s).pos w) := by
  unfold Back_Recovery
  simp only []
  refine ⟨?_, ?_⟩
  · intro hq
    split_ifs with h1 h2 h3
    · refine ⟨fun j hj => ?_, ?_⟩
      · simp only [fix_loop_eq, write]
        revert hj
        fin_cases j <;> simp [rs, rb, ls, lb, w, rh, rf, lh, lf] <;> decide
      · simp only [fix_loop_eq, write]
        simp [rs, rb, ls, lb, w, rh, rf, lh, lf]
        decide
    · refine ⟨fun j hj => ?_, ?_⟩
      · simp only [fix_loop_eq, write]
        revert hj
        fin_cases j <;> simp [rs, rb, ls, lb, w, rh, rf, lh, lf] <;> decide
      · simp only [fix_loop_eq, write]
        simp [rs, rb, ls, lb, w, rh, rf, lh, lf]
        decide
    · refine ⟨fun j hj => ?_, ?_⟩
      · simp only [fix_loop_eq, write]
        revert hj
        fin_cases j <;> simp [rs, rb, ls, lb, w, rh, rf, lh, lf] <;> decide
      · simp only [fix_loop_eq, write]
        simp [rs, rb, ls, lb, w, rh, rf, lh, lf]
        decide
    · exfalso
      tauto
  · split_ifs <;> simp only [fix_loop_eq, write] <;>
      simp [rs, rb, ls, lb, w, rh, rf, lh, lf] <;> decide

/-! ## C24: commanded angles and the servo range -/

/-- Claim C24 fails as stated: `Right_Hook` commands the waist to
`gaucho_pos[w] + 90 = 185`, and the first quartile of both recovery sequences
commands the right foot to `gaucho_pos[rf] - 80 = -20`. -/
theorem C24_counterexample :
    (Right_Hook State.init).pos w = gaucho_pos w + 90 ∧
    ¬ in_servo_range ((Right_Hook State.init).pos w) ∧
    (Front_Recovery 2100 0 State.init).pos rf = gaucho_pos rf - 80 ∧
    ¬ in_servo_range ((Front_Recovery 2100 0 State.init).pos rf) ∧
    (Back_Recovery 2100 0 State.init).pos rf = gaucho_pos rf - 80 ∧
    ¬ in_servo_range ((Back_Recovery 2100 0 State.init).pos rf) := by
  decide

/-- Claim C24, amended. For every time, state and period, every joint target that
is not sampled from a ramp channel lies within 0..180 degrees, with two
exceptions: the waist target of `Right_Hook`, which is 185, and the right-foot
target of the first three quartiles of `Back_Recovery` and of the first quartile
of `Front_Recovery`, which is -20. (Ramp-sampled and left out: the arm joints of
`WARMING_UP`, the waist of the second phase of `BEHOLD`, the biceps of `DUST_OFF`
inside its window, and all joints but the waist in the last quartile of
`Back_Recovery`.) -/
theorem C24_commanded_range (spd now : Nat) (s : State) :
    (∀ j : Fin 9, in_servo_range ((Idle s).pos j)) ∧
    (∀ j : Fin 9, in_servo_range ((Forward spd now s).pos j)) ∧
    (∀ j : Fin 9, in_servo_range ((Backward spd now s).pos j)) ∧
    (∀ j : Fin 9, in_servo_range ((Left spd now s).pos j)) ∧
    (∀ j : Fin 9, in_servo_range ((Right spd now s).pos j)) ∧
    (∀ j : Fin 9, in_servo_range ((Sidestep_Left spd now s).pos j)) ∧
    (∀ j : Fin 9, in_servo_range ((Sidestep_Right spd now s).pos j)) ∧
    (∀ j : Fin 9, in_servo_range ((Left_Hook s).pos j)) ∧
    (∀ j : Fin 9, in_servo_range ((Right_Sweep s).pos j)) ∧
    (∀ j : Fin 9, in_servo_range ((Left_Sweep s).pos j)) ∧
    (∀ j : Fin 9, in_servo_range ((Right_Shot s).pos j)) ∧
    (∀ j : Fin 9, in_servo_range ((Left_Shot s).pos j)) ∧
    (∀ j : Fin 9, in_servo_range ((GIVE_IT_YOUR_ALL s).pos j)) ∧
    ((∀ j : Fin 9, j ≠ w → in_servo_range ((Right_Hook s).pos j)) ∧
      (Right_Hook s).pos w = 185) ∧
    (∀ j : Fin 9, In_Use_t1 j = false → in_servo_range ((WARMING_UP now s).pos j)) ∧
    (∀ j : Fin 9, now < (s.t2_timeout + 350) % U32 ∨ j ≠ w →
      in_servo_range ((BEHOLD now s).pos j)) ∧
    (∀ j : Fin 9, ¬ now < (s.t3_timeout + 500) % U32 ∨ In_Use_t3 j = false →
      in_servo_range ((DUST_OFF now s).pos j)) ∧
    ((∀ j : Fin 9, j ≠ rf ∨ ¬ now < (s.front_recovery_start + 1 * spd / 4) % U32 →
        in_servo_range ((Front_Recovery spd now s).pos j)) ∧
      (now < (s.front_recovery_start + 1 * spd / 4) % U32 →
        (Front_Recovery spd now s).pos rf = -20)) ∧
    ((now < (s.back_recovery_start + 1 * spd / 4) % U32 ∨
          now < (s.back_recovery_start + 2 * spd / 4) % U32 ∨
          now < (s.back_recovery_start + 3 * spd / 4) % U32 →
        (∀ j : Fin 9, j ≠ rf → in_servo_range ((Back_Recovery spd now s).pos j)) ∧
        (Back_Recovery spd now s).pos rf = -20) ∧
      in_servo_range ((Back_Recovery spd now s).pos w)) :=
  ⟨Idle_range s,
    Forward_range spd now s,
    Backward_range spd now s,
    Left_range spd now s,
    Right_range spd now s,
    Sidestep_Left_range spd now s,
    Sidestep_Right_range spd now s,
    Left_Hook_range s,
    Right_Sweep_range s,
    Left_Sweep_range s,
    Right_Shot_range s,
    Left_Shot_range s,
    GIVE_IT_YOUR_ALL_range s,
    Right_Hook_range s,
    fun j hj => WARMING_UP_range now s j hj,
    fun j hj => BEHOLD_range now s j hj,
    fun j hj => DUST_OFF_range now s j hj,
    Front_Recovery_range spd now s,
    Back_Recovery_range spd now s⟩

/-- Claim C24, amended, at the crouched forward gait, the left hook and the third
quartile of `Front_Recovery`. -/
theorem C24_commanded_range_witness :
    in_servo_range ((Forward 350 100 { State.level 3000 with crouched := true }).pos lf) ∧
    in_servo_range ((Left_Hook (State.level 3000)).pos w) ∧
    in_servo_range ((Front_Recovery 2100 1200 (State.level 3000)).pos rf) :=
  ⟨(C24_commanded_range 350 100 { State.level 3000 with crouched := true }).2.1 lf,
   (C24_commanded_range 350 100 (State.level 3000)).2.2.2.2.2.2.2.1 w,
   (C24_commanded_range 2100 1200
      (State.level 3000)).2.2.2.2.2.2.2.2.2.2.2.2.2.2.2.2.2.1.1 rf (Or.inr (by decide))⟩

end Bahamut
